import Mathlib

/-!
A shallow Lean embedding of the core of the yokoiboy Game Boy emulator
(register file, interrupt controller, timers, pixel pipeline, memory map,
CPU instruction decode and execution), together with theorems checking the
natural-language specification against the embedded code.

Conventions of the embedding:
* Rust `u8`/`u16`/`u64` values are represented as `Nat`; wrapping arithmetic
  (`std::num::Wrapping`) is written with an explicit `% 2^w`, and `as u8` /
  `as u16` casts are written `% 256` / `% 65536`.
* Fixed-size byte arrays and `Vec<u8>` backing stores are represented as total
  functions `Nat → Nat` (the spec models the address space as a total
  function); `VecDeque` FIFOs are represented as `List`s.
* Rust code that can `panic!` / `todo!` / `unreachable!` is embedded in the
  `Option` monad, `none` standing for the abort.
* Functions that mutate `&mut self` take and return the structure explicitly.
-/

namespace GB

/-- Wrapping 8-bit addition, `Wrapping<u8> +`. -/
def wadd8 (a b : Nat) : Nat := (a + b) % 256

/-- Wrapping 8-bit subtraction, `Wrapping<u8> -`. -/
def wsub8 (a b : Nat) : Nat := (a % 256 + (256 - b % 256)) % 256

/-- Wrapping 16-bit addition, `Wrapping<u16> +`. -/
def wadd16 (a b : Nat) : Nat := (a + b) % 65536

/-- Wrapping 16-bit subtraction, `Wrapping<u16> -`. -/
def wsub16 (a b : Nat) : Nat := (a % 65536 + (65536 - b % 65536)) % 65536

/-- `u16::wrapping_add_signed` with an `i8` (sign-extended) second operand.
The `i8` is represented by its raw byte `b < 256`; bytes at or above 128
stand for `b - 256`. -/
def sadd16 (a b : Nat) : Nat :=
  (a + b % 256 + (if b % 256 ≥ 128 then 65536 - 256 else 0)) % 65536

/-- Bitwise complement of a `u8`, Rust `!x`. -/
def compl8 (x : Nat) : Nat := 255 ^^^ x % 256

/-- `registers.rs u16_from_u8s`: `(higher as u16) << 8 | lower as u16`. -/
def u16_from_u8s (higher lower : Nat) : Nat := (higher <<< 8) ||| lower

/-- `registers.rs higher_u8`: `(from >> 8) as u8`. -/
def higher_u8 (x : Nat) : Nat := (x >>> 8) % 256

/-- `registers.rs lower_u8`: `from as u8`. -/
def lower_u8 (x : Nat) : Nat := x % 256

/-- `utils.rs is_bit_set` on a byte value. -/
def is_bit_set (value : Nat) (bit_position : Nat) : Bool :=
  value &&& (1 <<< bit_position) != 0

/-- `utils.rs` `compute_set_bit`: `value | (1 << bit_position)`. -/
def compute_set_bit (value : Nat) (bit_position : Nat) : Nat :=
  value ||| (1 <<< bit_position)

/-- `utils.rs` `compute_unset_bit`: `value & !(1 << bit_position)`. -/
def compute_unset_bit (value : Nat) (bit_position : Nat) : Nat :=
  value &&& compl8 (1 <<< bit_position)

/-- Pointwise update of a total-function byte store. -/
def updF (f : Nat → Nat) (i v : Nat) : Nat → Nat :=
  fun j => if j = i then v else f j

/-! ## Register file (`registers.rs`) -/

/-- `registers.rs R8`. -/
inductive R8 where
  | A | B | C | D | E | F | H | L
  deriving DecidableEq, Repr

/-- `registers.rs R16`. -/
inductive R16 where
  | AF | BC | DE | HL | SP | PC
  deriving DecidableEq, Repr

/-- `registers.rs Flag`. -/
inductive Flag where
  | Z | N | C | H
  deriving DecidableEq, Repr

/-- `Flag::get_bit`. -/
def Flag.get_bit : Flag → Nat
  | .Z => 7
  | .N => 6
  | .H => 5
  | .C => 4

/-- `registers.rs Registers`: six 16-bit composite registers. -/
structure Registers where
  af : Nat
  bc : Nat
  de : Nat
  hl : Nat
  sp : Nat
  pc : Nat
  deriving DecidableEq, Repr

namespace Registers

/-- `Registers::new`. -/
def new : Registers := ⟨0, 0, 0, 0, 0, 0⟩

def read_a (r : Registers) : Nat := higher_u8 r.af
def read_f (r : Registers) : Nat := lower_u8 r.af
def read_b (r : Registers) : Nat := higher_u8 r.bc
def read_c (r : Registers) : Nat := lower_u8 r.bc
def read_d (r : Registers) : Nat := higher_u8 r.de
def read_e (r : Registers) : Nat := lower_u8 r.de
def read_h (r : Registers) : Nat := higher_u8 r.hl
def read_l (r : Registers) : Nat := lower_u8 r.hl

def write_a (r : Registers) (a : Nat) : Registers :=
  { r with af := u16_from_u8s a (read_f r) }

def write_f (r : Registers) (f : Nat) : Registers :=
  { r with af := u16_from_u8s (read_a r) f }

def write_b (r : Registers) (b : Nat) : Registers :=
  { r with bc := u16_from_u8s b (read_c r) }

def write_c (r : Registers) (c : Nat) : Registers :=
  { r with bc := u16_from_u8s (read_b r) c }

def write_d (r : Registers) (d : Nat) : Registers :=
  { r with de := u16_from_u8s d (read_e r) }

def write_e (r : Registers) (e : Nat) : Registers :=
  { r with de := u16_from_u8s (read_d r) e }

def write_h (r : Registers) (h : Nat) : Registers :=
  { r with hl := u16_from_u8s h (read_l r) }

def write_l (r : Registers) (l : Nat) : Registers :=
  { r with hl := u16_from_u8s (read_h r) l }

/-- `Registers::read_r8`. -/
def read_r8 (r : Registers) : R8 → Nat
  | .A => read_a r
  | .B => read_b r
  | .C => read_c r
  | .D => read_d r
  | .E => read_e r
  | .F => read_f r
  | .H => read_h r
  | .L => read_l r

/-- `Registers::write_r8`. -/
def write_r8 (r : Registers) : R8 → Nat → Registers
  | .A, v => write_a r v
  | .B, v => write_b r v
  | .C, v => write_c r v
  | .D, v => write_d r v
  | .E, v => write_e r v
  | .F, v => write_f r v
  | .H, v => write_h r v
  | .L, v => write_l r v

/-- `Registers::read_r16`. -/
def read_r16 (r : Registers) : R16 → Nat
  | .AF => r.af
  | .BC => r.bc
  | .DE => r.de
  | .HL => r.hl
  | .SP => r.sp
  | .PC => r.pc

/-- `Registers::write_r16`. -/
def write_r16 (r : Registers) : R16 → Nat → Registers
  | .AF, v => { r with af := v }
  | .BC, v => { r with bc := v }
  | .DE, v => { r with de := v }
  | .HL, v => { r with hl := v }
  | .SP, v => { r with sp := v }
  | .PC, v => { r with pc := v }

/-- `Registers::get_bit`. -/
def get_bit (r : Registers) (r8 : R8) (bit : Nat) : Bool :=
  (read_r8 r r8) &&& (1 <<< bit) != 0

/-- `Registers::read_flag`. -/
def read_flag (r : Registers) (flag : Flag) : Bool :=
  (read_f r) &&& (1 <<< flag.get_bit) != 0

/-- `Registers::write_flag`. -/
def write_flag (r : Registers) (flag : Flag) (value : Bool) : Registers :=
  if value then
    write_f r ((read_f r) ||| (1 <<< flag.get_bit))
  else
    write_f r ((read_f r) &&& compl8 (1 <<< flag.get_bit))

/-- `Registers::set_flag`. -/
def set_flag (r : Registers) (flag : Flag) : Registers := write_flag r flag true

/-- `Registers::unset_flag`. -/
def unset_flag (r : Registers) (flag : Flag) : Registers := write_flag r flag false

/-- `Registers::znhc`: batch write of the Z/N/H/C flags at once. -/
def znhc (r : Registers) (z n h c : Bool) : Registers :=
  let clean_f := (read_f r) &&& 0x0F
  let new_f := clean_f ||| (z.toNat <<< 7) ||| (n.toNat <<< 6) |||
      (h.toNat <<< 5) ||| (c.toNat <<< 4)
  write_f r new_f

end Registers

/-! ## Interrupt controller (`cpu/interrupts.rs`) -/

def VBLANK_INTERRUPT_BIT : Nat := 0
def VBLANK_INTERRUPT_ADDRESS : Nat := 0x40
def STAT_INTERRUPT_BIT : Nat := 1
def STAT_INTERRUPT_ADDRESS : Nat := 0x48
def TIMER_INTERRUPT_BIT : Nat := 2
def TIMER_INTERRUPT_ADDRESS : Nat := 0x50
def SERIAL_INTERRUPT_BIT : Nat := 3
def SERIAL_INTERRUPT_ADDRESS : Nat := 0x58
def JOYPAD_INTERRUPT_BIT : Nat := 4
def JOYPAD_INTERRUPT_ADDRESS : Nat := 0x60

/-- `cpu/interrupts.rs Interrupts`. -/
structure Interrupts where
  interrupt_master_enable : Bool
  interrupt_master_enable_delayed : Bool
  interrupt_enable : Nat
  interrupt_flag : Nat
  deriving DecidableEq, Repr

namespace Interrupts

/-- `Interrupts::new`. -/
def new : Interrupts := ⟨false, false, 0, 0⟩

/-- `Interrupts::request_interrupt` (also spelled `request` at its
`ppu.rs`/`timers.rs` call sites): `interrupt_flag |= 1 << interrupt_bit`. -/
def request (i : Interrupts) (interrupt_bit : Nat) : Interrupts :=
  { i with interrupt_flag := i.interrupt_flag ||| (1 <<< interrupt_bit) }

end Interrupts

/-- `cpu/interrupts.rs interrupt_handler_offset`: fixed handler address per
interrupt bit; `unreachable!` for bits above 4. -/
def interrupt_handler_offset (interrupt_bit : Nat) : Option Nat :=
  if interrupt_bit = VBLANK_INTERRUPT_BIT then some VBLANK_INTERRUPT_ADDRESS
  else if interrupt_bit = STAT_INTERRUPT_BIT then some STAT_INTERRUPT_ADDRESS
  else if interrupt_bit = TIMER_INTERRUPT_BIT then some TIMER_INTERRUPT_ADDRESS
  else if interrupt_bit = SERIAL_INTERRUPT_BIT then some SERIAL_INTERRUPT_ADDRESS
  else if interrupt_bit = JOYPAD_INTERRUPT_BIT then some JOYPAD_INTERRUPT_ADDRESS
  else none

/-! ## Timers (`cpu/timers.rs`) -/

def DIVIDE_REGISTER_ADDRESS : Nat := 0xFF04
def TIMER_COUNTER_ADDRESS : Nat := 0xFF05
def TIMER_MODULO_ADDRESS : Nat := 0xFF06
def TIMER_CONTROL_ADDRESS : Nat := 0xFF07

/-- `cpu/timers.rs Timers`. -/
structure Timers where
  divide_register : Nat
  divide_register_dots : Nat
  divide_register_to_be_reset : Bool
  timer_counter : Nat
  timer_counter_dots : Nat
  timer_modulo : Nat
  timer_control : Nat
  deriving DecidableEq, Repr

namespace Timers

/-- `Timers::new`. -/
def new : Timers :=
  { divide_register := 0
    divide_register_to_be_reset := false
    divide_register_dots := 0
    timer_counter := 0
    timer_counter_dots := 0
    timer_modulo := 0
    timer_control := 0 }

/-- `Timers::get_timer_counter_threshold`. -/
def get_timer_counter_threshold (t : Timers) : Nat :=
  match t.timer_control &&& 0x3 with
  | 0 => 1024
  | 1 => 16
  | 2 => 64
  | _ => 256

/-- `Timers::tick`: advance the divider and (when enabled) the configurable
counter by one dot; on counter overflow reload from the modulo register and
request the timer interrupt. -/
def tick (t : Timers) (interrupts : Interrupts) : Timers × Interrupts :=
  let t :=
    { t with divide_register_dots := t.divide_register_dots + 1 }
  let t :=
    if t.divide_register_dots = 256 then
      { t with divide_register_dots := 0,
               divide_register := wadd8 t.divide_register 1 }
    else t
  if t.timer_control &&& 0b100 ≠ 0 then
    let t := { t with timer_counter_dots := t.timer_counter_dots + 1 }
    if t.timer_counter_dots = get_timer_counter_threshold t then
      let t := { t with timer_counter_dots := 0,
                        timer_counter := wadd8 t.timer_counter 1 }
      if t.timer_counter = 0 then
        ({ t with timer_counter := t.timer_modulo },
         interrupts.request TIMER_INTERRUPT_BIT)
      else (t, interrupts)
    else (t, interrupts)
  else (t, interrupts)

/-- The loop body of `Timers::ticks`: `for _ in 0..dots { self.tick(...) }`. -/
def tickN (n : Nat) (s : Timers × Interrupts) : Timers × Interrupts :=
  match n with
  | 0 => s
  | n + 1 => tickN n (tick s.1 s.2)

/-- `Timers::ticks`: tick `dots` times, then consume a pending
divider-register reset. -/
def ticks (t : Timers) (interrupts : Interrupts) (dots : Nat) :
    Timers × Interrupts :=
  let (t, interrupts) := tickN dots (t, interrupts)
  if t.divide_register_to_be_reset then
    ({ t with divide_register_to_be_reset := false, divide_register := 0 },
     interrupts)
  else (t, interrupts)

/-- `Timers::read_u8`; `unreachable!` outside the four timer registers. -/
def read_u8 (t : Timers) (address : Nat) : Option Nat :=
  if address = DIVIDE_REGISTER_ADDRESS then some t.divide_register
  else if address = TIMER_COUNTER_ADDRESS then some t.timer_counter
  else if address = TIMER_MODULO_ADDRESS then some t.timer_modulo
  else if address = TIMER_CONTROL_ADDRESS then some t.timer_control
  else none

/-- `Timers::write_u8`; a write to the divider only marks it to be reset at
the end of the current instruction's `ticks` call. -/
def write_u8 (t : Timers) (address : Nat) (value : Nat) : Option Timers :=
  if address = DIVIDE_REGISTER_ADDRESS then
    some { t with divide_register_to_be_reset := true }
  else if address = TIMER_COUNTER_ADDRESS then
    some { t with timer_counter := value }
  else if address = TIMER_MODULO_ADDRESS then
    some { t with timer_modulo := value }
  else if address = TIMER_CONTROL_ADDRESS then
    some { t with timer_control := value }
  else none

end Timers

/-! ## Pixel fetchers (`pixel_fetcher.rs`, `pixel_fetcher/background_or_window.rs`,
`pixel_fetcher/object.rs`)

`pixel_fetcher.rs` and `pixel_fetcher/object.rs` each declare a structurally
identical private `FetcherState` enum; we declare it once and use it for both
fetchers. -/

/-- `pixel_fetcher.rs FetcherState`. -/
inductive FetcherState where
  | GetTileDelay
  | GetTile
  | GetTileDataLowDelay
  | GetTileDataLow
  | GetTileDataHighDelay
  | GetTileDataHigh
  | PushRow
  deriving DecidableEq, Repr

/-- `pixel_fetcher.rs FIFOItem`. -/
structure FIFOItem where
  color : Nat
  deriving DecidableEq, Repr

/-- `pixel_fetcher.rs FetchingFor`. -/
inductive FetchingFor where
  | BackgroundOrWindowFIFO
  | ObjectFIFO
  deriving DecidableEq, Repr

/-- `pixel_fetcher.rs Fetcher`. -/
structure Fetcher where
  fetching_for : FetchingFor
  deriving DecidableEq, Repr

/-- `pixel_fetcher.rs TileAddressingMode`. -/
inductive TileAddressingMode where
  | UnsignedFrom0x8000
  | SignedFrom0x9000
  deriving DecidableEq, Repr

/-- `pixel_fetcher.rs tile_index_in_palette` (re-exported to `ppu.rs` as
`get_tile_index_in_palette`): `(256 + (tile_id as i8) as i16) as u16` in the
signed mode. -/
def tile_index_in_palette (tile_id : Nat) (mode : TileAddressingMode) : Nat :=
  match mode with
  | .UnsignedFrom0x8000 => tile_id % 256
  | .SignedFrom0x9000 =>
      if tile_id % 256 < 128 then 256 + tile_id % 256 else tile_id % 256

namespace Fetcher

/-- `Fetcher::new`. -/
def new : Fetcher := ⟨.BackgroundOrWindowFIFO⟩

/-- `Fetcher::switch_to`. -/
def switch_to (_f : Fetcher) (fetching_for : FetchingFor) : Fetcher :=
  ⟨fetching_for⟩

/-- `Fetcher::switch_to_object_fifo`. -/
def switch_to_object_fifo (f : Fetcher) : Fetcher :=
  switch_to f .ObjectFIFO

/-- `Fetcher::switch_to_background_or_window_fifo`. -/
def switch_to_background_or_window_fifo (f : Fetcher) : Fetcher :=
  switch_to f .BackgroundOrWindowFIFO

/-- `Fetcher::read_tile_row`: read one bit plane of a tile row out of VRAM and
interleave it into `tile_row_data` (high X pixel in the low bit position, hence
the `7 - bit_position` reordering). -/
def read_tile_row (vram : Nat → Nat) (addressing_mode : TileAddressingMode)
    (current_line : Nat) (tile_id : Nat) (bit_plane : Bool)
    (tile_row_data : Nat → Nat) : Nat → Nat :=
  let tip := tile_index_in_palette tile_id addressing_mode
  let row_of_pixel_within_tile := (current_line &&& 255) % 8
  let address_in_vram_slice := tip * 16 + row_of_pixel_within_tile * 2
  let pixel_data := vram (address_in_vram_slice + bit_plane.toNat)
  (List.range 8).foldl
    (fun trd bit_position =>
      updF trd (7 - bit_position)
        (trd (7 - bit_position) |||
          (((pixel_data >>> bit_position) &&& 1) <<< bit_plane.toNat)))
    tile_row_data

end Fetcher

/-- `pixel_fetcher/background_or_window.rs BackgroundOrWindowFetcher`. -/
structure BackgroundOrWindowFetcher where
  state : FetcherState
  fifo : List FIFOItem
  row_of_pixel_within_tile : Nat
  tile_id : Nat
  vram_tile_column : Nat
  tile_row_data : Nat → Nat

namespace BackgroundOrWindowFetcher

/-- `BackgroundOrWindowFetcher::new`. -/
def new : BackgroundOrWindowFetcher :=
  { state := .GetTileDelay
    fifo := []
    row_of_pixel_within_tile := 0
    tile_id := 0
    vram_tile_column := 0
    tile_row_data := fun _ => 0 }

/-- `BackgroundOrWindowFetcher::prepare_for_new_frame`. -/
def prepare_for_new_frame (f : BackgroundOrWindowFetcher) :
    BackgroundOrWindowFetcher :=
  { f with state := .GetTileDelay
           fifo := []
           row_of_pixel_within_tile := 0
           vram_tile_column := 0
           tile_row_data := fun _ => 0 }

/-- `BackgroundOrWindowFetcher::prepare_for_new_row`. -/
def prepare_for_new_row (f : BackgroundOrWindowFetcher) :
    BackgroundOrWindowFetcher :=
  { f with state := .GetTileDelay
           fifo := []
           row_of_pixel_within_tile := 0
           vram_tile_column := 0
           tile_row_data := fun _ => 0 }

end BackgroundOrWindowFetcher

/-- `pixel_fetcher/object.rs Sprite`. -/
structure Sprite where
  attributes : Nat
  tile_index : Nat
  x_screen_plus_8 : Nat
  y_screen_plus_16 : Nat
  deriving DecidableEq, Repr

/-- `pixel_fetcher/object.rs ObjectPalette`. -/
inductive ObjectPalette where
  | ObjectPalette0
  | ObjectPalette1
  deriving DecidableEq, Repr

/-- `pixel_fetcher/object.rs ObjectFIFOItem`. -/
structure ObjectFIFOItem where
  color : Nat
  palette : ObjectPalette
  deriving DecidableEq, Repr

/-- `pixel_fetcher/object.rs ObjectFetcher`.  The `vram_tile_column` field is
the one `ppu.rs` resets at the OAM-scan boundary (`obj_fetcher.vram_tile_column
= 0`); the fetcher itself keys on `pixel_index_in_row`. -/
structure ObjectFetcher where
  state : FetcherState
  fifo : List ObjectFIFOItem
  sprite : Option Sprite
  pixel_index_in_row : Nat
  vram_tile_column : Nat
  tile_row_data : Nat → Nat
  selected_objects : List Sprite

/-- `pixel_fetcher/object.rs inclusive_ranges_overlap`. -/
def inclusive_ranges_overlap (r1 r2 : Int × Int) : Bool :=
  max r1.1 r2.1 ≤ min r1.2 r2.2

/-- `pixel_fetcher/object.rs palette_for_sprite`. -/
def palette_for_sprite (sprite : Option Sprite) : ObjectPalette :=
  match sprite with
  | some sprite =>
      if (sprite.attributes >>> 4) &&& 1 = 0 then .ObjectPalette0
      else .ObjectPalette1
  | none => .ObjectPalette0

namespace ObjectFetcher

/-- `ObjectFetcher::new`. -/
def new : ObjectFetcher :=
  { state := .GetTileDelay
    fifo := []
    sprite := none
    pixel_index_in_row := 0
    vram_tile_column := 0
    tile_row_data := fun _ => 0
    selected_objects := [] }

/-- `ObjectFetcher::prepare_for_new_row`. -/
def prepare_for_new_row (f : ObjectFetcher) : ObjectFetcher :=
  { f with state := .GetTileDelay
           fifo := []
           tile_row_data := fun _ => 0
           pixel_index_in_row := 0 }

/-- `ObjectFetcher::prepare_for_new_frame`. -/
def prepare_for_new_frame (f : ObjectFetcher) : ObjectFetcher :=
  { f with state := .GetTileDelay
           fifo := []
           pixel_index_in_row := 0 }

end ObjectFetcher

/-! ## PPU (`ppu.rs`) -/

def TILE_MAP0_VRAM_OFFSET : Nat := 0x1800
def TILE_MAP1_VRAM_OFFSET : Nat := 0x1C00
def LCD_HORIZONTAL_PIXEL_COUNT : Nat := 160
def LCD_VERTICAL_PIXEL_COUNT : Nat := 144
def TILE_MAP_HORIZONTAL_TILE_COUNT : Nat := 32
def PIXEL_DATA_SIZE : Nat := 4

def LCDC_BACKGROUND_TILE_MAP_AREA_BIT : Nat := 3
def LCDC_BACKGROUND_AND_WINDOW_TILE_AREA_BIT : Nat := 4
def LCDC_LCD_ENABLE_BIT : Nat := 7

def LYC_EQUALS_LY_BIT : Nat := 2
def MODE_0_INTERRUPT_SELECT_BIT : Nat := 3
def MODE_1_INTERRUPT_SELECT_BIT : Nat := 4
def MODE_2_INTERRUPT_SELECT_BIT : Nat := 5
def LYC_EQUALS_LY_INTERRUPT_SELECT_BIT : Nat := 6

/-- `ppu.rs PPUState`. -/
inductive PPUState where
  | OAMScan
  | DrawingPixels
  | HorizontalBlank
  | VerticalBlank
  deriving DecidableEq, Repr

/-- `ppu.rs PPU`. -/
structure PPU where
  drawn_pixels_on_current_row : Nat
  fix_ly_for_gb_doctor : Bool
  last_stat_line : Nat
  scanline_dots : Nat
  state : PPUState
  background_palette_data : Nat
  cgb_background_palette_data : Nat
  cgb_background_palette_spec : Nat
  lcd_control : Nat
  lcd_status : Nat
  lcd_y_compare : Nat
  lcd_y_coord : Nat
  object_palette_data : Nat
  object_palette_spec : Nat
  object_palette_0 : Nat
  object_palette_1 : Nat
  scx : Nat
  scy : Nat
  vram_bank : Nat
  window_x7 : Nat
  window_y : Nat
  object_attribute_memory : Nat → Nat
  vram : Nat → Nat
  wram_0 : Nat → Nat
  wram_1 : Nat → Nat
  lcd_pixels : Nat → Nat
  tile_map0_pixels : Nat → Nat
  tile_map1_pixels : Nat → Nat
  tile_palette_pixels : Nat → Nat
  frame_scxs : Nat → Nat
  frame_scxs_valid : Nat → Bool
  frame_scys_at_scanline_0 : Nat → Nat
  frame_scys_first_scanline_valid : Nat → Bool
  tile_map0_last_addressing_modes : Nat → TileAddressingMode
  tile_map1_last_addressing_modes : Nat → TileAddressingMode

/-- `ppu.rs pixel_code_to_rgba`; RGBA quadruple, `panic!` on a pixel code
above 3. -/
def pixel_code_to_rgba (pixel_code : Nat) (palette : Nat) :
    Option (Nat × Nat × Nat × Nat) := do
  let pixel_shade ←
    if pixel_code = 0 then some (palette &&& 0b11)
    else if pixel_code = 1 then some ((palette >>> 2) &&& 0b11)
    else if pixel_code = 2 then some ((palette >>> 4) &&& 0b11)
    else if pixel_code = 3 then some ((palette >>> 6) &&& 0b11)
    else none
  if pixel_shade = 0 then some (0xFF, 0xFF, 0xFF, 255)       -- WHITE
  else if pixel_shade = 1 then some (0xAA, 0xAA, 0xAA, 255)  -- LIGHT_GRAY
  else if pixel_shade = 2 then some (0x55, 0x55, 0x55, 255)  -- DARK_GRAY
  else if pixel_shade = 3 then some (0, 0, 0, 255)           -- BLACK
  else none

/-- `ppu.rs pixel_coordinates_in_rgba_slice`. -/
def pixel_coordinates_in_rgba_slice (x y : Nat) : Nat :=
  (y * LCD_HORIZONTAL_PIXEL_COUNT + x) * PIXEL_DATA_SIZE

/-- Store a 4-byte RGBA pixel into a byte surface
(`surface[from..from + 4].copy_from_slice(&rgba)`). -/
def writeRGBA (surface : Nat → Nat) (from_ : Nat)
    (rgba : Nat × Nat × Nat × Nat) : Nat → Nat :=
  updF (updF (updF (updF surface from_ rgba.1) (from_ + 1) rgba.2.1)
    (from_ + 2) rgba.2.2.1) (from_ + 3) rgba.2.2.2

namespace PPU

/-- `PPU::new`. -/
def new (fix_ly : Bool) : PPU :=
  { drawn_pixels_on_current_row := 0
    fix_ly_for_gb_doctor := fix_ly
    last_stat_line := 0
    scanline_dots := 0
    state := .OAMScan
    background_palette_data := 0
    cgb_background_palette_spec := 0
    cgb_background_palette_data := 0
    lcd_control := 0
    lcd_status := 2  -- initially set Mode 2
    lcd_y_compare := 0
    lcd_y_coord := 0
    object_palette_data := 0
    object_palette_0 := 0
    object_palette_1 := 0
    object_palette_spec := 0
    scx := 0
    scy := 0
    vram_bank := 0
    window_x7 := 0
    window_y := 0
    object_attribute_memory := fun _ => 0
    vram := fun _ => 0
    wram_0 := fun _ => 0
    wram_1 := fun _ => 0
    lcd_pixels := fun _ => 0
    tile_map0_pixels := fun _ => 0
    tile_map1_pixels := fun _ => 0
    tile_palette_pixels := fun _ => 0
    frame_scxs := fun _ => 0
    frame_scxs_valid := fun _ => true
    frame_scys_at_scanline_0 := fun _ => 0
    frame_scys_first_scanline_valid := fun _ => true
    tile_map0_last_addressing_modes := fun _ => .UnsignedFrom0x8000
    tile_map1_last_addressing_modes := fun _ => .UnsignedFrom0x8000 }

/-- `PPU::get_addressing_mode`. -/
def get_addressing_mode (p : PPU) : TileAddressingMode :=
  if is_bit_set p.lcd_control LCDC_BACKGROUND_AND_WINDOW_TILE_AREA_BIT then
    .UnsignedFrom0x8000
  else
    .SignedFrom0x9000

/-- `PPU::is_lcd_ppu_on`: LCDC bit 7. -/
def is_lcd_ppu_on (p : PPU) : Bool :=
  is_bit_set p.lcd_control LCDC_LCD_ENABLE_BIT

/-- `PPU::read_ly`. -/
def read_ly (p : PPU) : Nat :=
  if p.fix_ly_for_gb_doctor then 144 else p.lcd_y_coord

/-- `PPU::increment_ly`. -/
def increment_ly (p : PPU) (interrupts : Interrupts) :
    PPU × Interrupts :=
  let p := { p with lcd_y_coord := wadd8 p.lcd_y_coord 1 }
  if p.lcd_y_coord = p.lcd_y_compare then
    let p := { p with lcd_status := compute_set_bit p.lcd_status LYC_EQUALS_LY_BIT }
    if is_bit_set p.lcd_status LYC_EQUALS_LY_INTERRUPT_SELECT_BIT then
      (p, interrupts.request STAT_INTERRUPT_BIT)
    else (p, interrupts)
  else
    ({ p with lcd_status := compute_unset_bit p.lcd_status LYC_EQUALS_LY_BIT },
     interrupts)

/-- `PPU::read_vram`. -/
def read_vram (p : PPU) (address : Nat) : Nat := p.vram address

/-- `PPU::read_wram_0`. -/
def read_wram_0 (p : PPU) (address : Nat) : Nat := p.wram_0 address

/-- `PPU::read_wram_1`. -/
def read_wram_1 (p : PPU) (address : Nat) : Nat := p.wram_1 address

/-- `PPU::read_lcdc`. -/
def read_lcdc (p : PPU) : Nat := p.lcd_control

/-- `PPU::write_vram`. -/
def write_vram (p : PPU) (address value : Nat) : PPU :=
  { p with vram := updF p.vram address value }

/-- `PPU::write_wram_0`. -/
def write_wram_0 (p : PPU) (address value : Nat) : PPU :=
  { p with wram_0 := updF p.wram_0 address value }

/-- `PPU::write_wram_1`. -/
def write_wram_1 (p : PPU) (address value : Nat) : PPU :=
  { p with wram_1 := updF p.wram_1 address value }

/-- `PPU::write_lcdc`. -/
def write_lcdc (p : PPU) (value : Nat) : PPU :=
  { p with lcd_control := value }

/-- `PPU::prepare_for_new_frame`. -/
def prepare_for_new_frame (p : PPU) (bgw : BackgroundOrWindowFetcher)
    (obj : ObjectFetcher) :
    PPU × BackgroundOrWindowFetcher × ObjectFetcher :=
  ({ p with lcd_y_coord := 0
            frame_scxs := fun _ => 0
            frame_scxs_valid := fun _ => true
            frame_scys_at_scanline_0 := fun _ => 0
            frame_scys_first_scanline_valid := fun _ => true },
   bgw.prepare_for_new_frame,
   obj.prepare_for_new_frame)

/-- `PPU::switch_to_oam_scan`. -/
def switch_to_oam_scan (p : PPU) (bgw : BackgroundOrWindowFetcher)
    (obj : ObjectFetcher) :
    PPU × BackgroundOrWindowFetcher × ObjectFetcher :=
  let status := compute_unset_bit p.lcd_status MODE_0_INTERRUPT_SELECT_BIT
  let status := compute_unset_bit status MODE_1_INTERRUPT_SELECT_BIT
  let status := compute_set_bit status MODE_2_INTERRUPT_SELECT_BIT
  ({ p with drawn_pixels_on_current_row := 0
            lcd_status := status
            state := .OAMScan },
   bgw.prepare_for_new_row,
   obj.prepare_for_new_row)

/-- `PPU::switch_to_drawing_pixels`. -/
def switch_to_drawing_pixels (p : PPU) (pixel_fetcher : Fetcher) :
    PPU × Fetcher :=
  ({ p with state := .DrawingPixels },
   pixel_fetcher.switch_to_background_or_window_fifo)

/-- `PPU::switch_to_horizontal_blank`. -/
def switch_to_horizontal_blank (p : PPU) : PPU :=
  let status := compute_set_bit p.lcd_status MODE_0_INTERRUPT_SELECT_BIT
  let status := compute_unset_bit status MODE_1_INTERRUPT_SELECT_BIT
  let status := compute_unset_bit status MODE_2_INTERRUPT_SELECT_BIT
  { p with lcd_status := status, state := .HorizontalBlank }

/-- `PPU::switch_to_vertical_blank`. -/
def switch_to_vertical_blank (p : PPU) (interrupts : Interrupts) :
    PPU × Interrupts :=
  let status := compute_unset_bit p.lcd_status MODE_0_INTERRUPT_SELECT_BIT
  let status := compute_set_bit status MODE_1_INTERRUPT_SELECT_BIT
  let status := compute_unset_bit status MODE_2_INTERRUPT_SELECT_BIT
  ({ p with lcd_status := status, state := .VerticalBlank },
   interrupts.request VBLANK_INTERRUPT_BIT)

/-- The sprite-selection loop of `PPU::tick` at the 80th OAM-scan dot:
scan the 40 OAM entries in order (offsets 0, 4, ..., 0x9C), keeping at most
10 sprites whose Y range covers the current scanline. -/
def select_objects (oam : Nat → Nat) (ly : Int) : List Sprite :=
  let object_size : Int := 8
  (List.range 40).foldl
    (fun selected k =>
      if selected.length = 10 then selected
      else
        let object_offset := 4 * k
        let y_screen_plus_16 := oam object_offset
        let object_min_y_on_screen : Int := (y_screen_plus_16 : Int) - 16
        let object_max_y_on_screen := object_min_y_on_screen + object_size - 1
        if object_min_y_on_screen ≤ ly ∧ ly ≤ object_max_y_on_screen then
          selected ++ [{ x_screen_plus_8 := oam (object_offset + 1)
                         y_screen_plus_16
                         tile_index := oam (object_offset + 2)
                         attributes := oam (object_offset + 3) }]
        else selected)
    []

end PPU

/-- `BackgroundOrWindowFetcher::tick`: one dot of the background/window
fetch state machine.  Mutates the fetcher and (in `GetTile`) the PPU's
remembered addressing modes. -/
def BackgroundOrWindowFetcher.tick (f : BackgroundOrWindowFetcher)
    (ppu : PPU) : BackgroundOrWindowFetcher × PPU :=
  match f.state with
  | .GetTileDelay => ({ f with state := .GetTile }, ppu)
  | .GetTile =>
      let vram_pixel_row := wadd8 ppu.read_ly ppu.scy &&& 255
      let tile_index_in_its_tile_map :=
        (vram_pixel_row / 8) * TILE_MAP_HORIZONTAL_TILE_COUNT +
          f.vram_tile_column
      let (row_vram_offset, ppu) :=
        if is_bit_set ppu.lcd_control LCDC_BACKGROUND_TILE_MAP_AREA_BIT then
          (0x1C00,
           { ppu with tile_map0_last_addressing_modes :=
              fun i => if i = tile_index_in_its_tile_map then
                ppu.get_addressing_mode
              else ppu.tile_map0_last_addressing_modes i })
        else
          (0x1800,
           { ppu with tile_map1_last_addressing_modes :=
              fun i => if i = tile_index_in_its_tile_map then
                ppu.get_addressing_mode
              else ppu.tile_map1_last_addressing_modes i })
      let row_address := row_vram_offset + (vram_pixel_row / 8) * 32
      ({ f with tile_id := ppu.vram (row_address + f.vram_tile_column),
                state := .GetTileDataLowDelay }, ppu)
  | .GetTileDataLowDelay => ({ f with state := .GetTileDataLow }, ppu)
  | .GetTileDataLow =>
      let ly := ppu.read_ly
      ({ f with tile_row_data :=
            (Fetcher.read_tile_row ppu.vram ppu.get_addressing_mode
              (wadd8 ly ppu.scy) f.tile_id false f.tile_row_data),
                state := .GetTileDataHighDelay }, ppu)
  | .GetTileDataHighDelay => ({ f with state := .GetTileDataHigh }, ppu)
  | .GetTileDataHigh =>
      let ly := ppu.read_ly
      ({ f with tile_row_data :=
            (Fetcher.read_tile_row ppu.vram ppu.get_addressing_mode
              (wadd8 ly ppu.scy) f.tile_id true f.tile_row_data),
                state := .PushRow }, ppu)
  | .PushRow =>
      -- Background/Window FIFO pixels only get pushed when the FIFO is empty
      if f.fifo.length = 0 then
        ({ f with
            fifo := f.fifo ++
              (List.range 8).map (fun i => { color := f.tile_row_data i })
            vram_tile_column := f.vram_tile_column + 1
            tile_row_data := fun _ => 0
            state := .GetTileDelay }, ppu)
      else (f, ppu)

/-- `ObjectFetcher::tick`: one dot of the object fetch state machine. -/
def ObjectFetcher.tick (f : ObjectFetcher) (ppu : PPU) : ObjectFetcher :=
  match f.state with
  | .GetTileDelay => { f with state := .GetTile }
  | .GetTile =>
      let current_x : Int := f.pixel_index_in_row
      let x_range : Int × Int := (current_x, current_x + 7)
      let sprite := f.selected_objects.find? (fun item =>
        let item_x_screen : Int := (item.x_screen_plus_8 : Int) - 8
        inclusive_ranges_overlap x_range (item_x_screen, item_x_screen + 7))
      { f with sprite, state := .GetTileDataLowDelay }
  | .GetTileDataLowDelay => { f with state := .GetTileDataLow }
  | .GetTileDataLow =>
      let ly := ppu.read_ly
      let tile_row_data :=
        match f.sprite with
        | some sprite =>
            Fetcher.read_tile_row ppu.vram .UnsignedFrom0x8000
              (wadd8 ly ppu.scy) sprite.tile_index false f.tile_row_data
        | none => fun _ => 0
      { f with tile_row_data, state := .GetTileDataHighDelay }
  | .GetTileDataHighDelay => { f with state := .GetTileDataHigh }
  | .GetTileDataHigh =>
      let ly := ppu.read_ly
      let tile_row_data :=
        match f.sprite with
        | some sprite =>
            Fetcher.read_tile_row ppu.vram .UnsignedFrom0x8000
              (wadd8 ly ppu.scy) sprite.tile_index true f.tile_row_data
        | none => fun _ => 0
      { f with tile_row_data, state := .PushRow }
  | .PushRow =>
      -- Object FIFO pixels are merged with existing object FIFO pixels:
      -- those with ID 0 are overwritten by latter ones, else the old one wins
      let obj_fifo_len := f.fifo.length
      let fifo :=
        (List.range 8).foldl
          (fun fifo i =>
            if i < obj_fifo_len then
              let old_item := fifo.getD i { color := 0, palette := .ObjectPalette0 }
              if old_item.color = 0 then
                fifo.set i { color := f.tile_row_data i
                             palette := palette_for_sprite f.sprite }
              else fifo
            else
              fifo ++ [{ color := f.tile_row_data i
                         palette := palette_for_sprite f.sprite }])
          f.fifo
      { f with fifo, tile_row_data := fun _ => 0, state := .GetTileDelay }

/-- `Fetcher::tick`: tick whichever of the two fetchers the mixer is
currently fetching for. -/
def Fetcher.tick (pf : Fetcher) (bgw : BackgroundOrWindowFetcher)
    (obj : ObjectFetcher) (ppu : PPU) :
    BackgroundOrWindowFetcher × ObjectFetcher × PPU :=
  match pf.fetching_for with
  | .BackgroundOrWindowFIFO =>
      let (bgw, ppu) := bgw.tick ppu
      (bgw, obj, ppu)
  | .ObjectFIFO =>
      (bgw, obj.tick ppu, ppu)

/-- `PPU::tick`: one dot of the per-scanline mode state machine.  A no-op
while the LCD is off; `panic!` (modelled `none`) if a scanline overruns 456
dots. -/
def PPU.tick (p : PPU) (bgw : BackgroundOrWindowFetcher)
    (obj : ObjectFetcher) (interrupts : Interrupts) (pf : Fetcher) :
    Option (PPU × BackgroundOrWindowFetcher × ObjectFetcher ×
      Interrupts × Fetcher) := do
  if !p.is_lcd_ppu_on then
    return (p, bgw, obj, interrupts, pf)
  let p := { p with scanline_dots := p.scanline_dots + 1 }
  if p.scanline_dots > 456 then
    none
  else
    let (p, bgw, obj, interrupts, pf) ←
      match p.state with
      | .OAMScan =>
          if p.scanline_dots = 80 then
            let ly := p.read_ly
            -- At the start of each scanline, remember SCX
            let p :=
              if ly < LCD_VERTICAL_PIXEL_COUNT then
                { p with frame_scxs := updF p.frame_scxs ly p.scx }
              else p
            let obj := { obj with
              selected_objects := PPU.select_objects p.object_attribute_memory ly
              vram_tile_column := 0 }
            let (p, pf) := p.switch_to_drawing_pixels pf
            some (p, bgw, obj, interrupts, pf)
          else some (p, bgw, obj, interrupts, pf)
      | .DrawingPixels => do
          let bgw_fifo_len := bgw.fifo.length
          let obj_fifo_len := obj.fifo.length
          let pf :=
            if obj_fifo_len = 0 ∧ bgw_fifo_len ≠ 0 then
              if pf.fetching_for = .BackgroundOrWindowFIFO then
                pf.switch_to_object_fifo
              else pf
            else
              if pf.fetching_for = .ObjectFIFO then
                pf.switch_to_background_or_window_fifo
              else pf
          let (bgw, obj, p) := pf.tick bgw obj p
          if bgw.fifo ≠ [] ∧ obj.fifo ≠ [] then do
            -- During scanline 0, remember SCY for every pixel pushed
            let ly := p.read_ly
            let p :=
              if ly = 0 then
                { p with frame_scys_at_scanline_0 :=
                    (updF p.frame_scys_at_scanline_0
                      p.drawn_pixels_on_current_row p.scy) }
              else p
            let bgw_pixel ← bgw.fifo.head?
            let obj_pixel ← obj.fifo.head?
            let bgw := { bgw with fifo := bgw.fifo.tail }
            let obj := { obj with fifo := obj.fifo.tail }
            let pixel_x := p.drawn_pixels_on_current_row
            let pixel_y := p.read_ly
            let from_ := pixel_coordinates_in_rgba_slice pixel_x pixel_y
            -- Simulate pixel mixing
            let (selected_pixel, palette) :=
              if obj_pixel.color = 0 then
                (bgw_pixel.color, p.background_palette_data)
              else
                (obj_pixel.color, p.object_palette_0)
            let rgba ← pixel_code_to_rgba selected_pixel palette
            let p := { p with
              lcd_pixels := writeRGBA p.lcd_pixels from_ rgba
              drawn_pixels_on_current_row := p.drawn_pixels_on_current_row + 1 }
            let p :=
              if p.drawn_pixels_on_current_row = LCD_HORIZONTAL_PIXEL_COUNT then
                p.switch_to_horizontal_blank
              else p
            some (p, bgw, obj, interrupts, pf)
          else some (p, bgw, obj, interrupts, pf)
      | .HorizontalBlank =>
          if p.scanline_dots = 456 then
            let p := { p with scanline_dots := 0 }
            let (p, interrupts) := p.increment_ly interrupts
            if p.read_ly = LCD_VERTICAL_PIXEL_COUNT then
              let (p, interrupts) := p.switch_to_vertical_blank interrupts
              some (p, bgw, obj, interrupts, pf)
            else
              let (p, bgw, obj) := p.switch_to_oam_scan bgw obj
              some (p, bgw, obj, interrupts, pf)
          else some (p, bgw, obj, interrupts, pf)
      | .VerticalBlank =>
          if p.scanline_dots = 456 then
            let p := { p with scanline_dots := 0 }
            let (p, interrupts) := p.increment_ly interrupts
            if p.read_ly = 153 then
              let (p, bgw, obj) := p.prepare_for_new_frame bgw obj
              let (p, bgw, obj) := p.switch_to_oam_scan bgw obj
              some (p, bgw, obj, interrupts, pf)
            else some (p, bgw, obj, interrupts, pf)
          else some (p, bgw, obj, interrupts, pf)
    -- STAT interrupt check: rising edge of the STAT line
    let stat_line := (p.lcd_status >>> 3) &&& 0xF
    let interrupts :=
      if p.last_stat_line = 0 ∧ stat_line ≠ 0 then
        interrupts.request STAT_INTERRUPT_BIT
      else interrupts
    return ({ p with last_stat_line := stat_line }, bgw, obj, interrupts, pf)

/-- `PPU::ticks`: `dots` iterations of `PPU::tick`. -/
def PPU.ticks (p : PPU) (bgw : BackgroundOrWindowFetcher)
    (interrupts : Interrupts) (obj : ObjectFetcher) (pf : Fetcher)
    (dots : Nat) :
    Option (PPU × BackgroundOrWindowFetcher × ObjectFetcher ×
      Interrupts × Fetcher) :=
  match dots with
  | 0 => some (p, bgw, obj, interrupts, pf)
  | n + 1 => do
      let (p, bgw, obj, interrupts, pf) ← p.tick bgw obj interrupts pf
      PPU.ticks p bgw interrupts obj pf n

/-! ## Cartridge descriptor (`application_state.rs`), inputs (`inputs.rs`),
memory (`memory.rs`), machine (`machine.rs`) -/

/-- `application_state.rs MapperType`. -/
inductive MapperType where
  | ROMOnly
  | MBC1
  | Other
  deriving DecidableEq, Repr

/-- `application_state.rs RAMSize`. -/
inductive RAMSize where
  | NoRAM
  | Ram2kb
  | Ram8kb
  | Ram4banks8kb
  | Ram16banks8kb
  | Ram8banks8kb
  deriving DecidableEq, Repr

/-- `application_state.rs ROMInformation`. -/
structure ROMInformation where
  mapper_type : MapperType
  ram_size : RAMSize
  rom_banks : Nat
  deriving DecidableEq, Repr

/-- `ROMInformation::new`. -/
def ROMInformation.new : ROMInformation :=
  { mapper_type := .ROMOnly, ram_size := .NoRAM, rom_banks := 0 }

/-- `machine.rs BankingMode`. -/
inductive BankingMode where
  | Ram
  | Rom
  deriving DecidableEq, Repr

/-- `inputs.rs Inputs`. -/
structure Inputs where
  inputs_register : Nat
  deriving DecidableEq, Repr

namespace Inputs

/-- `Inputs::new`. -/
def new : Inputs := ⟨0⟩

/-- `Inputs::read`. -/
def read (i : Inputs) : Nat := i.inputs_register

/-- `Inputs::write`: the lower nibble is read-only. -/
def write (i : Inputs) (value : Nat) : Inputs :=
  ⟨(value &&& 0xF0) ||| (i.inputs_register &&& 0x0F)⟩

end Inputs

/-- The memory component owned by the CPU, holding the boot-ROM overlay,
the cartridge ROM and RAM, and HRAM.

Modelled from the spec: the last-iteration `memory.rs` (with the
`game_rom`/`game_ram`/`hram` stores and `load_boot_rom`/`load_game_rom`
loaders that `machine.rs` and `application_state.rs` consume) is not part of
the source snapshot, which only carries an older iteration; per spec §3/§6
these are plain byte buffers addressed as total functions. -/
structure Memory where
  boot_rom : Nat → Nat
  game_rom : Nat → Nat
  game_ram : Nat → Nat
  hram : Nat → Nat

namespace Memory

/-- `Memory::new(boot_rom, game_rom, rom_information)`: store the two ROM
buffers, with cartridge RAM and HRAM zeroed. -/
def new (boot_rom game_rom : Nat → Nat) : Memory :=
  { boot_rom, game_rom, game_ram := fun _ => 0, hram := fun _ => 0 }

/-- `Memory::read_boot_rom`. -/
def read_boot_rom (m : Memory) (address : Nat) : Nat := m.boot_rom address

end Memory

/-- `cpu.rs CPU`. -/
structure CPU where
  low_power_mode : Bool
  memory : Memory
  registers : Registers

/-- `CPU::new`. -/
def CPU.new (boot_rom game_rom : Nat → Nat) : CPU :=
  { low_power_mode := false
    memory := Memory.new boot_rom game_rom
    registers := Registers.new }

/-- `machine.rs Machine`: the composition root.  `interrupts` and `timers`
are spelled `machine.cpu.interrupts` / `machine.cpu().timers` at some call
sites of other iterations; both spellings denote the single owned component
modelled here as a direct field, as declared by `machine.rs`. -/
structure Machine where
  banking_mode : BankingMode
  is_ram_enabled : Bool
  loram_bank : Nat
  ram_or_hiram_bank : Nat
  rom_information : ROMInformation
  t_cycle_count : Nat
  background_window_fetcher : BackgroundOrWindowFetcher
  cpu : CPU
  inputs : Inputs
  interrupts : Interrupts
  object_fetcher : ObjectFetcher
  pixel_fetcher : Fetcher
  ppu : PPU
  timers : Timers
  dmg_boot_rom : Nat
  nr10 : Nat
  nr11 : Nat
  nr12 : Nat
  nr13 : Nat
  nr14 : Nat
  nr21 : Nat
  nr22 : Nat
  nr23 : Nat
  nr24 : Nat
  nr30 : Nat
  nr31 : Nat
  nr32 : Nat
  nr33 : Nat
  nr34 : Nat
  nr50 : Nat
  nr51 : Nat
  nr52 : Nat
  register_ff03 : Nat
  register_ff08 : Nat
  register_ff09 : Nat
  register_ff15 : Nat
  register_ff1f : Nat
  register_ff20 : Nat
  register_ff21 : Nat
  register_ff22 : Nat
  register_ff23 : Nat
  slice_ff27_ff2f : Nat → Nat
  slice_ff30_ff3f : Nat → Nat
  register_ff0a : Nat
  register_ff0b : Nat
  register_ff0c : Nat
  register_ff0d : Nat
  register_ff0e : Nat
  register_ff4d : Nat
  register_ff72 : Nat
  register_ff73 : Nat
  register_ff75 : Nat
  sb : Nat
  sc : Nat
  wram_bank : Nat

namespace Machine

/-- `Machine::new`: plain construction; note that it performs no validation
of the mapper kind. -/
def new (boot_rom game_rom : Nat → Nat) (rom_information : ROMInformation)
    (fix_ly : Bool) : Machine :=
  { banking_mode := .Rom
    is_ram_enabled := false
    loram_bank := 1
    ram_or_hiram_bank := 0
    rom_information
    t_cycle_count := 0
    dmg_boot_rom := 0
    background_window_fetcher := BackgroundOrWindowFetcher.new
    cpu := CPU.new boot_rom game_rom
    inputs := Inputs.new
    interrupts := Interrupts.new
    object_fetcher := ObjectFetcher.new
    pixel_fetcher := Fetcher.new
    ppu := PPU.new fix_ly
    timers := Timers.new
    nr10 := 0, nr11 := 0, nr12 := 0, nr13 := 0, nr14 := 0
    nr21 := 0, nr22 := 0, nr23 := 0, nr24 := 0
    nr30 := 0, nr31 := 0, nr32 := 0, nr33 := 0, nr34 := 0
    nr50 := 0, nr51 := 0, nr52 := 0
    register_ff03 := 0
    register_ff08 := 0
    register_ff09 := 0
    register_ff15 := 0
    register_ff1f := 0
    register_ff20 := 0
    register_ff21 := 0
    register_ff22 := 0
    register_ff23 := 0
    slice_ff27_ff2f := fun _ => 0
    slice_ff30_ff3f := fun _ => 0
    register_ff0a := 0
    register_ff0b := 0
    register_ff0c := 0
    register_ff0d := 0
    register_ff0e := 0
    register_ff4d := 0
    register_ff72 := 0
    register_ff73 := 0
    register_ff75 := 0
    sb := 0
    sc := 0
    wram_bank := 0 }

/-- `Machine::is_dmg_boot_rom_on`. -/
def is_dmg_boot_rom_on (m : Machine) : Bool := m.dmg_boot_rom = 0

/-- `Machine::memory` accessor (`cpu.rs`). -/
def memory (m : Machine) : Memory := m.cpu.memory

/-- `Machine::registers` accessor (`cpu.rs`). -/
def registers (m : Machine) : Registers := m.cpu.registers

/-- `Machine::read_u8`, structured with an explicit recursion budget: the
only self-call is the echo-RAM arm (0xE000–0xFDFF reads `address - 0x2000`,
which lands in work RAM and never recurses again), so a budget of 2 is
exact; the exhausted-budget `none` is unreachable.  `none` models the
`panic!`/`todo!` arms (unhandled addresses and unsupported mappers). -/
def read_u8_go (m : Machine) (fuel : Nat) (address : Nat) : Option Nat :=
  match fuel with
  | 0 => none
  | fuel + 1 =>
  if m.is_dmg_boot_rom_on ∧ address ≤ 0xFF then
    some (m.memory.read_boot_rom address)
  else if address ≤ 0x3FFF then
    some (m.memory.game_rom address)
  else if address ≤ 0x7FFF then
    match m.rom_information.mapper_type with
    | .ROMOnly => some (m.memory.game_rom address)
    | .MBC1 =>
        let bank_number :=
          if m.banking_mode = .Rom then
            m.loram_bank ||| (m.ram_or_hiram_bank <<< 5)
          else m.loram_bank
        let base_address := bank_number * 0x4000
        some (m.memory.game_rom (base_address + address - 0x4000))
    | .Other => none
  else if address ≤ 0x9FFF then
    some (m.ppu.read_vram (wsub16 address 0x8000))
  else if address ≤ 0xBFFF then
    some (m.memory.game_ram (wsub16 address 0xA000))
  else if address ≤ 0xCFFF then
    some (m.ppu.read_wram_0 (wsub16 address 0xC000))
  else if address ≤ 0xDFFF then
    some (m.ppu.read_wram_1 (wsub16 address 0xD000))
  else if address ≤ 0xFDFF then
    read_u8_go m fuel (wsub16 address 0x2000)
  else if address ≤ 0xFE9F then
    some (m.ppu.object_attribute_memory (address - 0xFE00))
  else if address ≤ 0xFEFF then
    some 0xFF
  else if address = 0xFF00 then some m.inputs.read
  else if address = 0xFF01 then some m.sb
  else if address = 0xFF02 then some m.sc
  else if address = 0xFF03 then some m.register_ff03
  else if address ≤ 0xFF07 then Timers.read_u8 m.timers address
  else if address = 0xFF08 then some m.register_ff08
  else if address = 0xFF09 then some m.register_ff09
  else if address = 0xFF0A then some m.register_ff0a
  else if address = 0xFF0B then some m.register_ff0b
  else if address = 0xFF0C then some m.register_ff0c
  else if address = 0xFF0D then some m.register_ff0d
  else if address = 0xFF0E then some m.register_ff0e
  else if address = 0xFF0F then some m.interrupts.interrupt_flag
  else if address = 0xFF10 then some m.nr10
  else if address = 0xFF11 then some m.nr11
  else if address = 0xFF12 then some m.nr12
  else if address = 0xFF13 then some m.nr13
  else if address = 0xFF14 then some m.nr14
  else if address = 0xFF15 then some m.register_ff15
  else if address = 0xFF16 then some m.nr21
  else if address = 0xFF17 then some m.nr22
  else if address = 0xFF18 then some m.nr23
  else if address = 0xFF19 then some m.nr24
  else if address = 0xFF1A then some m.nr30
  else if address = 0xFF1B then some m.nr31
  else if address = 0xFF1C then some m.nr32
  else if address = 0xFF1D then some m.nr33
  else if address = 0xFF1E then some m.nr34
  else if address = 0xFF1F then some m.register_ff1f
  else if address = 0xFF20 then some m.register_ff20
  else if address = 0xFF21 then some m.register_ff21
  else if address = 0xFF22 then some m.register_ff22
  else if address = 0xFF23 then some m.register_ff23
  else if address = 0xFF24 then some m.nr50
  else if address = 0xFF25 then some m.nr51
  else if address = 0xFF26 then some m.nr52
  else if address ≤ 0xFF2F then some (m.slice_ff27_ff2f (address - 0xFF27))
  else if address ≤ 0xFF3F then some (m.slice_ff30_ff3f (address - 0xFF30))
  else if address = 0xFF40 then some m.ppu.read_lcdc
  else if address = 0xFF41 then some m.ppu.lcd_status
  else if address = 0xFF42 then some m.ppu.scy
  else if address = 0xFF43 then some m.ppu.scx
  else if address = 0xFF44 then some m.ppu.read_ly
  else if address = 0xFF45 then some m.ppu.lcd_y_compare
  else if address = 0xFF46 then some 0xFF  -- warns and fakes the read
  else if address = 0xFF47 then some m.ppu.background_palette_data
  else if address = 0xFF48 then some m.ppu.object_palette_0
  else if address = 0xFF49 then some m.ppu.object_palette_1
  else if address = 0xFF4A then some m.ppu.window_y
  else if address = 0xFF4B then some m.ppu.window_x7
  else if address = 0xFF4D then some m.register_ff4d
  else if address = 0xFF4F then some m.ppu.vram_bank
  else if address = 0xFF50 then some m.dmg_boot_rom
  else if address = 0xFF68 then some m.ppu.cgb_background_palette_spec
  else if address = 0xFF69 then some m.ppu.cgb_background_palette_data
  else if address = 0xFF6A then some m.ppu.object_palette_spec
  else if address = 0xFF6B then some m.ppu.object_palette_data
  else if address = 0xFF70 then some m.wram_bank
  else if address = 0xFF72 then some m.register_ff72
  else if address = 0xFF73 then some m.register_ff73
  else if address = 0xFF74 then some 0xFF
  else if address = 0xFF75 then some m.register_ff75
  else if 0xFF80 ≤ address ∧ address ≤ 0xFFFE then
    some (m.memory.hram (address - 0xFF80))
  else if address = 0xFFFF then some m.interrupts.interrupt_enable
  else none

/-- `Machine::read_u8`. -/
def read_u8 (m : Machine) (address : Nat) : Option Nat :=
  read_u8_go m 2 address

/-- `Machine::read_range`: reads `address..address.saturating_add(size)`
(the exclusive end saturates at 0xFFFF). -/
def read_range (m : Machine) (address : Nat) (size : Nat) :
    Option (List Nat) :=
  (List.range (min (address + size) 0xFFFF - address)).mapM
    (fun i => read_u8 m (address + i))

end Machine

/-! ## Instructions (`instructions/type_def.rs`, `conditions.rs`) -/

/-- `instructions/type_def.rs Immediate16`. -/
structure Immediate16 where
  lower_byte : Nat
  higher_byte : Nat
  deriving DecidableEq, Repr

namespace Immediate16

/-- `Immediate16::as_u16`. -/
def as_u16 (i : Immediate16) : Nat :=
  (i.higher_byte <<< 8) ||| i.lower_byte

/-- `Immediate16::from_u16`. -/
def from_u16 (v : Nat) : Immediate16 :=
  { lower_byte := v % 256, higher_byte := (v >>> 8) % 256 }

end Immediate16

/-- `conditions.rs Condition`. -/
inductive Condition where
  | C | Z | NC | NZ
  deriving DecidableEq, Repr

/-- The `Instruction` enum.  The source snapshot carries the enum of an
older iteration (`instructions/type_def.rs`) while
`instructions/decode.rs` and `instructions/semantics.rs` use the
last-iteration variant set; this is the union the two files consume.
`CBUnhandled` is the source's `Prefix` placeholder for CB-prefixed opcodes
the decoder does not know. -/
inductive Instruction where
  | ADC_A_mHL
  | ADC_A_r8 (r : R8)
  | ADC_A_u8 (v : Nat)
  | ADD_A_mHL
  | ADD_A_r8 (r : R8)
  | ADD_A_u8 (v : Nat)
  | ADD_HL_r16 (r : R16)
  | ADD_SP_i8 (v : Nat)
  | AND_A_mHL
  | AND_A_r8 (r : R8)
  | AND_L
  | AND_u8 (v : Nat)
  | BIT_u3_mHL (bit : Nat)
  | BIT_u3_r8 (bit : Nat) (r : R8)
  | CALL_a16 (imm : Immediate16)
  | CALL_cc_u16 (cc : Condition) (imm : Immediate16)
  | CCF
  | CP_A_mHL
  | CP_A_r8 (r : R8)
  | CP_A_u8 (v : Nat)
  | CPL
  | DAA
  | DEC_mHL
  | DEC_r16 (r : R16)
  | DEC_r8 (r : R8)
  | DI
  | EI
  | HALT
  | Illegal (opcode : Nat)
  | INC_mHL
  | INC_r16 (r : R16)
  | INC_r8 (r : R8)
  | JP_HL
  | JP_cc_u16 (cc : Condition) (imm : Immediate16)
  | JP_u16 (imm : Immediate16)
  | JR_cc_i8 (cc : Condition) (v : Nat)
  | JR_i8 (v : Nat)
  | JR_r8 (r : R8)
  | LD_A_FFC
  | LD_A_FFu8 (v : Nat)
  | LD_A_mHL
  | LD_A_mHLdec
  | LD_A_mHLinc
  | LD_A_mr16 (r : R16)
  | LD_A_mu16 (imm : Immediate16)
  | LD_FFC_A
  | LD_FFu8_A (v : Nat)
  | LD_HL_SP_i8 (v : Nat)
  | LD_H_mHL
  | LD_L_mHL
  | LD_SP_HL
  | LD_SP_u16 (imm : Immediate16)
  | LD_mHL_u8 (v : Nat)
  | LD_mHLdec_A
  | LD_mHLinc_A
  | LD_mr16_r8 (rm : R16) (r : R8)
  | LD_mu16_A (imm : Immediate16)
  | LD_mu16_SP (imm : Immediate16)
  | LD_r16_d16 (r : R16) (imm : Immediate16)
  | LD_r8_mr16 (r : R8) (rm : R16)
  | LD_r8_r8 (ra rb : R8)
  | LD_r8_u8 (r : R8) (v : Nat)
  | NOP
  | OR_A_mHL
  | OR_A_r8 (r : R8)
  | OR_A_u8 (v : Nat)
  | OR_r8 (r : R8)
  | POP_r16 (r : R16)
  | CBUnhandled
  | PUSH_r16 (r : R16)
  | RES_u3_mHL (bit : Nat)
  | RES_u3_r8 (bit : Nat) (r : R8)
  | RET
  | RET_cc (cc : Condition)
  | RETI
  | RLA
  | RLCA
  | RLC_mHL
  | RLC_r8 (r : R8)
  | RL_mHL
  | RL_r8 (r : R8)
  | RRA
  | RRCA
  | RRC_mHL
  | RRC_r8 (r : R8)
  | RR_mHL
  | RR_r8 (r : R8)
  | RST (imm : Immediate16)
  | SBC_A_A
  | SBC_A_C
  | SBC_A_mHL
  | SBC_A_r8 (r : R8)
  | SBC_A_u8 (v : Nat)
  | SCF
  | SET_u3_mHL (bit : Nat)
  | SET_u3_r8 (bit : Nat) (r : R8)
  | SLA_mHL
  | SLA_r8 (r : R8)
  | SRA_mHL
  | SRA_r8 (r : R8)
  | SRL_mHL
  | SRL_r8 (r : R8)
  | STOP
  | SUB_A_mHL
  | SUB_A_r8 (r : R8)
  | SUB_A_u8 (v : Nat)
  | SWAP_mHL
  | SWAP_r8 (r : R8)
  | XOR_A_mHL
  | XOR_A_r8 (r : R8)
  | XOR_A_u8 (v : Nat)

/-- `instructions/decode.rs DecodedInstruction`. -/
structure DecodedInstruction where
  address : Nat
  instruction : Instruction
  instruction_size : Nat
  raw : List Nat

/-- `Immediate16::from_memory`: 16-bit immediates are stored
lower-byte-first. -/
def Immediate16.from_memory (m : Machine) (address : Nat) :
    Option Immediate16 := do
  let lower_byte ← Machine.read_u8 m address
  let higher_byte ← Machine.read_u8 m (wadd16 address 1)
  some { lower_byte, higher_byte }

/-- One iteration of the OAM DMA loop in `Machine::write_u8` (register
0xFF46): read `base_source_address | offset` and store the byte at
`0xFE00 + offset`.  The source routes the store through
`Machine::write_u8`, whose 0xFE00–0xFE9F arm is exactly the
`object_attribute_memory[address - 0xFE00] = value` update performed here
(the boot-ROM guard cannot fire at those addresses). -/
def dma_step (m : Machine) (base_source_address offset : Nat) :
    Option Machine := do
  let byte ← Machine.read_u8 m (base_source_address ||| offset)
  some { m with ppu := { m.ppu with
    object_attribute_memory :=
      updF m.ppu.object_attribute_memory (0xFE00 + offset - 0xFE00) byte } }

/-- The OAM DMA transfer loop: `for offset in 0..=0x9F`. -/
def dma_transfer (m : Machine) (base_source_address : Nat) : Option Machine :=
  (List.range 0xA0).foldlM (fun m offset => dma_step m base_source_address offset) m

namespace Machine

/-- `Machine::write_u8`: the total memory map, write side.  `none` models
the `panic!`/`todo!` arms (write into active boot ROM, echo-RAM write,
write to LY, OAM DMA out of range, unsupported mapper, unhandled address).
Ignored writes (`0xFEA0–0xFEFF`, ROM-only mapper registers, absent
cartridge RAM, 0xFF74, 0xFF7F) leave the machine unchanged. -/
def write_u8 (m : Machine) (address value : Nat) : Option Machine :=
  if m.is_dmg_boot_rom_on ∧ address ≤ 0xFF then
    none  -- panic: attempted write in boot ROM
  else if address ≤ 0x1FFF then
    match m.rom_information.mapper_type with
    | .ROMOnly => some m  -- warns and ignores
    | .MBC1 => some { m with is_ram_enabled := value &&& 0x0F = 0x0A }
    | .Other => none
  else if address ≤ 0x3FFF then
    match m.rom_information.mapper_type with
    | .ROMOnly => some m  -- warns and ignores
    | .MBC1 => some { m with loram_bank := value &&& 0x1F }
    | .Other => none
  else if address ≤ 0x5FFF then
    match m.rom_information.mapper_type with
    | .ROMOnly => some m  -- warns and ignores
    | .MBC1 => some { m with ram_or_hiram_bank := value &&& 0b11 }
    | .Other => none
  else if address ≤ 0x7FFF then
    match m.rom_information.mapper_type with
    | .ROMOnly => some m  -- warns and ignores
    | .MBC1 =>
        some { m with banking_mode :=
          if value &&& 1 = 0 then BankingMode.Rom else BankingMode.Ram }
    | .Other => none
  else if address ≤ 0x9FFF then
    some { m with ppu := m.ppu.write_vram (wsub16 address 0x8000) value }
  else if address ≤ 0xBFFF then
    match m.rom_information.ram_size with
    | .NoRAM => some m  -- warns and ignores
    | _ =>
        some { m with cpu := { m.cpu with memory := { m.cpu.memory with
          game_ram := updF m.cpu.memory.game_ram (address - 0xA000) value } } }
  else if address ≤ 0xCFFF then
    some { m with ppu := m.ppu.write_wram_0 (wsub16 address 0xC000) value }
  else if address ≤ 0xDFFF then
    some { m with ppu := m.ppu.write_wram_1 (wsub16 address 0xD000) value }
  else if address ≤ 0xFDFF then
    none  -- panic: echo RAM write
  else if address ≤ 0xFE9F then
    some { m with ppu := { m.ppu with
      object_attribute_memory :=
        updF m.ppu.object_attribute_memory (address - 0xFE00) value } }
  else if address ≤ 0xFEFF then
    some m  -- silently ignored
  else if address = 0xFF00 then some { m with inputs := m.inputs.write value }
  else if address = 0xFF01 then some { m with sb := value }
  else if address = 0xFF02 then some { m with sc := value }
  else if address = 0xFF03 then some { m with register_ff03 := value }
  else if address ≤ 0xFF07 then do
    let timers ← Timers.write_u8 m.timers address value
    some { m with timers }
  else if address = 0xFF08 then some { m with register_ff08 := value }
  else if address = 0xFF09 then some { m with register_ff09 := value }
  else if address = 0xFF0A then some { m with register_ff0a := value }
  else if address = 0xFF0B then some { m with register_ff0b := value }
  else if address = 0xFF0C then some { m with register_ff0c := value }
  else if address = 0xFF0D then some { m with register_ff0d := value }
  else if address = 0xFF0E then some { m with register_ff0e := value }
  else if address = 0xFF0F then
    some { m with interrupts := { m.interrupts with interrupt_flag := value } }
  else if address = 0xFF10 then some { m with nr10 := value }
  else if address = 0xFF11 then some { m with nr11 := value }
  else if address = 0xFF12 then some { m with nr12 := value }
  else if address = 0xFF13 then some { m with nr13 := value }
  else if address = 0xFF14 then some { m with nr14 := value }
  else if address = 0xFF15 then some { m with register_ff15 := value }
  else if address = 0xFF16 then some { m with nr21 := value }
  else if address = 0xFF17 then some { m with nr22 := value }
  else if address = 0xFF18 then some { m with nr23 := value }
  else if address = 0xFF19 then some { m with nr24 := value }
  else if address = 0xFF1A then some { m with nr30 := value }
  else if address = 0xFF1B then some { m with nr31 := value }
  else if address = 0xFF1C then some { m with nr32 := value }
  else if address = 0xFF1D then some { m with nr33 := value }
  else if address = 0xFF1E then some { m with nr34 := value }
  else if address = 0xFF1F then some { m with register_ff1f := value }
  else if address = 0xFF20 then some { m with register_ff20 := value }
  else if address = 0xFF21 then some { m with register_ff21 := value }
  else if address = 0xFF22 then some { m with register_ff22 := value }
  else if address = 0xFF23 then some { m with register_ff23 := value }
  else if address = 0xFF24 then some { m with nr50 := value }
  else if address = 0xFF25 then some { m with nr51 := value }
  else if address = 0xFF26 then some { m with nr52 := value }
  else if address ≤ 0xFF2F then
    some { m with slice_ff27_ff2f :=
      (updF m.slice_ff27_ff2f (address - 0xFF27) value) }
  else if address ≤ 0xFF3F then
    some { m with slice_ff30_ff3f :=
      (updF m.slice_ff30_ff3f (address - 0xFF30) value) }
  else if address = 0xFF40 then some { m with ppu := m.ppu.write_lcdc value }
  else if address = 0xFF41 then
    some { m with ppu := { m.ppu with lcd_status := value } }
  else if address = 0xFF42 then
    some { m with ppu := { m.ppu with scy := value } }
  else if address = 0xFF43 then
    some { m with ppu := { m.ppu with scx := value } }
  else if address = 0xFF44 then
    none  -- panic: something attempted to write to LY
  else if address = 0xFF45 then
    some { m with ppu := { m.ppu with lcd_y_compare := value } }
  else if address = 0xFF46 then
    -- OAM DMA transfer (modelled instantaneous, as in the source)
    if value > 0xDF then none  -- panic: transfer outside of valid range
    else dma_transfer m (value <<< 8)
  else if address = 0xFF47 then
    some { m with ppu := { m.ppu with background_palette_data := value } }
  else if address = 0xFF48 then
    some { m with ppu := { m.ppu with object_palette_0 := value } }
  else if address = 0xFF49 then
    some { m with ppu := { m.ppu with object_palette_1 := value } }
  else if address = 0xFF4A then
    some { m with ppu := { m.ppu with window_y := value } }
  else if address = 0xFF4B then
    some { m with ppu := { m.ppu with window_x7 := value } }
  else if address = 0xFF4D then some { m with register_ff4d := value }
  else if address = 0xFF4F then
    some { m with ppu := { m.ppu with vram_bank := value } }
  else if address = 0xFF50 then some { m with dmg_boot_rom := value }
  else if address = 0xFF68 then
    some { m with ppu := { m.ppu with cgb_background_palette_spec := value } }
  else if address = 0xFF69 then
    some { m with ppu := { m.ppu with cgb_background_palette_data := value } }
  else if address = 0xFF6A then
    some { m with ppu := { m.ppu with object_palette_spec := value } }
  else if address = 0xFF6B then
    some { m with ppu := { m.ppu with object_palette_data := value } }
  else if address = 0xFF70 then some { m with wram_bank := value }
  else if address = 0xFF72 then some { m with register_ff72 := value }
  else if address = 0xFF73 then some { m with register_ff73 := value }
  else if address = 0xFF74 then some m  -- ignored
  else if address = 0xFF75 then
    some { m with register_ff75 := value &&& 0x07 }
  else if address = 0xFF7F then some m  -- silently ignored
  else if 0xFF80 ≤ address ∧ address ≤ 0xFFFE then
    some { m with cpu := { m.cpu with memory := { m.cpu.memory with
      hram := updF m.cpu.memory.hram (address - 0xFF80) value } } }
  else if address = 0xFFFF then
    some { m with interrupts :=
      { m.interrupts with interrupt_enable := value } }
  else none

end Machine

/-! ## Instruction decoding (`instructions/decode.rs`) -/

/-- The CB-prefixed secondary decode table; unknown CB opcodes decode to the
placeholder (`Prefix` in the source) with size 2. -/
def decode_cb (b : Nat) : Instruction :=
  match b with
  | 0x10 => .RL_r8 .B
  | 0x11 => .RL_r8 .C
  | 0x12 => .RL_r8 .D
  | 0x13 => .RL_r8 .E
  | 0x14 => .RL_r8 .H
  | 0x15 => .RL_r8 .L
  | 0x18 => .RR_r8 .B
  | 0x19 => .RR_r8 .C
  | 0x1A => .RR_r8 .D
  | 0x1B => .RR_r8 .E
  | 0x1C => .RR_r8 .H
  | 0x1D => .RR_r8 .L
  | 0x1F => .RR_r8 .A
  | 0x38 => .SRL_r8 .B
  | 0x78 => .BIT_u3_r8 7 .B
  | 0x79 => .BIT_u3_r8 7 .C
  | 0x7A => .BIT_u3_r8 7 .D
  | 0x7B => .BIT_u3_r8 7 .E
  | 0x7C => .BIT_u3_r8 7 .H
  | _ => .CBUnhandled

/-- `decode_instruction_at_address`: decode the 1–3 byte instruction at
`address`.  `none` models the `panic!` on opcodes without a decode arm. -/
def decode_instruction_at_address (m : Machine) (address : Nat) :
    Option DecodedInstruction := do
  let imm16 := fun o => Immediate16.from_memory m (wadd16 address o)
  let u8op := fun (o : Nat) => Machine.read_u8 m (wadd16 address o)
  let b0 ← Machine.read_u8 m address
  let (instruction, bytes_read) ← (do
    match b0 with
    | 0x00 => some (Instruction.NOP, 1)
    | 0x01 => do let i ← imm16 1; some (Instruction.LD_r16_d16 .BC i, 3)
    | 0x02 => some (Instruction.LD_mr16_r8 .BC .A, 1)
    | 0x03 => some (Instruction.INC_r16 .BC, 1)
    | 0x04 => some (Instruction.INC_r8 .B, 1)
    | 0x05 => some (Instruction.DEC_r8 .B, 1)
    | 0x06 => do let v ← u8op 1; some (Instruction.LD_r8_u8 .B v, 2)
    | 0x08 => do let i ← imm16 1; some (Instruction.LD_mu16_SP i, 3)
    | 0x09 => some (Instruction.ADD_HL_r16 .BC, 1)
    | 0x0B => some (Instruction.DEC_r16 .BC, 1)
    | 0x0C => some (Instruction.INC_r8 .C, 1)
    | 0x0D => some (Instruction.DEC_r8 .C, 1)
    | 0x0E => do let v ← u8op 1; some (Instruction.LD_r8_u8 .C v, 2)
    | 0x11 => do let i ← imm16 1; some (Instruction.LD_r16_d16 .DE i, 3)
    | 0x12 => some (Instruction.LD_mr16_r8 .DE .A, 1)
    | 0x13 => some (Instruction.INC_r16 .DE, 1)
    | 0x14 => some (Instruction.INC_r8 .D, 1)
    | 0x15 => some (Instruction.DEC_r8 .D, 1)
    | 0x16 => do let v ← u8op 1; some (Instruction.LD_r8_u8 .D v, 2)
    | 0x17 => some (Instruction.RLA, 1)
    | 0x18 => do let v ← u8op 1; some (Instruction.JR_i8 v, 2)
    | 0x19 => some (Instruction.ADD_HL_r16 .DE, 1)
    | 0x1A => some (Instruction.LD_r8_mr16 .A .DE, 1)
    | 0x1C => some (Instruction.INC_r8 .E, 1)
    | 0x1D => some (Instruction.DEC_r8 .E, 1)
    | 0x1E => do let v ← u8op 1; some (Instruction.LD_r8_u8 .E v, 2)
    | 0x1F => some (Instruction.RRA, 1)
    | 0x20 => do let v ← u8op 1; some (Instruction.JR_cc_i8 .NZ v, 2)
    | 0x21 => do let i ← imm16 1; some (Instruction.LD_r16_d16 .HL i, 3)
    | 0x22 => some (Instruction.LD_mHLinc_A, 1)
    | 0x23 => some (Instruction.INC_r16 .HL, 1)
    | 0x24 => some (Instruction.INC_r8 .H, 1)
    | 0x25 => some (Instruction.DEC_r8 .H, 1)
    | 0x26 => do let v ← u8op 1; some (Instruction.LD_r8_u8 .H v, 2)
    | 0x28 => do let v ← u8op 1; some (Instruction.JR_cc_i8 .Z v, 2)
    | 0x29 => some (Instruction.ADD_HL_r16 .HL, 1)
    | 0x2A => some (Instruction.LD_A_mHLinc, 1)
    | 0x2C => some (Instruction.INC_r8 .L, 1)
    | 0x2D => some (Instruction.DEC_r8 .L, 1)
    | 0x2E => do let v ← u8op 1; some (Instruction.LD_r8_u8 .L v, 2)
    | 0x30 => do let v ← u8op 1; some (Instruction.JR_cc_i8 .NC v, 2)
    | 0x31 => do let i ← imm16 1; some (Instruction.LD_SP_u16 i, 3)
    | 0x32 => some (Instruction.LD_mHLdec_A, 1)
    | 0x33 => some (Instruction.INC_r16 .SP, 1)
    | 0x34 => some (Instruction.INC_mHL, 1)
    | 0x35 => some (Instruction.DEC_mHL, 1)
    | 0x38 => do let v ← u8op 1; some (Instruction.JR_cc_i8 .C v, 2)
    | 0x39 => some (Instruction.ADD_HL_r16 .SP, 1)
    | 0x3A => some (Instruction.LD_A_mHLdec, 1)
    | 0x3C => some (Instruction.INC_r8 .A, 1)
    | 0x3D => some (Instruction.DEC_r8 .A, 1)
    | 0x3E => do let v ← u8op 1; some (Instruction.LD_r8_u8 .A v, 2)
    | 0x40 => some (Instruction.LD_r8_r8 .B .B, 1)
    | 0x41 => some (Instruction.LD_r8_r8 .B .C, 1)
    | 0x42 => some (Instruction.LD_r8_r8 .B .D, 1)
    | 0x43 => some (Instruction.LD_r8_r8 .B .E, 1)
    | 0x44 => some (Instruction.LD_r8_r8 .B .H, 1)
    | 0x45 => some (Instruction.LD_r8_r8 .B .L, 1)
    | 0x46 => some (Instruction.LD_r8_mr16 .B .HL, 1)
    | 0x47 => some (Instruction.LD_r8_r8 .B .A, 1)
    | 0x48 => some (Instruction.LD_r8_r8 .C .B, 1)
    | 0x49 => some (Instruction.LD_r8_r8 .C .C, 1)
    | 0x4A => some (Instruction.LD_r8_r8 .C .D, 1)
    | 0x4B => some (Instruction.LD_r8_r8 .C .E, 1)
    | 0x4C => some (Instruction.LD_r8_r8 .C .H, 1)
    | 0x4D => some (Instruction.LD_r8_r8 .C .L, 1)
    | 0x4E => some (Instruction.LD_r8_mr16 .C .HL, 1)
    | 0x4F => some (Instruction.LD_r8_r8 .C .A, 1)
    | 0x50 => some (Instruction.LD_r8_r8 .D .B, 1)
    | 0x51 => some (Instruction.LD_r8_r8 .D .C, 1)
    | 0x52 => some (Instruction.LD_r8_r8 .D .D, 1)
    | 0x53 => some (Instruction.LD_r8_r8 .D .E, 1)
    | 0x54 => some (Instruction.LD_r8_r8 .D .H, 1)
    | 0x55 => some (Instruction.LD_r8_r8 .D .L, 1)
    | 0x56 => some (Instruction.LD_r8_mr16 .D .HL, 1)
    | 0x57 => some (Instruction.LD_r8_r8 .D .A, 1)
    | 0x58 => some (Instruction.LD_r8_r8 .E .B, 1)
    | 0x59 => some (Instruction.LD_r8_r8 .E .C, 1)
    | 0x5A => some (Instruction.LD_r8_r8 .E .D, 1)
    | 0x5B => some (Instruction.LD_r8_r8 .E .E, 1)
    | 0x5C => some (Instruction.LD_r8_r8 .E .H, 1)
    | 0x5D => some (Instruction.LD_r8_r8 .E .L, 1)
    | 0x5E => some (Instruction.LD_r8_mr16 .E .HL, 1)
    | 0x5F => some (Instruction.LD_r8_r8 .E .A, 1)
    | 0x60 => some (Instruction.LD_r8_r8 .H .B, 1)
    | 0x61 => some (Instruction.LD_r8_r8 .H .C, 1)
    | 0x62 => some (Instruction.LD_r8_r8 .H .D, 1)
    | 0x63 => some (Instruction.LD_r8_r8 .H .E, 1)
    | 0x64 => some (Instruction.LD_r8_r8 .H .H, 1)
    | 0x65 => some (Instruction.LD_r8_r8 .H .L, 1)
    | 0x66 => some (Instruction.LD_r8_mr16 .H .HL, 1)
    | 0x67 => some (Instruction.LD_r8_r8 .H .A, 1)
    | 0x68 => some (Instruction.LD_r8_r8 .L .B, 1)
    | 0x69 => some (Instruction.LD_r8_r8 .L .C, 1)
    | 0x6A => some (Instruction.LD_r8_r8 .L .D, 1)
    | 0x6B => some (Instruction.LD_r8_r8 .L .E, 1)
    | 0x6C => some (Instruction.LD_r8_r8 .L .H, 1)
    | 0x6D => some (Instruction.LD_r8_r8 .L .L, 1)
    | 0x6E => some (Instruction.LD_r8_mr16 .L .HL, 1)
    | 0x6F => some (Instruction.LD_r8_r8 .L .A, 1)
    | 0x70 => some (Instruction.LD_mr16_r8 .HL .B, 1)
    | 0x71 => some (Instruction.LD_mr16_r8 .HL .C, 1)
    | 0x72 => some (Instruction.LD_mr16_r8 .HL .D, 1)
    | 0x73 => some (Instruction.LD_mr16_r8 .HL .E, 1)
    | 0x74 => some (Instruction.LD_mr16_r8 .HL .H, 1)
    | 0x75 => some (Instruction.LD_mr16_r8 .HL .L, 1)
    | 0x77 => some (Instruction.LD_mr16_r8 .HL .A, 1)
    | 0x78 => some (Instruction.LD_r8_r8 .A .B, 1)
    | 0x79 => some (Instruction.LD_r8_r8 .A .C, 1)
    | 0x7A => some (Instruction.LD_r8_r8 .A .D, 1)
    | 0x7B => some (Instruction.LD_r8_r8 .A .E, 1)
    | 0x7C => some (Instruction.LD_r8_r8 .A .H, 1)
    | 0x7D => some (Instruction.LD_r8_r8 .A .L, 1)
    | 0x7E => some (Instruction.LD_A_mHL, 1)
    | 0x83 => some (Instruction.ADD_A_r8 .E, 1)
    | 0x86 => some (Instruction.ADD_A_mHL, 1)
    | 0x88 => some (Instruction.ADC_A_r8 .B, 1)
    | 0x89 => some (Instruction.ADC_A_r8 .C, 1)
    | 0x90 => some (Instruction.SUB_A_r8 .B, 1)
    | 0x99 => some (Instruction.SBC_A_C, 1)
    | 0x9F => some (Instruction.SBC_A_A, 1)
    | 0xA5 => some (Instruction.AND_L, 1)
    | 0xA8 => some (Instruction.XOR_A_r8 .B, 1)
    | 0xA9 => some (Instruction.XOR_A_r8 .C, 1)
    | 0xAA => some (Instruction.XOR_A_r8 .D, 1)
    | 0xAB => some (Instruction.XOR_A_r8 .E, 1)
    | 0xAC => some (Instruction.XOR_A_r8 .H, 1)
    | 0xAD => some (Instruction.XOR_A_r8 .L, 1)
    | 0xAE => some (Instruction.XOR_A_mHL, 1)
    | 0xAF => some (Instruction.XOR_A_r8 .A, 1)
    | 0xB0 => some (Instruction.OR_r8 .B, 1)
    | 0xB1 => some (Instruction.OR_r8 .C, 1)
    | 0xB2 => some (Instruction.OR_r8 .D, 1)
    | 0xB3 => some (Instruction.OR_r8 .E, 1)
    | 0xB4 => some (Instruction.OR_r8 .H, 1)
    | 0xB5 => some (Instruction.OR_r8 .L, 1)
    | 0xB6 => some (Instruction.OR_A_mHL, 1)
    | 0xB7 => some (Instruction.OR_r8 .A, 1)
    | 0xB9 => some (Instruction.CP_A_r8 .C, 1)
    | 0xBB => some (Instruction.CP_A_r8 .E, 1)
    | 0xBE => some (Instruction.CP_A_mHL, 1)
    | 0xC0 => some (Instruction.RET_cc .NZ, 1)
    | 0xC1 => some (Instruction.POP_r16 .BC, 1)
    | 0xC2 => do let i ← imm16 1; some (Instruction.JP_cc_u16 .NZ i, 3)
    | 0xC3 => do let i ← imm16 1; some (Instruction.JP_u16 i, 3)
    | 0xC4 => do let i ← imm16 1; some (Instruction.CALL_cc_u16 .NZ i, 3)
    | 0xC5 => some (Instruction.PUSH_r16 .BC, 1)
    | 0xC6 => do let v ← u8op 1; some (Instruction.ADD_A_u8 v, 2)
    | 0xC7 => some (Instruction.RST (Immediate16.from_u16 0x0000), 1)
    | 0xC8 => some (Instruction.RET_cc .Z, 1)
    | 0xC9 => some (Instruction.RET, 1)
    | 0xCA => do let i ← imm16 1; some (Instruction.JP_cc_u16 .Z i, 3)
    | 0xCB => do
        let b1 ← u8op 1
        some (decode_cb b1, 2)
    | 0xCC => do let i ← imm16 1; some (Instruction.CALL_cc_u16 .Z i, 3)
    | 0xCD => do let i ← imm16 1; some (Instruction.CALL_a16 i, 3)
    | 0xCE => do let v ← u8op 1; some (Instruction.ADC_A_u8 v, 2)
    | 0xCF => some (Instruction.RST (Immediate16.from_u16 0x0008), 1)
    | 0xD0 => some (Instruction.RET_cc .NC, 1)
    | 0xD1 => some (Instruction.POP_r16 .DE, 1)
    | 0xD2 => do let i ← imm16 1; some (Instruction.JP_cc_u16 .NC i, 3)
    | 0xD4 => do let i ← imm16 1; some (Instruction.CALL_cc_u16 .NC i, 3)
    | 0xD5 => some (Instruction.PUSH_r16 .DE, 1)
    | 0xD6 => do let v ← u8op 1; some (Instruction.SUB_A_u8 v, 2)
    | 0xD7 => some (Instruction.RST (Immediate16.from_u16 0x0010), 1)
    | 0xD8 => some (Instruction.RET_cc .C, 1)
    | 0xD9 => some (Instruction.RETI, 1)
    | 0xDA => do let i ← imm16 1; some (Instruction.JP_cc_u16 .C i, 3)
    | 0xDC => do let i ← imm16 1; some (Instruction.CALL_cc_u16 .C i, 3)
    | 0xDF => some (Instruction.RST (Immediate16.from_u16 0x0018), 1)
    | 0xE0 => do let v ← u8op 1; some (Instruction.LD_FFu8_A v, 2)
    | 0xE1 => some (Instruction.POP_r16 .HL, 1)
    | 0xE2 => some (Instruction.LD_FFC_A, 1)
    | 0xE5 => some (Instruction.PUSH_r16 .HL, 1)
    | 0xE6 => do let v ← u8op 1; some (Instruction.AND_u8 v, 2)
    | 0xE7 => some (Instruction.RST (Immediate16.from_u16 0x0020), 1)
    | 0xE9 => some (Instruction.JP_HL, 1)
    | 0xEA => do let i ← imm16 1; some (Instruction.LD_mu16_A i, 3)
    | 0xEE => do let v ← u8op 1; some (Instruction.XOR_A_u8 v, 2)
    | 0xEF => some (Instruction.RST (Immediate16.from_u16 0x0028), 1)
    | 0xF0 => do let v ← u8op 1; some (Instruction.LD_A_FFu8 v, 2)
    | 0xF1 => some (Instruction.POP_r16 .AF, 1)
    | 0xF3 => some (Instruction.DI, 1)
    | 0xF5 => some (Instruction.PUSH_r16 .AF, 1)
    | 0xF7 => some (Instruction.RST (Immediate16.from_u16 0x0030), 1)
    | 0xF9 => some (Instruction.LD_SP_HL, 1)
    | 0xFB => some (Instruction.EI, 1)
    | 0xFA => do let i ← imm16 1; some (Instruction.LD_A_mu16 i, 3)
    | 0xFE => do let v ← u8op 1; some (Instruction.CP_A_u8 v, 2)
    | 0xFF => some (Instruction.RST (Immediate16.from_u16 0x0038), 1)
    | _ => none)  -- panic: decode not implemented for this opcode
  let raw ← Machine.read_range m address bytes_read
  some { address, instruction, instruction_size := bytes_read, raw }

/-! ## Instruction semantics (`instructions/semantics.rs`) -/

/-- `add_produces_carry`: whether adding `a` and `b` (plus carry `c`)
produces a carry out at position `bit`.  An `i8` second operand is passed as
its raw byte: sign extension does not change bits below 8 and the only call
sites use `bit ≤ 8`. -/
def add_produces_carry (a b : Nat) (c : Bool) (bit : Nat) : Bool :=
  let bit_mask := 1 <<< bit
  let input_mask := bit_mask - 1
  ((a &&& input_mask) + (b &&& input_mask) + c.toNat) &&& bit_mask = bit_mask

/-- `sub_borrows`: whether subtracting `b` (and carry `c`) from `a` borrows
at position `bit`. -/
def sub_borrows (a b : Nat) (c : Bool) (bit : Nat) : Bool :=
  let bit_mask := 1 <<< bit
  let input_mask := bit_mask - 1
  ((bit_mask ||| (a &&& input_mask)) - (b &&& input_mask) - c.toNat) &&&
    bit_mask = 0

/-- `Condition::holds`. -/
def Condition.holds (c : Condition) (cpu : CPU) : Bool :=
  match c with
  | .C => cpu.registers.read_flag .C
  | .Z => cpu.registers.read_flag .Z
  | .NC => !cpu.registers.read_flag .C
  | .NZ => !cpu.registers.read_flag .Z

/-- `semantics.rs compare`. -/
def cpu_compare (cpu : CPU) (a b : Nat) : CPU :=
  { cpu with registers := (cpu.registers.znhc (a = b) true
      (sub_borrows a b false 4) (sub_borrows a b false 8)) }

/-- `semantics.rs adc`. -/
def cpu_adc (cpu : CPU) (a b : Nat) (c : Bool) : CPU :=
  let res := wadd8 (wadd8 a b) c.toNat
  { cpu with registers := ((cpu.registers.write_a res).znhc (res = 0) false
      (add_produces_carry a b c 4) (add_produces_carry a b c 8)) }

/-- `semantics.rs add`. -/
def cpu_add (cpu : CPU) (a b : Nat) : CPU := cpu_adc cpu a b false

/-- `semantics.rs and`. -/
def cpu_and (cpu : CPU) (a b : Nat) : CPU :=
  let res := a &&& b
  { cpu with registers :=
      ((cpu.registers.write_a res).znhc (res = 0) false true false) }

/-- `semantics.rs or`. -/
def cpu_or (cpu : CPU) (a b : Nat) : CPU :=
  let res := a ||| b
  { cpu with registers :=
      ((cpu.registers.write_a res).znhc (res = 0) false false false) }

/-- `semantics.rs dec`: computes `a - 1`, sets Z/N/H (not C), and returns
the result without writing it anywhere. -/
def cpu_dec (cpu : CPU) (a : Nat) : CPU × Nat :=
  let res := wsub8 a 1
  ({ cpu with registers :=
      (((cpu.registers.write_flag .Z (res = 0)).set_flag .N).write_flag .H
        (sub_borrows a 1 false 4)) }, res)

/-- `semantics.rs subc`. -/
def cpu_subc (cpu : CPU) (a b : Nat) (c : Bool) : CPU :=
  let res := wsub8 (wsub8 a b) c.toNat
  { cpu with registers := ((cpu.registers.write_a res).znhc (res = 0) true
      (sub_borrows a b c 4) (sub_borrows a b c 8)) }

/-- `semantics.rs sub`. -/
def cpu_sub (cpu : CPU) (a b : Nat) : CPU := cpu_subc cpu a b false

/-- `semantics.rs xor`. -/
def cpu_xor (cpu : CPU) (a b : Nat) : CPU :=
  let res := a ^^^ b
  { cpu with registers :=
      ((cpu.registers.write_a res).znhc (res = 0) false false false) }

/-- `semantics.rs rotate_left_with`. -/
def rotate_left_with (cpu : CPU) (value : Nat) (new_bit : Bool) :
    CPU × Nat :=
  let carry := value >>> 7
  let res := ((value <<< 1) % 256) ||| new_bit.toNat
  ({ cpu with registers :=
      (cpu.registers.znhc (res = 0) false false (carry = 1)) }, res)

/-- `semantics.rs rotate_left_through_carry`. -/
def rotate_left_through_carry (cpu : CPU) (value : Nat) : CPU × Nat :=
  rotate_left_with cpu value (cpu.registers.read_flag .C)

/-- `semantics.rs rotate_left`. -/
def rotate_left (cpu : CPU) (value : Nat) : CPU × Nat :=
  rotate_left_with cpu value (value >>> 7 = 1)

/-- `semantics.rs rotate_right_with`. -/
def rotate_right_with (cpu : CPU) (value : Nat) (new_bit : Bool) :
    CPU × Nat :=
  let carry := value &&& 1
  let res := (value >>> 1) ||| (new_bit.toNat <<< 7)
  ({ cpu with registers :=
      (cpu.registers.znhc (res = 0) false false (carry = 1)) }, res)

/-- `semantics.rs rotate_right_through_carry`. -/
def rotate_right_through_carry (cpu : CPU) (value : Nat) : CPU × Nat :=
  rotate_right_with cpu value (cpu.registers.read_flag .C)

/-- `semantics.rs rotate_right`. -/
def rotate_right (cpu : CPU) (value : Nat) : CPU × Nat :=
  rotate_right_with cpu value (value &&& 1 = 1)

/-- `semantics.rs shift_right_arithmetically`. -/
def shift_right_arithmetically (cpu : CPU) (value : Nat) : CPU × Nat :=
  let carry := value &&& 1
  let bit7 := value &&& 0x80
  let res := (value >>> 1) ||| bit7
  ({ cpu with registers :=
      (cpu.registers.znhc (res = 0) false false (carry = 1)) }, res)

/-- `semantics.rs shift_right_logically`. -/
def shift_right_logically (cpu : CPU) (value : Nat) : CPU × Nat :=
  let carry := value &&& 1
  let res := value >>> 1
  ({ cpu with registers :=
      (cpu.registers.znhc (res = 0) false false (carry = 1)) }, res)

/-- `semantics.rs swap`. -/
def cpu_swap (cpu : CPU) (value : Nat) : CPU × Nat :=
  let new_low := value >>> 4
  let new_high := (value &&& 0x0F) <<< 4
  let res := new_high ||| new_low
  ({ cpu with registers :=
      (cpu.registers.znhc (res = 0) false false false) }, res)

/-- `semantics.rs bit_complement`. -/
def bit_complement (cpu : CPU) (value : Bool) : CPU :=
  { cpu with registers :=
      (((cpu.registers.write_flag .Z (!value)).unset_flag .N).set_flag .H) }

/-- `semantics.rs bit_reset`. -/
def bit_reset (value bit_position : Nat) : Nat :=
  value &&& compl8 (1 <<< bit_position)

/-- `semantics.rs bit_set`. -/
def bit_set (value bit_position : Nat) : Nat :=
  value ||| (1 <<< bit_position)

/-- `Interrupts::is_interrupt_pending`. -/
def Interrupts.is_interrupt_pending (m : Machine) : Bool :=
  let masked_ie := m.interrupts.interrupt_enable &&& 0x1F
  let masked_if := m.interrupts.interrupt_flag &&& 0x1F
  masked_ie &&& masked_if ≠ 0

/-- Update the register file inside a machine ( `machine.cpu.registers`
assignments in the source). -/
def Machine.upd_registers (m : Machine) (f : Registers → Registers) :
    Machine :=
  { m with cpu := { m.cpu with registers := f m.cpu.registers } }

/-- `CPU::push_imm16`: SP is decremented twice; the higher byte goes to the
higher address. -/
def CPU.push_imm16 (m : Machine) (imm16 : Immediate16) : Option Machine := do
  let m := m.upd_registers (fun r => { r with sp := wsub16 r.sp 1 })
  let m ← Machine.write_u8 m m.cpu.registers.sp imm16.higher_byte
  let m := m.upd_registers (fun r => { r with sp := wsub16 r.sp 1 })
  Machine.write_u8 m m.cpu.registers.sp imm16.lower_byte

/-- `CPU::pop_r16`. -/
def CPU.pop_r16 (m : Machine) (r16 : R16) : Option Machine := do
  let lower ← Machine.read_u8 m m.cpu.registers.sp
  let m := m.upd_registers (fun r => { r with sp := wadd16 r.sp 1 })
  let higher ← Machine.read_u8 m m.cpu.registers.sp
  let m := m.upd_registers (fun r => { r with sp := wadd16 r.sp 1 })
  let imm16 : Immediate16 := { lower_byte := lower, higher_byte := higher }
  some (m.upd_registers (fun r => r.write_r16 r16 imm16.as_u16))

/-- `semantics.rs call`. -/
def cpu_call (m : Machine) (address : Nat) : Option Machine := do
  let m ← CPU.push_imm16 m (Immediate16.from_u16 m.cpu.registers.pc)
  some (m.upd_registers (fun r => { r with pc := address }))

/-- `Instruction::execute`: one instruction's semantics over the machine,
returning the `(t_cycles, m_cycles)` pair.  A pending delayed EI resolves to
IME before the dispatch.  `none` models the `panic!`/`todo!` arms (`Illegal`,
`JR_r8`, `LD_H_mHL`, `LD_L_mHL`) and the undefined execution of the
`CBUnhandled`/`Prefix` placeholder, which no `semantics.rs` arm covers
(spec §7: known-but-unimplemented opcodes are fatal).  The decode-only
variant spellings `AND_L`, `LD_A_mHL`, `OR_r8`, `SBC_A_A`, `SBC_A_C` execute
as the last-iteration `AND_A_r8 L` / `LD_A_mr16 HL` / `OR_A_r8` /
`SBC_A_r8 A` / `SBC_A_r8 C` arms. -/
def Instruction.execute_core (i : Instruction) (m : Machine) :
    Option (Machine × Nat × Nat) :=
  match i with
  | .ADC_A_mHL => do
      let a := m.cpu.registers.read_a
      let b ← Machine.read_u8 m m.cpu.registers.hl
      let c := m.cpu.registers.read_flag .C
      some ({ m with cpu := cpu_adc m.cpu a b c }, 8, 2)
  | .ADC_A_r8 r8 =>
      let a := m.cpu.registers.read_a
      let b := m.cpu.registers.read_r8 r8
      let c := m.cpu.registers.read_flag .C
      some ({ m with cpu := cpu_adc m.cpu a b c }, 4, 1)
  | .ADC_A_u8 v =>
      let a := m.cpu.registers.read_a
      let c := m.cpu.registers.read_flag .C
      some ({ m with cpu := cpu_adc m.cpu a v c }, 8, 2)
  | .ADD_A_mHL => do
      let a := m.cpu.registers.read_a
      let b ← Machine.read_u8 m m.cpu.registers.hl
      some ({ m with cpu := cpu_add m.cpu a b }, 8, 2)
  | .ADD_A_r8 r8 =>
      let a := m.cpu.registers.read_a
      let b := m.cpu.registers.read_r8 r8
      some ({ m with cpu := cpu_add m.cpu a b }, 4, 1)
  | .ADD_A_u8 v =>
      let a := m.cpu.registers.read_a
      some ({ m with cpu := cpu_add m.cpu a v }, 8, 2)
  | .ADD_HL_r16 r16 =>
      let a := m.cpu.registers.hl
      let b := m.cpu.registers.read_r16 r16
      let res := wadd16 a b
      some (m.upd_registers (fun r =>
        ((((r.write_r16 .HL res).unset_flag .N).write_flag .H
            (add_produces_carry a b false 12)).write_flag .C
            (add_produces_carry a b false 16))), 8, 2)
  | .ADD_SP_i8 v =>
      let a := m.cpu.registers.sp
      let res := sadd16 a v
      some (m.upd_registers (fun r =>
        ((r.write_r16 .SP res).znhc false false
          (add_produces_carry a v false 4)
          (add_produces_carry a v false 8))), 16, 4)
  | .AND_A_mHL => do
      let a := m.cpu.registers.read_a
      let b ← Machine.read_u8 m m.cpu.registers.hl
      some ({ m with cpu := cpu_and m.cpu a b }, 8, 2)
  | .AND_A_r8 r8 =>
      let a := m.cpu.registers.read_a
      let b := m.cpu.registers.read_r8 r8
      some ({ m with cpu := cpu_and m.cpu a b }, 4, 1)
  | .AND_L =>
      let a := m.cpu.registers.read_a
      let b := m.cpu.registers.read_r8 .L
      some ({ m with cpu := cpu_and m.cpu a b }, 4, 1)
  | .AND_u8 v =>
      let a := m.cpu.registers.read_a
      some ({ m with cpu := cpu_and m.cpu a v }, 8, 2)
  | .BIT_u3_mHL bit_position => do
      let address := m.cpu.registers.hl
      let b ← Machine.read_u8 m address
      let value := (b >>> bit_position) &&& 0x1 = 0x1
      some ({ m with cpu := bit_complement m.cpu value }, 12, 3)
  | .BIT_u3_r8 bit_position reg =>
      let value := m.cpu.registers.get_bit reg bit_position
      some ({ m with cpu := bit_complement m.cpu value }, 8, 2)
  | .CALL_a16 imm16 => do
      let m ← cpu_call m imm16.as_u16
      some (m, 24, 6)
  | .CALL_cc_u16 cc imm16 =>
      if cc.holds m.cpu then do
        let m ← cpu_call m imm16.as_u16
        some (m, 24, 6)
      else some (m, 12, 3)
  | .CCF =>
      let c := m.cpu.registers.read_flag .C
      some (m.upd_registers (fun r =>
        (((r.unset_flag .N).unset_flag .H).write_flag .C (!c))), 4, 1)
  | .CP_A_r8 r8 =>
      let a := m.cpu.registers.read_a
      let b := m.cpu.registers.read_r8 r8
      some ({ m with cpu := cpu_compare m.cpu a b }, 4, 1)
  | .CP_A_u8 v =>
      let a := m.cpu.registers.read_a
      some ({ m with cpu := cpu_compare m.cpu a v }, 8, 2)
  | .CP_A_mHL => do
      let a := m.cpu.registers.read_a
      let address := m.cpu.registers.read_r16 .HL
      let b ← Machine.read_u8 m address
      some ({ m with cpu := cpu_compare m.cpu a b }, 8, 2)
  | .CPL =>
      let a := m.cpu.registers.read_a
      some (m.upd_registers (fun r =>
        (((r.write_a (compl8 a)).set_flag .N).set_flag .H)), 4, 1)
  | .DAA =>
      let data := m.cpu.registers.read_a
      let subtraction_flag := m.cpu.registers.read_flag .N
      let half_carry := m.cpu.registers.read_flag .H
      let carry := m.cpu.registers.read_flag .C
      let (data, half_carry, carry) :=
        if subtraction_flag then
          -- post-subtraction
          let data := if half_carry then wsub16 data 0x06 else data
          let data := if carry then wsub16 data 0x60 else data
          (data, half_carry, carry)
        else
          -- post-addition
          let (data, half_carry) :=
            if half_carry ∨ (data &&& 0x0F) > 0x09 then
              (wadd16 data 0x06, true)
            else (data, half_carry)
          let (data, carry) :=
            if carry ∨ (data &&& 0x1FF) > 0x9F then
              (wadd16 data 0x60, true)
            else (data, carry)
          (data, half_carry, carry)
      some (m.upd_registers (fun r =>
        ((((r.write_a (data % 256)).write_flag .Z (data = 0)).write_flag .H
          half_carry).write_flag .C carry)), 4, 1)
  | .DEC_mHL => do
      let a ← Machine.read_u8 m m.cpu.registers.hl
      let (cpu, res) := cpu_dec m.cpu a
      let m := { m with cpu }
      let m ← Machine.write_u8 m m.cpu.registers.hl res
      some (m, 12, 3)
  | .DEC_r8 r8 =>
      let a := m.cpu.registers.read_r8 r8
      let (cpu, res) := cpu_dec m.cpu a
      let m := { m with cpu }
      some (m.upd_registers (fun r => r.write_r8 r8 res), 4, 1)
  | .DEC_r16 r16 =>
      let a := m.cpu.registers.read_r16 r16
      let res := wsub16 a 1
      some (m.upd_registers (fun r => r.write_r16 r16 res), 8, 2)
  | .DI =>
      some ({ m with interrupts :=
        { m.interrupts with interrupt_master_enable := false } }, 4, 1)
  | .EI =>
      -- NOTE: this sets up IME in one instruction
      some ({ m with interrupts :=
        { m.interrupts with interrupt_master_enable_delayed := true } }, 4, 1)
  | .HALT =>
      -- all branches of the source set low-power mode (HALT bug unhandled)
      if m.interrupts.interrupt_master_enable then
        some ({ m with cpu := { m.cpu with low_power_mode := true } }, 4, 1)
      else if Interrupts.is_interrupt_pending m then
        some ({ m with cpu := { m.cpu with low_power_mode := true } }, 4, 1)
      else
        some ({ m with cpu := { m.cpu with low_power_mode := true } }, 4, 1)
  | .Illegal _ => none  -- panic: attempted to execute an illegal opcode
  | .INC_r8 r8 =>
      -- NOTE: cannot use `add` because Flag::C must not be touched
      let r8val := m.cpu.registers.read_r8 r8
      let res := wadd8 r8val 1
      some (m.upd_registers (fun r =>
        ((((r.write_r8 r8 res).write_flag .Z (res = 0)).unset_flag .N
          ).write_flag .H (add_produces_carry r8val 1 false 4))), 4, 1)
  | .INC_r16 r16 =>
      let res := wadd16 (m.cpu.registers.read_r16 r16) 1
      some (m.upd_registers (fun r => r.write_r16 r16 res), 8, 2)
  | .INC_mHL => do
      let b ← Machine.read_u8 m m.cpu.registers.hl
      let res := wadd8 b 1
      let m ← Machine.write_u8 m m.cpu.registers.hl res
      some (m, 12, 3)
  | .JR_r8 _ => none  -- todo!()
  | .JP_u16 imm16 =>
      some (m.upd_registers (fun r => { r with pc := imm16.as_u16 }), 16, 4)
  | .JP_cc_u16 cc imm16 =>
      if cc.holds m.cpu then
        some (m.upd_registers (fun r => { r with pc := imm16.as_u16 }), 16, 4)
      else some (m, 12, 3)
  | .JP_HL =>
      some (m.upd_registers (fun r => { r with pc := r.hl }), 4, 1)
  | .JR_i8 v =>
      let pc := m.cpu.registers.pc
      some (m.upd_registers (fun r => { r with pc := sadd16 pc v }), 12, 3)
  | .JR_cc_i8 cc v =>
      let pc := m.cpu.registers.pc
      if cc.holds m.cpu then
        some (m.upd_registers (fun r => { r with pc := sadd16 pc v }), 12, 3)
      else some (m, 8, 2)
  | .LD_A_mr16 r16 => do
      let v ← Machine.read_u8 m (m.cpu.registers.read_r16 r16)
      some (m.upd_registers (fun r => r.write_a v), 8, 2)
  | .LD_A_mHL => do
      -- decode-only spelling of `LD_A_mr16 HL`
      let v ← Machine.read_u8 m (m.cpu.registers.read_r16 .HL)
      some (m.upd_registers (fun r => r.write_a v), 8, 2)
  | .LD_A_mHLdec => do
      let v ← Machine.read_u8 m m.cpu.registers.hl
      let m := m.upd_registers (fun r => r.write_a v)
      some (m.upd_registers (fun r => { r with hl := wsub16 r.hl 1 }), 8, 2)
  | .LD_A_mHLinc => do
      let v ← Machine.read_u8 m m.cpu.registers.hl
      let m := m.upd_registers (fun r => r.write_a v)
      some (m.upd_registers (fun r => { r with hl := wadd16 r.hl 1 }), 8, 2)
  | .LD_FFu8_A v => do
      let m ← Machine.write_u8 m (0xFF00 + v) m.cpu.registers.read_a
      some (m, 12, 3)
  | .LD_HL_SP_i8 v =>
      let sp := m.cpu.registers.sp
      let res := sadd16 sp v
      some (m.upd_registers (fun r =>
        ({ r with hl := res }.znhc false false
          (add_produces_carry sp v false 4)
          (add_produces_carry sp v false 8))), 12, 3)
  | .LD_mu16_A imm16 => do
      let m ← Machine.write_u8 m imm16.as_u16 m.cpu.registers.read_a
      some (m, 16, 4)
  | .LD_mu16_SP imm16 => do
      let sp := Immediate16.from_u16 m.cpu.registers.sp
      let address := imm16.as_u16
      let m ← Machine.write_u8 m address sp.lower_byte
      let m ← Machine.write_u8 m (wadd16 address 1) sp.higher_byte
      some (m, 20, 5)
  | .LD_H_mHL => none  -- todo!()
  | .LD_L_mHL => none  -- todo!()
  | .LD_FFC_A => do
      let m ← Machine.write_u8 m
        (wadd16 0xFF00 m.cpu.registers.read_c) m.cpu.registers.read_a
      some (m, 8, 2)
  | .LD_r8_r8 r8a r8b =>
      some (m.upd_registers (fun r => r.write_r8 r8a (r.read_r8 r8b)), 4, 1)
  | .LD_r16_d16 r16 imm16 =>
      some (m.upd_registers (fun r => r.write_r16 r16 imm16.as_u16), 12, 3)
  | .LD_mr16_r8 mr16 r8 => do
      let m ← Machine.write_u8 m (m.cpu.registers.read_r16 mr16)
        (m.cpu.registers.read_r8 r8)
      some (m, 8, 2)
  | .LD_mHL_u8 v => do
      let m ← Machine.write_u8 m m.cpu.registers.hl v
      some (m, 12, 3)
  | .LD_mHLdec_A => do
      let m ← Machine.write_u8 m m.cpu.registers.hl m.cpu.registers.read_a
      some (m.upd_registers (fun r => { r with hl := wsub16 r.hl 1 }), 8, 2)
  | .LD_mHLinc_A => do
      let m ← Machine.write_u8 m m.cpu.registers.hl m.cpu.registers.read_a
      some (m.upd_registers (fun r => { r with hl := wadd16 r.hl 1 }), 8, 2)
  | .LD_A_FFC => do
      let c := m.cpu.registers.read_c
      let a ← Machine.read_u8 m (wadd16 0xFF00 c)
      some (m.upd_registers (fun r => r.write_a a), 8, 2)
  | .LD_A_FFu8 v => do
      let a ← Machine.read_u8 m (wadd16 0xFF00 v)
      some (m.upd_registers (fun r => r.write_a a), 12, 3)
  | .LD_A_mu16 imm16 => do
      let a ← Machine.read_u8 m imm16.as_u16
      some (m.upd_registers (fun r => r.write_a a), 16, 4)
  | .LD_r8_u8 r8 v =>
      some (m.upd_registers (fun r => r.write_r8 r8 v), 8, 2)
  | .LD_r8_mr16 r8 r16 => do
      let v ← Machine.read_u8 m (m.cpu.registers.read_r16 r16)
      some (m.upd_registers (fun r => r.write_r8 r8 v), 8, 2)
  | .LD_SP_HL =>
      some (m.upd_registers (fun r => { r with sp := r.hl }), 8, 2)
  | .LD_SP_u16 imm16 =>
      some (m.upd_registers (fun r => { r with sp := imm16.as_u16 }), 12, 3)
  | .NOP => some (m, 4, 1)
  | .OR_A_mHL => do
      let a := m.cpu.registers.read_a
      let b ← Machine.read_u8 m m.cpu.registers.hl
      some ({ m with cpu := cpu_or m.cpu a b }, 8, 2)
  | .OR_A_r8 r8 =>
      let a := m.cpu.registers.read_a
      let b := m.cpu.registers.read_r8 r8
      some ({ m with cpu := cpu_or m.cpu a b }, 4, 1)
  | .OR_r8 r8 =>
      -- decode-only spelling of `OR_A_r8`
      let a := m.cpu.registers.read_a
      let b := m.cpu.registers.read_r8 r8
      some ({ m with cpu := cpu_or m.cpu a b }, 4, 1)
  | .OR_A_u8 v =>
      let a := m.cpu.registers.read_a
      some ({ m with cpu := cpu_or m.cpu a v }, 8, 2)
  | .POP_r16 r16 => do
      let m ← CPU.pop_r16 m r16
      -- only the flag bits of F are restored
      let m :=
        if r16 = .AF then
          m.upd_registers (fun r =>
            r.write_r16 r16 (r.read_r16 r16 &&& 0xFFF0))
        else m
      some (m, 12, 3)
  | .PUSH_r16 r16 => do
      let byte_to_push := m.cpu.registers.read_r16 r16
      -- only the flag bits of F are pushed
      let byte_to_push :=
        if r16 = .AF then byte_to_push &&& 0xFFF0 else byte_to_push
      let m ← CPU.push_imm16 m (Immediate16.from_u16 byte_to_push)
      some (m, 16, 4)
  | .RES_u3_mHL bit => do
      let address := m.cpu.registers.hl
      let a ← Machine.read_u8 m address
      let m ← Machine.write_u8 m address (bit_reset a bit)
      some (m, 16, 4)
  | .RES_u3_r8 bit r8 =>
      let a := m.cpu.registers.read_r8 r8
      some (m.upd_registers (fun r => r.write_r8 r8 (bit_reset a bit)), 8, 2)
  | .RET => do
      let m ← CPU.pop_r16 m .PC
      some (m, 16, 4)
  | .RET_cc cc =>
      if cc.holds m.cpu then do
        let m ← CPU.pop_r16 m .PC
        some (m, 20, 5)
      else some (m, 8, 2)
  | .RETI => do
      let m := { m with interrupts :=
        { m.interrupts with interrupt_master_enable := true } }
      let m ← CPU.pop_r16 m .PC
      some (m, 16, 4)
  | .RL_mHL => do
      let address := m.cpu.registers.hl
      let a ← Machine.read_u8 m address
      let (cpu, res) := rotate_left_through_carry m.cpu a
      let m ← Machine.write_u8 { m with cpu } address res
      some (m, 16, 4)
  | .RL_r8 r8 =>
      let a := m.cpu.registers.read_r8 r8
      let (cpu, res) := rotate_left_through_carry m.cpu a
      some ({ m with cpu }.upd_registers (fun r => r.write_r8 r8 res), 8, 2)
  | .RLA =>
      let a := m.cpu.registers.read_a
      let (cpu, res) := rotate_left_through_carry m.cpu a
      -- for some reason, this unsets Z
      some ({ m with cpu }.upd_registers (fun r =>
        ((r.write_a res).unset_flag .Z)), 4, 1)
  | .RLCA =>
      let a := m.cpu.registers.read_a
      let (cpu, res) := rotate_left m.cpu a
      some ({ m with cpu }.upd_registers (fun r =>
        ((r.write_a res).unset_flag .Z)), 4, 1)
  | .RLC_mHL => do
      let address := m.cpu.registers.hl
      let a ← Machine.read_u8 m address
      let (cpu, res) := rotate_left m.cpu a
      let m ← Machine.write_u8 { m with cpu } address res
      some (m, 16, 4)
  | .RLC_r8 r8 =>
      let a := m.cpu.registers.read_r8 r8
      let (cpu, res) := rotate_left m.cpu a
      some ({ m with cpu }.upd_registers (fun r => r.write_r8 r8 res), 8, 2)
  | .RRA =>
      let a := m.cpu.registers.read_a
      let (cpu, res) := rotate_right_through_carry m.cpu a
      some ({ m with cpu }.upd_registers (fun r =>
        ((r.write_a res).unset_flag .Z)), 4, 1)
  | .RR_mHL => do
      let address := m.cpu.registers.hl
      let a ← Machine.read_u8 m address
      let (cpu, res) := rotate_right_through_carry m.cpu a
      let m ← Machine.write_u8 { m with cpu } address res
      some (m, 16, 4)
  | .RR_r8 r8 =>
      let a := m.cpu.registers.read_r8 r8
      let (cpu, res) := rotate_right_through_carry m.cpu a
      some ({ m with cpu }.upd_registers (fun r => r.write_r8 r8 res), 8, 2)
  | .RRCA =>
      let a := m.cpu.registers.read_a
      let (cpu, res) := rotate_right m.cpu a
      some ({ m with cpu }.upd_registers (fun r =>
        ((r.write_a res).unset_flag .Z)), 4, 1)
  | .RRC_mHL => do
      let address := m.cpu.registers.hl
      let a ← Machine.read_u8 m address
      let (cpu, res) := rotate_right m.cpu a
      let m ← Machine.write_u8 { m with cpu } address res
      some (m, 16, 4)
  | .RRC_r8 r8 =>
      let a := m.cpu.registers.read_r8 r8
      let (cpu, res) := rotate_right m.cpu a
      some ({ m with cpu }.upd_registers (fun r => r.write_r8 r8 res), 8, 2)
  | .RST imm16 => do
      let m ← CPU.push_imm16 m (Immediate16.from_u16 m.cpu.registers.pc)
      some (m.upd_registers (fun r => { r with pc := imm16.as_u16 }), 16, 4)
  | .SBC_A_mHL => do
      let a := m.cpu.registers.read_a
      let b ← Machine.read_u8 m m.cpu.registers.hl
      let c := m.cpu.registers.read_flag .C
      some ({ m with cpu := cpu_subc m.cpu a b c }, 8, 2)
  | .SBC_A_r8 r8 =>
      let a := m.cpu.registers.read_a
      let b := m.cpu.registers.read_r8 r8
      let c := m.cpu.registers.read_flag .C
      some ({ m with cpu := cpu_subc m.cpu a b c }, 4, 1)
  | .SBC_A_A =>
      -- decode-only spelling of `SBC_A_r8 A`
      let a := m.cpu.registers.read_a
      let b := m.cpu.registers.read_r8 .A
      let c := m.cpu.registers.read_flag .C
      some ({ m with cpu := cpu_subc m.cpu a b c }, 4, 1)
  | .SBC_A_C =>
      -- decode-only spelling of `SBC_A_r8 C`
      let a := m.cpu.registers.read_a
      let b := m.cpu.registers.read_r8 .C
      let c := m.cpu.registers.read_flag .C
      some ({ m with cpu := cpu_subc m.cpu a b c }, 4, 1)
  | .SBC_A_u8 v =>
      let a := m.cpu.registers.read_a
      let c := m.cpu.registers.read_flag .C
      some ({ m with cpu := cpu_subc m.cpu a v c }, 8, 2)
  | .SCF =>
      some (m.upd_registers (fun r =>
        (((r.unset_flag .N).unset_flag .H).set_flag .C)), 4, 1)
  | .SET_u3_mHL bit => do
      let address := m.cpu.registers.hl
      let a ← Machine.read_u8 m address
      let m ← Machine.write_u8 m address (bit_set a bit)
      some (m, 16, 4)
  | .SET_u3_r8 bit r8 =>
      let a := m.cpu.registers.read_r8 r8
      some (m.upd_registers (fun r => r.write_r8 r8 (bit_set a bit)), 8, 2)
  | .SLA_mHL => do
      let address := m.cpu.registers.hl
      let a ← Machine.read_u8 m address
      let (cpu, res) := rotate_left_with m.cpu a false
      let m ← Machine.write_u8 { m with cpu } address res
      some (m, 16, 4)
  | .SLA_r8 r8 =>
      let a := m.cpu.registers.read_r8 r8
      let (cpu, res) := rotate_left_with m.cpu a false
      some ({ m with cpu }.upd_registers (fun r => r.write_r8 r8 res), 8, 2)
  | .SRA_mHL => do
      let address := m.cpu.registers.hl
      let a ← Machine.read_u8 m address
      let (cpu, res) := shift_right_arithmetically m.cpu a
      let m ← Machine.write_u8 { m with cpu } address res
      some (m, 16, 4)
  | .SRA_r8 r8 =>
      let a := m.cpu.registers.read_r8 r8
      let (cpu, res) := shift_right_arithmetically m.cpu a
      some ({ m with cpu }.upd_registers (fun r => r.write_r8 r8 res), 8, 2)
  | .SRL_mHL => do
      let address := m.cpu.registers.hl
      let a ← Machine.read_u8 m address
      let (cpu, res) := shift_right_logically m.cpu a
      let m ← Machine.write_u8 { m with cpu } address res
      some (m, 16, 4)
  | .SRL_r8 r8 =>
      let a := m.cpu.registers.read_r8 r8
      let (cpu, res) := shift_right_logically m.cpu a
      some ({ m with cpu }.upd_registers (fun r => r.write_r8 r8 res), 8, 2)
  | .STOP => some (m, 4, 1)  -- TODO in the source
  | .SUB_A_mHL => do
      let a := m.cpu.registers.read_a
      let b ← Machine.read_u8 m m.cpu.registers.hl
      some ({ m with cpu := cpu_sub m.cpu a b }, 8, 2)
  | .SUB_A_r8 r8 =>
      let a := m.cpu.registers.read_a
      let b := m.cpu.registers.read_r8 r8
      some ({ m with cpu := cpu_sub m.cpu a b }, 4, 1)
  | .SUB_A_u8 v =>
      let a := m.cpu.registers.read_a
      some ({ m with cpu := cpu_sub m.cpu a v }, 8, 2)
  | .SWAP_mHL => do
      let address := m.cpu.registers.hl
      let a ← Machine.read_u8 m address
      let (cpu, res) := cpu_swap m.cpu a
      let m ← Machine.write_u8 { m with cpu } address res
      some (m, 16, 4)
  | .SWAP_r8 r8 =>
      let a := m.cpu.registers.read_r8 r8
      let (cpu, res) := cpu_swap m.cpu a
      some ({ m with cpu }.upd_registers (fun r => r.write_r8 r8 res), 8, 2)
  | .XOR_A_r8 r8 =>
      let a := m.cpu.registers.read_a
      let b := m.cpu.registers.read_r8 r8
      some ({ m with cpu := cpu_xor m.cpu a b }, 4, 1)
  | .XOR_A_u8 v =>
      let a := m.cpu.registers.read_a
      some ({ m with cpu := cpu_xor m.cpu a v }, 8, 2)
  | .XOR_A_mHL => do
      let a := m.cpu.registers.read_a
      let b ← Machine.read_u8 m m.cpu.registers.hl
      some ({ m with cpu := cpu_xor m.cpu a b }, 8, 2)
  | .CBUnhandled => none  -- no semantics arm for the Prefix placeholder

/-- `Instruction::execute` proper: a pending delayed EI resolves to IME
before the dispatch into the per-instruction semantics. -/
def Instruction.execute (i : Instruction) (m : Machine) :
    Option (Machine × Nat × Nat) :=
  -- EI effects are delayed by one instruction, resolved here
  let m :=
    if m.interrupts.interrupt_master_enable_delayed then
      { m with interrupts := { m.interrupts with
          interrupt_master_enable_delayed := false
          interrupt_master_enable := true } }
    else m
  Instruction.execute_core i m

/-! ## CPU step and interrupt dispatch (`cpu.rs`, `cpu/interrupts.rs`) -/

/-- `CPU::execute_one_instruction`: in low-power (HALT) mode with no pending
interrupt, return a 4-cycle filler without fetching; otherwise (waking up if
needed) decode the instruction at PC, advance PC by its encoded size before
executing its semantics, and execute it. -/
def CPU.execute_one_instruction (m : Machine) :
    Option (Machine × Option DecodedInstruction × Nat × Nat) := do
  let (m, halted) :=
    if m.cpu.low_power_mode then
      if Interrupts.is_interrupt_pending m then
        -- fall through on wakeup to execute one instruction
        ({ m with cpu := { m.cpu with low_power_mode := false } }, false)
      else
        -- otherwise, force the other components to move forward
        (m, true)
    else (m, false)
  if halted then
    some (m, none, 4, 1)
  else
    let next_instruction ← decode_instruction_at_address m m.cpu.registers.pc
    -- this is the default PC, unless instruction semantics overwrite it
    let m := m.upd_registers (fun r =>
      { r with pc := wadd16 r.pc next_instruction.instruction_size })
    let (m, t_cycles, m_cycles) ← next_instruction.instruction.execute m
    some (m, some next_instruction, t_cycles, m_cycles)

/-- `cpu/interrupts.rs should_handle_interrupt`: with IME set, the bit index
of the lowest pending enabled interrupt (0 = VBlank has most priority,
4 = Joypad least). -/
def should_handle_interrupt (m : Machine) : Option Nat :=
  if !m.interrupts.interrupt_master_enable then
    none
  else
    let masked_ie := m.interrupts.interrupt_enable &&& 0x1F
    let masked_if := m.interrupts.interrupt_flag &&& 0x1F
    let conjoined := masked_ie &&& masked_if
    -- 0 has most priority, 4 has least
    if conjoined &&& (1 <<< 0) = (1 <<< 0) then some 0
    else if conjoined &&& (1 <<< 1) = (1 <<< 1) then some 1
    else if conjoined &&& (1 <<< 2) = (1 <<< 2) then some 2
    else if conjoined &&& (1 <<< 3) = (1 <<< 3) then some 3
    else if conjoined &&& (1 <<< 4) = (1 <<< 4) then some 4
    else none

/-- The dispatch sequence of `Interrupts::handle_interrupts` once a pending
interrupt `interrupt` has been selected: clear that IF bit, clear IME, push
the current PC (high byte at the higher address), and jump to the fixed
handler address. -/
def dispatch_interrupt (m : Machine) (interrupt : Nat) : Option Machine := do
  let m := { m with interrupts := { m.interrupts with
    interrupt_flag := m.interrupts.interrupt_flag &&& compl8 (1 <<< interrupt)
    interrupt_master_enable := false } }
  let m ← CPU.push_imm16 m (Immediate16.from_u16 m.cpu.registers.pc)
  let offset ← interrupt_handler_offset interrupt
  some (m.upd_registers (fun r => { r with pc := offset }))

/-- `Interrupts::handle_interrupts`: if an interrupt is to be handled,
dispatch it, then execute the first instruction of the handler, for a total
cost of 20 t-cycles (5 m-cycles) plus that instruction's cost; otherwise
report zero cost. -/
def Interrupts.handle_interrupts (m : Machine) :
    Option (Machine × Nat × Nat) := do
  match should_handle_interrupt m with
  | some interrupt => do
      let m ← dispatch_interrupt m interrupt
      -- execute the first instruction of the interrupt handler (GB doctor)
      let (m, _instr, t_cycles, m_cycles) ← CPU.execute_one_instruction m
      some (m, 20 + t_cycles, 5 + m_cycles)
  | none => some (m, 0, 0)

/-! ## Machine stepping (`application_state.rs`) -/

/-- The result of one `ApplicationState::step_machine` call
(`MachineStep` plus the mutated machine). -/
structure MachineStep where
  t_cycles : Nat
  instruction_executed : Option DecodedInstruction
  machine : Machine

/-- The CPU half of `ApplicationState::step_machine`: interrupt dispatch is
checked first; only when it reports zero cost is a regular instruction (or
the HALT filler) executed. -/
def step_machine_cpu_phase (m : Machine) :
    Option (Machine × Nat × Nat × Option DecodedInstruction) := do
  let (m, t_cycles, m_cycles) ← Interrupts.handle_interrupts m
  if t_cycles = 0 then
    let (m, instruction_executed, t_cycles, m_cycles) ←
      CPU.execute_one_instruction m
    some (m, t_cycles, m_cycles, instruction_executed)
  else
    some (m, t_cycles, m_cycles, none)

/-- `ApplicationState::step_machine`: run the CPU phase, then advance the
Timers and the PPU by the returned t-cycle count and add it to the
machine's total t-cycle counter (a `u64`). -/
def step_machine (m : Machine) : Option MachineStep := do
  let (m, t_cycles, _m_cycles, instruction_executed) ←
    step_machine_cpu_phase m
  let (timers, interrupts) := Timers.ticks m.timers m.interrupts t_cycles
  let m := { m with timers, interrupts }
  let (ppu, background_window_fetcher, object_fetcher, interrupts,
       pixel_fetcher) ←
    PPU.ticks m.ppu m.background_window_fetcher m.interrupts
      m.object_fetcher m.pixel_fetcher t_cycles
  let m := { m with ppu, background_window_fetcher, object_fetcher,
                    interrupts, pixel_fetcher }
  let m := { m with t_cycle_count := (m.t_cycle_count + t_cycles) % 2 ^ 64 }
  some { t_cycles, instruction_executed, machine := m }

/-! ## Concrete fixtures used by the end-to-end checks -/

/-- Run `CPU::execute_one_instruction` a number of times, accumulating the
t-cycle costs (the end-to-end scenario of spec §8). -/
def run_instructions (m : Machine) : Nat → Option (Machine × Nat)
  | 0 => some (m, 0)
  | n + 1 => do
      let (m, _instr, t_cycles, _m_cycles) ← CPU.execute_one_instruction m
      let (m, rest) ← run_instructions m n
      some (m, t_cycles + rest)

/-- The 4-byte program `[0x3E, 0x05, 0x3C, 0x00]` (LD A,5; INC A; NOP)
loaded at 0x100, the address immediately after boot-ROM hand-off. -/
def scenario_rom : Nat → Nat := fun a =>
  if a = 0x100 then 0x3E
  else if a = 0x101 then 0x05
  else if a = 0x102 then 0x3C
  else if a = 0x103 then 0x00
  else 0

/-- A machine immediately after boot-ROM hand-off (boot-ROM disable latch
written, PC at 0x100), with `scenario_rom` as the cartridge. -/
def scenario_machine : Machine :=
  let m := Machine.new (fun _ => 0) scenario_rom ROMInformation.new false
  { m with dmg_boot_rom := 1
           cpu := { m.cpu with registers :=
             { m.cpu.registers with pc := 0x100 } } }

/-- A freshly constructed machine (boot ROM still mapped, all stores
zeroed), used as a concrete input for whole-step evaluation. -/
def fresh_machine : Machine :=
  Machine.new (fun _ => 0) (fun _ => 0) ROMInformation.new false

/-- A machine with IME set, IE = 0x1F and IF = 0x06 (STAT and Timer both
pending), SP in work RAM, used as a concrete interrupt-dispatch input. -/
def interrupt_machine : Machine :=
  { fresh_machine with
      dmg_boot_rom := 1
      interrupts := { interrupt_master_enable := true
                      interrupt_master_enable_delayed := false
                      interrupt_enable := 0x1F
                      interrupt_flag := 0x06 }
      cpu := { fresh_machine.cpu with registers :=
        { fresh_machine.cpu.registers with sp := 0xD000, pc := 0x1234 } } }

/-- A background/window fetcher parked in `PushRow` with an empty FIFO. -/
def pushrow_fetcher : BackgroundOrWindowFetcher :=
  { BackgroundOrWindowFetcher.new with state := .PushRow }

/-- Timers configured at the fastest rate (TAC = 0b101: enabled, threshold
16 dots) with TIMA = 0xFF and modulo register `tma`, about to overflow. -/
def tac_fast_timers (tma : Nat) : Timers :=
  { Timers.new with timer_control := 0b101, timer_counter := 0xFF,
                    timer_modulo := tma }

/-- The overflow fixture with TMA = 0x42. -/
def overflow_timers : Timers := tac_fast_timers 0x42

/-- The total-t-cycle counter of the machine inside an instruction-semantics
result is unchanged: the predicate threaded through the per-instruction case
analysis below. -/
def pres3 (m : Machine) (o : Option (Machine × Nat × Nat)) : Prop :=
  ∀ r, o = some r → r.1.t_cycle_count = m.t_cycle_count

/-! ## Arithmetic helper lemmas -/

/-- Disjoint bitwise-or is addition: shifting `hi` past `lo`'s width. -/
theorem lor_shift_add (hi lo s : Nat) (h : lo < 2 ^ s) :
    (hi <<< s) ||| lo = 2 ^ s * hi + lo := by
  apply Nat.eq_of_testBit_eq
  intro i
  rw [Nat.testBit_mul_pow_two_add hi h i, Nat.testBit_lor,
    Nat.testBit_shiftLeft]
  by_cases hlt : i < s
  · have hns : ¬ (s ≤ i) := by omega
    simp [hns, hlt]
  · have hs : s ≤ i := by omega
    have hlo : lo.testBit i = false :=
      Nat.testBit_eq_false_of_lt
        (lt_of_lt_of_le h (Nat.pow_le_pow_right (by omega) hs))
    simp [hs, hlt, hlo]

/-- The byte-assembly helper seen through arithmetic (for `lo` a byte). -/
theorem u16_from_u8s_eq (hi lo : Nat) (h : lo < 256) :
    u16_from_u8s hi lo = 256 * hi + lo := by
  have := lor_shift_add hi lo 8 (by omega)
  simpa [u16_from_u8s] using this

/-- Or-ing in bits that avoid `mask` does not change the masked value. -/
theorem lor_and_mask (x a mask : Nat) (h : a &&& mask = 0) :
    (x ||| a) &&& mask = x &&& mask := by
  apply Nat.eq_of_testBit_eq
  intro i
  have hb : (a &&& mask).testBit i = false := by rw [h]; simp
  rw [Nat.testBit_land] at hb
  rw [Nat.testBit_land, Nat.testBit_land, Nat.testBit_lor]
  cases ha : a.testBit i <;> cases hm : mask.testBit i <;>
    simp_all

theorem higher_u8_of_u16 (hi lo : Nat) (hhi : hi < 256) (hlo : lo < 256) :
    higher_u8 (u16_from_u8s hi lo) = hi := by
  rw [u16_from_u8s_eq hi lo hlo]
  simp only [higher_u8, Nat.shiftRight_eq_div_pow]
  norm_num
  omega

theorem lower_u8_of_u16 (hi lo : Nat) (hlo : lo < 256) :
    lower_u8 (u16_from_u8s hi lo) = lo := by
  rw [u16_from_u8s_eq hi lo hlo]
  simp only [lower_u8]
  omega

theorem Registers.read_f_lt (r : Registers) : r.read_f < 256 :=
  Nat.mod_lt _ (by omega)

theorem Registers.read_a_lt (r : Registers) : r.read_a < 256 :=
  Nat.mod_lt _ (by omega)

theorem Registers.read_b_lt (r : Registers) : r.read_b < 256 :=
  Nat.mod_lt _ (by omega)

theorem Registers.read_c_lt (r : Registers) : r.read_c < 256 :=
  Nat.mod_lt _ (by omega)

theorem Registers.read_d_lt (r : Registers) : r.read_d < 256 :=
  Nat.mod_lt _ (by omega)

theorem Registers.read_e_lt (r : Registers) : r.read_e < 256 :=
  Nat.mod_lt _ (by omega)

theorem Registers.read_h_lt (r : Registers) : r.read_h < 256 :=
  Nat.mod_lt _ (by omega)

theorem Registers.read_l_lt (r : Registers) : r.read_l < 256 :=
  Nat.mod_lt _ (by omega)

/-- Reading back the byte written into the F position. -/
theorem Registers.read_f_write_f (r : Registers) (f : Nat) (h : f < 256) :
    (r.write_f f).read_f = f := by
  simp only [Registers.write_f, Registers.read_f]
  exact lower_u8_of_u16 _ _ h

/-! ## Claim C5 -/

/-- Claim C5, counterexample: starting from AF = 0x000F (lower nibble of F
already dirty), the batch flag write `znhc` leaves the lower nibble of F
nonzero, so it is not the case that every flag-writing call establishes
`F & 0x0F == 0`. -/
theorem znhc_not_clearing_low_nibble :
    ¬ ((Registers.znhc ⟨0x0F, 0, 0, 0, 0, 0⟩ false false false false).read_f
        &&& 0x0F = 0) := by
  decide

/-- Claim C5 (amended): every flag-writing operation of the register file
(single-flag writes, including set/unset, and the batch `znhc` write)
leaves the lower nibble of F unchanged; in particular the lower nibble
remains zero whenever it was already zero. -/
theorem flag_writes_preserve_f_low_nibble (r : Registers) (z n h c : Bool)
    (fl : Flag) (b : Bool) :
    (r.znhc z n h c).read_f &&& 0x0F = r.read_f &&& 0x0F
  ∧ (r.write_flag fl b).read_f &&& 0x0F = r.read_f &&& 0x0F
  ∧ (r.set_flag fl).read_f &&& 0x0F = r.read_f &&& 0x0F
  ∧ (r.unset_flag fl).read_f &&& 0x0F = r.read_f &&& 0x0F := by
  have hrf := r.read_f_lt
  have hznhc : (r.znhc z n h c).read_f &&& 0x0F = r.read_f &&& 0x0F := by
    simp only [Registers.znhc]
    rw [Registers.read_f_write_f]
    · rw [lor_and_mask _ _ _ (by cases c <;> decide),
        lor_and_mask _ _ _ (by cases h <;> decide),
        lor_and_mask _ _ _ (by cases n <;> decide),
        lor_and_mask _ _ _ (by cases z <;> decide),
        Nat.and_assoc]
      congr 1
    · refine Nat.bitwise_lt_two_pow (n := 8) ?_ (by cases c <;> decide)
      refine Nat.bitwise_lt_two_pow (n := 8) ?_ (by cases h <;> decide)
      refine Nat.bitwise_lt_two_pow (n := 8) ?_ (by cases n <;> decide)
      refine Nat.bitwise_lt_two_pow (n := 8) ?_ (by cases z <;> decide)
      have : r.read_f &&& 0x0F ≤ 0x0F := Nat.and_le_right
      omega
  have hwf : ∀ (fl : Flag) (b : Bool),
      (r.write_flag fl b).read_f &&& 0x0F = r.read_f &&& 0x0F := by
    intro fl b
    cases b
    · simp only [Registers.write_flag, Bool.false_eq_true, if_false]
      rw [Registers.read_f_write_f]
      · cases fl <;>
          · rw [Nat.and_assoc]
            congr 1
      · exact lt_of_le_of_lt Nat.and_le_left hrf
    · simp only [Registers.write_flag, if_true]
      rw [Registers.read_f_write_f]
      · cases fl <;> exact lor_and_mask _ _ _ (by decide)
      · exact Nat.bitwise_lt_two_pow (n := 8) hrf (by cases fl <;> decide)
  exact ⟨hznhc, hwf fl b, hwf fl true, hwf fl false⟩

/-! ## Claim C10 -/

theorem lower_u8_lt (x : Nat) : lower_u8 x < 256 := Nat.mod_lt _ (by omega)

theorem higher_u8_lt (x : Nat) : higher_u8 x < 256 := Nat.mod_lt _ (by omega)

/-- Claim C10: for every 8-bit register and byte value, `write_r8` followed
by `read_r8` of the same register returns the value, and writing one 8-bit
half of a composite 16-bit pair leaves every other 8-bit register (the
other half of the pair included) and SP/PC unchanged. -/
theorem write_r8_read_r8_roundtrip (r : Registers) (reg : R8) (v : Nat)
    (hv : v < 256) :
    (r.write_r8 reg v).read_r8 reg = v
  ∧ (∀ other : R8, other ≠ reg →
      (r.write_r8 reg v).read_r8 other = r.read_r8 other)
  ∧ (r.write_r8 reg v).sp = r.sp
  ∧ (r.write_r8 reg v).pc = r.pc := by
  refine ⟨?_, fun other hne => ?_, ?_, ?_⟩
  · cases reg <;>
      simp only [Registers.write_r8, Registers.read_r8, Registers.write_a,
        Registers.write_b, Registers.write_c, Registers.write_d,
        Registers.write_e, Registers.write_f, Registers.write_h,
        Registers.write_l, Registers.read_a, Registers.read_b,
        Registers.read_c, Registers.read_d, Registers.read_e,
        Registers.read_f, Registers.read_h, Registers.read_l] <;>
      first
        | exact higher_u8_of_u16 _ _ hv (lower_u8_lt _)
        | exact lower_u8_of_u16 _ _ hv
  · cases reg <;> cases other <;>
      first
        | exact absurd rfl hne
        | (simp only [Registers.write_r8, Registers.read_r8,
            Registers.write_a, Registers.write_b, Registers.write_c,
            Registers.write_d, Registers.write_e, Registers.write_f,
            Registers.write_h, Registers.write_l, Registers.read_a,
            Registers.read_b, Registers.read_c, Registers.read_d,
            Registers.read_e, Registers.read_f, Registers.read_h,
            Registers.read_l]
           all_goals first
             | rfl
             | exact lower_u8_of_u16 _ _ (lower_u8_lt _)
             | exact higher_u8_of_u16 _ _ (higher_u8_lt _) hv)
  · cases reg <;> rfl
  · cases reg <;> rfl

/-- Witness for claim C10: the roundtrip and frame conditions evaluated at
AF = 0x1234, writing 0x7F into A and observing A and F. -/
theorem write_r8_read_r8_roundtrip_witness :
    (0x7F : Nat) < 256 ∧ R8.F ≠ R8.A ∧
    ((Registers.mk 0x1234 0 0 0 0 0).write_r8 .A 0x7F).read_r8 .A = 0x7F ∧
    ((Registers.mk 0x1234 0 0 0 0 0).write_r8 .A 0x7F).read_r8 .F =
      (Registers.mk 0x1234 0 0 0 0 0).read_r8 .F := by
  have h := write_r8_read_r8_roundtrip (Registers.mk 0x1234 0 0 0 0 0) .A 0x7F
    (by decide)
  exact ⟨by decide, by decide, h.1, h.2.1 .F (by decide)⟩

/-! ## Claim C3 -/

set_option maxRecDepth 4000 in
/-- Claim C3, counterexample: with TAC = 0b101 (enabled, 16-dot rate),
TIMA = 0xFF and TMA = 0x42, ticking the timer 16 dots leaves TIMA = 0x42,
not 0x00: the reload from TMA happens within the overflow tick itself, not
on a later check. -/
theorem timer_overflow_reload_not_deferred :
    (Timers.ticks overflow_timers Interrupts.new 16).1.timer_counter = 0x42 ∧
    (Timers.ticks overflow_timers Interrupts.new 16).1.timer_counter ≠ 0 := by
  constructor <;> decide

/-- Claim C3 (amended): with TAC enabling the fastest rate (increment every
16 dots, enable bit set) and TIMA = 0xFF, the 16th dot wraps TIMA and
immediately (within that same tick) reloads it from TMA, raising exactly one
timer interrupt request for the overflow: none of the first 15 dots touches
the interrupt controller, and the 16th performs precisely one request of the
timer bit. -/
theorem timer_overflow_single_request (i : Interrupts) (tma : Nat) :
    (∀ k, k ≤ 15 → (Timers.tickN k (tac_fast_timers tma, i)).2 = i)
  ∧ (Timers.tickN 16 (tac_fast_timers tma, i)).1.timer_counter = tma
  ∧ (Timers.tickN 16 (tac_fast_timers tma, i)).2
      = i.request TIMER_INTERRUPT_BIT := by
  refine ⟨?_, ?_, ?_⟩
  · intro k hk
    interval_cases k <;>
      simp [Timers.tickN, Timers.tick, Timers.new, tac_fast_timers,
        Timers.get_timer_counter_threshold, wadd8]
  · simp [Timers.tickN, Timers.tick, Timers.new, tac_fast_timers,
      Timers.get_timer_counter_threshold, wadd8]
  · simp [Timers.tickN, Timers.tick, Timers.new, tac_fast_timers,
      Timers.get_timer_counter_threshold, wadd8]

/-- Witness for claim C3 (amended), evaluated at TMA = 0x42 with a fresh
interrupt controller and dot 7 as the intermediate check. -/
theorem timer_overflow_single_request_witness :
    (7 : Nat) ≤ 15 ∧
    (Timers.tickN 7 (tac_fast_timers 0x42, Interrupts.new)).2 =
      Interrupts.new ∧
    (Timers.tickN 16 (tac_fast_timers 0x42, Interrupts.new)).1.timer_counter
      = 0x42 := by
  have h := timer_overflow_single_request Interrupts.new 0x42
  exact ⟨by decide, h.1 7 (by decide), h.2.1⟩

/-! ## Claim C6 -/

/-- Claim C6: the background/window fetcher's FIFO is only ever refilled
from empty, in a single 8-pixel push: a tick either leaves the FIFO length
unchanged or (exactly in the empty-FIFO `PushRow` case) takes it from 0 to
8; in `PushRow` with a non-empty FIFO the fetcher is left entirely
unchanged (no new fetch cycle starts until the FIFO drains), and no other
state ever touches the FIFO. -/
theorem bgw_fifo_refill_granularity (f : BackgroundOrWindowFetcher)
    (ppu : PPU) :
    ((f.tick ppu).1.fifo.length = f.fifo.length ∨
      (f.state = FetcherState.PushRow ∧ f.fifo.length = 0 ∧
        (f.tick ppu).1.fifo.length = 8))
  ∧ (f.state = FetcherState.PushRow → f.fifo = [] →
      (f.tick ppu).1.fifo.length = 8 ∧
      (f.tick ppu).1.state = FetcherState.GetTileDelay)
  ∧ (f.state = FetcherState.PushRow → f.fifo ≠ [] → (f.tick ppu).1 = f)
  ∧ (f.state ≠ FetcherState.PushRow → (f.tick ppu).1.fifo = f.fifo) := by
  cases hs : f.state <;>
    simp_all [BackgroundOrWindowFetcher.tick] <;>
    rcases hf : f.fifo with _ | ⟨x, xs⟩ <;>
      simp_all [BackgroundOrWindowFetcher.tick]

/-- Witness for claim C6, evaluated on a fetcher parked in `PushRow` with an
empty FIFO against a fresh PPU. -/
theorem bgw_fifo_refill_granularity_witness :
    pushrow_fetcher.state = FetcherState.PushRow ∧
    pushrow_fetcher.fifo = [] ∧
    (pushrow_fetcher.tick (PPU.new false)).1.fifo.length = 8 ∧
    (pushrow_fetcher.tick (PPU.new false)).1.state =
      FetcherState.GetTileDelay := by
  have h := bgw_fifo_refill_granularity pushrow_fetcher (PPU.new false)
  exact ⟨rfl, rfl, h.2.1 rfl rfl⟩

/-! ## Claim C7 -/

/-- Claim C7: with LCDC bit 7 (LCD enable) cleared, ticking the PPU any
number of dots is a complete no-op: the PPU (hence LY, the STAT mode bits
and the scanline dot counter), both fetchers, the interrupt controller and
the mixer are all returned unchanged, and no panic can occur. -/
theorem ppu_ticks_noop_when_lcd_off (p : PPU) (bgw : BackgroundOrWindowFetcher)
    (obj : ObjectFetcher) (i : Interrupts) (pf : Fetcher)
    (h : p.is_lcd_ppu_on = false) (n : Nat) :
    PPU.ticks p bgw i obj pf n = some (p, bgw, obj, i, pf) := by
  have htick : PPU.tick p bgw obj i pf = some (p, bgw, obj, i, pf) := by
    simp [PPU.tick, h]
  induction n with
  | zero => rfl
  | succ n ih => rw [PPU.ticks, htick]; exact ih

/-- Witness for claim C7: a fresh PPU has the LCD off, and three dots leave
the whole pixel-pipeline state untouched. -/
theorem ppu_ticks_noop_when_lcd_off_witness :
    (PPU.new false).is_lcd_ppu_on = false ∧
    PPU.ticks (PPU.new false) BackgroundOrWindowFetcher.new Interrupts.new
      ObjectFetcher.new Fetcher.new 3 =
      some (PPU.new false, BackgroundOrWindowFetcher.new, ObjectFetcher.new,
        Interrupts.new, Fetcher.new) := by
  refine ⟨by decide, ?_⟩
  exact ppu_ticks_noop_when_lcd_off (PPU.new false)
    BackgroundOrWindowFetcher.new ObjectFetcher.new Interrupts.new
    Fetcher.new (by decide) 3

/-! ## Claim C9 -/

set_option maxHeartbeats 1000000 in
/-- Claim C9: every address in the gap 0xFEA0–0xFEFF between OAM and the
I/O block reads as 0xFF, and writing any value there is a silent no-op that
returns the machine unchanged — unlike other unmapped accesses, neither
access is a fatal error. -/
theorem oam_gap_reads_ff_and_ignores_writes (m : Machine) (a v : Nat)
    (h1 : 0xFEA0 ≤ a) (h2 : a ≤ 0xFEFF) :
    Machine.read_u8 m a = some 0xFF ∧ Machine.write_u8 m a v = some m := by
  constructor
  · have aux : ∀ fuel, Machine.read_u8_go m (fuel + 1) a = some 0xFF := by
      intro fuel
      rw [Machine.read_u8_go]
      rw [if_neg (fun hc => absurd hc.2 (by omega))]
      iterate 8 rw [if_neg (by omega)]
      rw [if_pos (by omega)]
    exact aux 1
  · rw [Machine.write_u8.eq_def]
    rw [if_neg (fun hc => absurd hc.2 (by omega))]
    iterate 10 rw [if_neg (by omega)]
    rw [if_pos (by omega)]

/-- Witness for claim C9 at address 0xFEA0 on a freshly constructed
machine. -/
theorem oam_gap_reads_ff_and_ignores_writes_witness :
    (0xFEA0 : Nat) ≤ 0xFEA0 ∧ (0xFEA0 : Nat) ≤ 0xFEFF ∧
    Machine.read_u8 fresh_machine 0xFEA0 = some 0xFF ∧
    Machine.write_u8 fresh_machine 0xFEA0 7 = some fresh_machine := by
  have h := oam_gap_reads_ff_and_ignores_writes fresh_machine 0xFEA0 7
    (by decide) (by decide)
  exact ⟨by decide, by decide, h.1, h.2⟩

/-! ## Work-RAM access lemmas (towards claim C2) -/

theorem wsub16_small (a b : Nat) (h1 : b ≤ a) (h2 : a < 65536)
    (h3 : b < 65536) : wsub16 a b = a - b := by
  simp only [wsub16]
  omega

/-- Reads in 0xC000–0xDFFF resolve to the two work-RAM banks. -/
theorem read_u8_wram (m : Machine) (a : Nat) (h1 : 0xC000 ≤ a)
    (h2 : a ≤ 0xDFFF) :
    Machine.read_u8 m a =
      some (if a ≤ 0xCFFF then m.ppu.wram_0 (wsub16 a 0xC000)
            else m.ppu.wram_1 (wsub16 a 0xD000)) := by
  have aux : Machine.read_u8_go m 2 a =
      some (if a ≤ 0xCFFF then m.ppu.wram_0 (wsub16 a 0xC000)
            else m.ppu.wram_1 (wsub16 a 0xD000)) := by
    rw [show (2 : Nat) = 1 + 1 from rfl, Machine.read_u8_go]
    rw [if_neg (fun hc => absurd hc.2 (by omega))]
    iterate 4 rw [if_neg (by omega)]
    by_cases hc : a ≤ 0xCFFF
    · rw [if_pos hc, if_pos hc]
      rfl
    · rw [if_neg hc, if_neg hc, if_pos (by omega)]
      rfl
  exact aux

/-- Writes in 0xC000–0xDFFF resolve to the two work-RAM banks. -/
theorem write_u8_wram (m : Machine) (a v : Nat) (h1 : 0xC000 ≤ a)
    (h2 : a ≤ 0xDFFF) :
    Machine.write_u8 m a v =
      some (if a ≤ 0xCFFF then
              { m with ppu := m.ppu.write_wram_0 (wsub16 a 0xC000) v }
            else
              { m with ppu := m.ppu.write_wram_1 (wsub16 a 0xD000) v }) := by
  rw [Machine.write_u8.eq_def]
  rw [if_neg (fun hc => absurd hc.2 (by omega))]
  iterate 6 rw [if_neg (by omega)]
  by_cases hc : a ≤ 0xCFFF
  · rw [if_pos hc, if_pos hc]
  · rw [if_neg hc, if_neg hc, if_pos (by omega)]

/-- `read_u8` never inspects the register file. -/
theorem read_u8_go_upd_registers (m : Machine) (f : Registers → Registers)
    (fuel : Nat) : ∀ a,
    Machine.read_u8_go (m.upd_registers f) fuel a =
      Machine.read_u8_go m fuel a := by
  induction fuel with
  | zero => intro a; rfl
  | succ n ih =>
      intro a
      conv_lhs => rw [Machine.read_u8_go]
      conv_rhs => rw [Machine.read_u8_go]
      rw [ih]
      rfl

/-- `read_u8` is unaffected by register-file updates. -/
theorem read_u8_upd_registers (m : Machine) (f : Registers → Registers)
    (a : Nat) :
    Machine.read_u8 (m.upd_registers f) a = Machine.read_u8 m a :=
  read_u8_go_upd_registers m f 2 a

/-- Pushing a 16-bit immediate with SP inside work RAM: SP drops by 2, the
higher byte lands at the higher freed address (SP-1), the lower byte below
it (SP-2), and nothing outside the PPU-owned RAM banks changes. -/
theorem push_imm16_wram (m : Machine) (imm : Immediate16)
    (h1 : 0xC002 ≤ m.cpu.registers.sp) (h2 : m.cpu.registers.sp ≤ 0xDFFF) :
    ∃ m', CPU.push_imm16 m imm = some m'
      ∧ m'.cpu.registers.sp = m.cpu.registers.sp - 2
      ∧ m'.cpu.registers.pc = m.cpu.registers.pc
      ∧ m'.interrupts = m.interrupts
      ∧ Machine.read_u8 m' (m.cpu.registers.sp - 1) = some imm.higher_byte
      ∧ Machine.read_u8 m' (m.cpu.registers.sp - 2) = some imm.lower_byte := by
  have e1 : wsub16 m.cpu.registers.sp 1 = m.cpu.registers.sp - 1 :=
    wsub16_small _ _ (by omega) (by omega) (by omega)
  have e2 : wsub16 (m.cpu.registers.sp - 1) 1 = m.cpu.registers.sp - 2 :=
    wsub16_small _ _ (by omega) (by omega) (by omega)
  unfold CPU.push_imm16
  simp only [Machine.upd_registers, e1]
  rw [write_u8_wram _ _ _ (by omega) (by omega)]
  by_cases hA : m.cpu.registers.sp - 1 ≤ 0xCFFF
  · rw [if_pos hA]
    simp only [Option.bind_eq_bind, Option.some_bind, e2]
    rw [write_u8_wram _ _ _ (by omega) (by omega)]
    rw [if_pos (by omega)]
    have e3 : wsub16 (m.cpu.registers.sp - 1) 0xC000 =
        m.cpu.registers.sp - 1 - 0xC000 :=
      wsub16_small _ _ (by omega) (by omega) (by omega)
    have e4 : wsub16 (m.cpu.registers.sp - 2) 0xC000 =
        m.cpu.registers.sp - 2 - 0xC000 :=
      wsub16_small _ _ (by omega) (by omega) (by omega)
    refine ⟨_, rfl, rfl, rfl, rfl, ?_, ?_⟩
    · rw [read_u8_wram _ _ (by omega) (by omega), if_pos hA]
      simp only [PPU.write_wram_0, updF, e3, e4]
      split_ifs <;> first | rfl | omega
    · rw [read_u8_wram _ _ (by omega) (by omega), if_pos (by omega)]
      simp only [PPU.write_wram_0, updF, e3, e4]
      split_ifs <;> first | rfl | omega
  · rw [if_neg hA]
    simp only [Option.bind_eq_bind, Option.some_bind, e2]
    by_cases hB : m.cpu.registers.sp - 2 ≤ 0xCFFF
    · -- the two bytes straddle the bank boundary: SP = 0xD001
      rw [write_u8_wram _ _ _ (by omega) (by omega)]
      rw [if_pos hB]
      have e3 : wsub16 (m.cpu.registers.sp - 1) 0xD000 =
          m.cpu.registers.sp - 1 - 0xD000 :=
        wsub16_small _ _ (by omega) (by omega) (by omega)
      have e4 : wsub16 (m.cpu.registers.sp - 2) 0xC000 =
          m.cpu.registers.sp - 2 - 0xC000 :=
        wsub16_small _ _ (by omega) (by omega) (by omega)
      refine ⟨_, rfl, rfl, rfl, rfl, ?_, ?_⟩
      · rw [read_u8_wram _ _ (by omega) (by omega), if_neg hA]
        simp only [PPU.write_wram_0, PPU.write_wram_1, updF, e3, e4]
        split_ifs <;> first | rfl | omega
      · rw [read_u8_wram _ _ (by omega) (by omega), if_pos hB]
        simp only [PPU.write_wram_0, PPU.write_wram_1, updF, e3, e4]
        split_ifs <;> first | rfl | omega
    · rw [write_u8_wram _ _ _ (by omega) (by omega)]
      rw [if_neg hB]
      have e3 : wsub16 (m.cpu.registers.sp - 1) 0xD000 =
          m.cpu.registers.sp - 1 - 0xD000 :=
        wsub16_small _ _ (by omega) (by omega) (by omega)
      have e4 : wsub16 (m.cpu.registers.sp - 2) 0xD000 =
          m.cpu.registers.sp - 2 - 0xD000 :=
        wsub16_small _ _ (by omega) (by omega) (by omega)
      refine ⟨_, rfl, rfl, rfl, rfl, ?_, ?_⟩
      · rw [read_u8_wram _ _ (by omega) (by omega), if_neg hA]
        simp only [PPU.write_wram_1, updF, e3, e4]
        split_ifs <;> first | rfl | omega
      · rw [read_u8_wram _ _ (by omega) (by omega), if_neg hB]
        simp only [PPU.write_wram_1, updF, e3, e4]
        split_ifs <;> first | rfl | omega

/-! ## t-cycle-counter preservation through the CPU phase -/

/-- Destructor for a successful monadic bind over `Option`. -/
theorem opt_bind_eq_some {α β : Type} {o : Option α} {f : α → Option β}
    {b : β} (h : o >>= f = some b) : ∃ a, o = some a ∧ f a = some b := by
  cases o with
  | none => exact Option.noConfusion h
  | some a => exact ⟨a, rfl, h⟩

/-- Updating the registers never touches the t-cycle counter.  Used as a
rewrite so that no definitional-equality check has to look through the
wrapping arithmetic inside concrete register updates. -/
theorem t_cycle_count_upd_registers (m : Machine) (f : Registers → Registers) :
    (Machine.upd_registers m f).t_cycle_count = m.t_cycle_count := by
  rw [Machine.upd_registers]

theorem pres3_pure (m : Machine) (x : Machine × Nat × Nat)
    (h : x.1.t_cycle_count = m.t_cycle_count) : pres3 m (some x) := by
  intro r hr
  cases hr
  exact h

theorem pres3_none (m : Machine) : pres3 m none := by
  intro r hr
  cases hr

theorem pres3_bind_read (m : Machine) (o : Option Nat)
    (f : Nat → Option (Machine × Nat × Nat))
    (h : ∀ a, pres3 m (f a)) : pres3 m (o >>= f) := by
  intro r hr
  obtain ⟨a, -, h2⟩ := opt_bind_eq_some hr
  exact h a r h2

theorem pres3_bind_machine (m : Machine) (o : Option Machine)
    (f : Machine → Option (Machine × Nat × Nat))
    (h1 : ∀ m1, o = some m1 → m1.t_cycle_count = m.t_cycle_count)
    (h2 : ∀ m1, m1.t_cycle_count = m.t_cycle_count → pres3 m (f m1)) :
    pres3 m (o >>= f) := by
  intro r hr
  obtain ⟨m1, hm1, h3⟩ := opt_bind_eq_some hr
  exact h2 m1 (h1 m1 hm1) r h3

/-- One byte of the OAM DMA loop leaves the t-cycle counter alone. -/
theorem tcc_dma_step (m : Machine) (b off : Nat) (m1 : Machine)
    (h : dma_step m b off = some m1) :
    m1.t_cycle_count = m.t_cycle_count := by
  rw [dma_step] at h
  obtain ⟨byte, -, h⟩ := opt_bind_eq_some h
  simp only [Option.some.injEq] at h
  subst h
  rfl

theorem tcc_dma_foldl (b : Nat) (l : List Nat) :
    ∀ (m0 m1 : Machine),
      List.foldlM (fun m offset => dma_step m b offset) m0 l = some m1 →
      m1.t_cycle_count = m0.t_cycle_count := by
  induction l with
  | nil =>
      intro m0 m1 h
      simp only [List.foldlM_nil] at h
      injection h with h
      rw [← h]
  | cons x xs ih =>
      intro m0 m1 h
      rw [List.foldlM_cons] at h
      obtain ⟨m2, h2, h⟩ := opt_bind_eq_some h
      exact (ih m2 m1 h).trans (tcc_dma_step m0 b x m2 h2)

/-- `write_u8`'s OAM DMA arm leaves the t-cycle counter alone. -/
theorem tcc_dma (m : Machine) (b : Nat) (m1 : Machine)
    (h : dma_transfer m b = some m1) :
    m1.t_cycle_count = m.t_cycle_count := by
  rw [dma_transfer] at h
  exact tcc_dma_foldl b _ m m1 h

set_option maxHeartbeats 4000000 in
/-- No arm of the write-side memory map touches the t-cycle counter. -/
theorem tcc_write (m : Machine) (a v : Nat) (m1 : Machine)
    (h : Machine.write_u8 m a v = some m1) :
    m1.t_cycle_count = m.t_cycle_count := by
  rw [Machine.write_u8] at h
  by_cases c1 : m.is_dmg_boot_rom_on ∧ a ≤ 0xFF
  · rw [if_pos c1] at h
    exact Option.noConfusion h
  rw [if_neg c1] at h
  by_cases c2 : a ≤ 0x1FFF
  · rw [if_pos c2] at h
    revert h
    cases m.rom_information.mapper_type <;> intro h <;>
      first
        | (simp only [Option.some.injEq] at h; subst h; rfl)
        | exact Option.noConfusion h
  rw [if_neg c2] at h
  by_cases c3 : a ≤ 0x3FFF
  · rw [if_pos c3] at h
    revert h
    cases m.rom_information.mapper_type <;> intro h <;>
      first
        | (simp only [Option.some.injEq] at h; subst h; rfl)
        | exact Option.noConfusion h
  rw [if_neg c3] at h
  by_cases c4 : a ≤ 0x5FFF
  · rw [if_pos c4] at h
    revert h
    cases m.rom_information.mapper_type <;> intro h <;>
      first
        | (simp only [Option.some.injEq] at h; subst h; rfl)
        | exact Option.noConfusion h
  rw [if_neg c4] at h
  by_cases c5 : a ≤ 0x7FFF
  · rw [if_pos c5] at h
    revert h
    cases m.rom_information.mapper_type <;> intro h <;>
      first
        | (simp only [Option.some.injEq] at h; subst h; rfl)
        | exact Option.noConfusion h
  rw [if_neg c5] at h
  by_cases c6 : a ≤ 0x9FFF
  · rw [if_pos c6] at h
    simp only [Option.some.injEq] at h
    subst h
    rfl
  rw [if_neg c6] at h
  by_cases c7 : a ≤ 0xBFFF
  · rw [if_pos c7] at h
    revert h
    cases m.rom_information.ram_size <;> intro h <;>
      first
        | (simp only [Option.some.injEq] at h; subst h; rfl)
        | exact Option.noConfusion h
  rw [if_neg c7] at h
  by_cases c8 : a ≤ 0xCFFF
  · rw [if_pos c8] at h
    simp only [Option.some.injEq] at h
    subst h
    rfl
  rw [if_neg c8] at h
  by_cases c9 : a ≤ 0xDFFF
  · rw [if_pos c9] at h
    simp only [Option.some.injEq] at h
    subst h
    rfl
  rw [if_neg c9] at h
  by_cases c10 : a ≤ 0xFDFF
  · rw [if_pos c10] at h
    exact Option.noConfusion h
  rw [if_neg c10] at h
  by_cases c11 : a ≤ 0xFE9F
  · rw [if_pos c11] at h
    simp only [Option.some.injEq] at h
    subst h
    rfl
  rw [if_neg c11] at h
  by_cases c12 : a ≤ 0xFEFF
  · rw [if_pos c12] at h
    simp only [Option.some.injEq] at h
    subst h
    rfl
  rw [if_neg c12] at h
  by_cases c13 : a = 0xFF00
  · rw [if_pos c13] at h
    simp only [Option.some.injEq] at h
    subst h
    rfl
  rw [if_neg c13] at h
  by_cases c14 : a = 0xFF01
  · rw [if_pos c14] at h
    simp only [Option.some.injEq] at h
    subst h
    rfl
  rw [if_neg c14] at h
  by_cases c15 : a = 0xFF02
  · rw [if_pos c15] at h
    simp only [Option.some.injEq] at h
    subst h
    rfl
  rw [if_neg c15] at h
  by_cases c16 : a = 0xFF03
  · rw [if_pos c16] at h
    simp only [Option.some.injEq] at h
    subst h
    rfl
  rw [if_neg c16] at h
  by_cases c17 : a ≤ 0xFF07
  · rw [if_pos c17] at h
    obtain ⟨t, -, h⟩ := opt_bind_eq_some h
    simp only [Option.some.injEq] at h
    subst h
    rfl
  rw [if_neg c17] at h
  by_cases c18 : a = 0xFF08
  · rw [if_pos c18] at h
    simp only [Option.some.injEq] at h
    subst h
    rfl
  rw [if_neg c18] at h
  by_cases c19 : a = 0xFF09
  · rw [if_pos c19] at h
    simp only [Option.some.injEq] at h
    subst h
    rfl
  rw [if_neg c19] at h
  by_cases c20 : a = 0xFF0A
  · rw [if_pos c20] at h
    simp only [Option.some.injEq] at h
    subst h
    rfl
  rw [if_neg c20] at h
  by_cases c21 : a = 0xFF0B
  · rw [if_pos c21] at h
    simp only [Option.some.injEq] at h
    subst h
    rfl
  rw [if_neg c21] at h
  by_cases c22 : a = 0xFF0C
  · rw [if_pos c22] at h
    simp only [Option.some.injEq] at h
    subst h
    rfl
  rw [if_neg c22] at h
  by_cases c23 : a = 0xFF0D
  · rw [if_pos c23] at h
    simp only [Option.some.injEq] at h
    subst h
    rfl
  rw [if_neg c23] at h
  by_cases c24 : a = 0xFF0E
  · rw [if_pos c24] at h
    simp only [Option.some.injEq] at h
    subst h
    rfl
  rw [if_neg c24] at h
  by_cases c25 : a = 0xFF0F
  · rw [if_pos c25] at h
    simp only [Option.some.injEq] at h
    subst h
    rfl
  rw [if_neg c25] at h
  by_cases c26 : a = 0xFF10
  · rw [if_pos c26] at h
    simp only [Option.some.injEq] at h
    subst h
    rfl
  rw [if_neg c26] at h
  by_cases c27 : a = 0xFF11
  · rw [if_pos c27] at h
    simp only [Option.some.injEq] at h
    subst h
    rfl
  rw [if_neg c27] at h
  by_cases c28 : a = 0xFF12
  · rw [if_pos c28] at h
    simp only [Option.some.injEq] at h
    subst h
    rfl
  rw [if_neg c28] at h
  by_cases c29 : a = 0xFF13
  · rw [if_pos c29] at h
    simp only [Option.some.injEq] at h
    subst h
    rfl
  rw [if_neg c29] at h
  by_cases c30 : a = 0xFF14
  · rw [if_pos c30] at h
    simp only [Option.some.injEq] at h
    subst h
    rfl
  rw [if_neg c30] at h
  by_cases c31 : a = 0xFF15
  · rw [if_pos c31] at h
    simp only [Option.some.injEq] at h
    subst h
    rfl
  rw [if_neg c31] at h
  by_cases c32 : a = 0xFF16
  · rw [if_pos c32] at h
    simp only [Option.some.injEq] at h
    subst h
    rfl
  rw [if_neg c32] at h
  by_cases c33 : a = 0xFF17
  · rw [if_pos c33] at h
    simp only [Option.some.injEq] at h
    subst h
    rfl
  rw [if_neg c33] at h
  by_cases c34 : a = 0xFF18
  · rw [if_pos c34] at h
    simp only [Option.some.injEq] at h
    subst h
    rfl
  rw [if_neg c34] at h
  by_cases c35 : a = 0xFF19
  · rw [if_pos c35] at h
    simp only [Option.some.injEq] at h
    subst h
    rfl
  rw [if_neg c35] at h
  by_cases c36 : a = 0xFF1A
  · rw [if_pos c36] at h
    simp only [Option.some.injEq] at h
    subst h
    rfl
  rw [if_neg c36] at h
  by_cases c37 : a = 0xFF1B
  · rw [if_pos c37] at h
    simp only [Option.some.injEq] at h
    subst h
    rfl
  rw [if_neg c37] at h
  by_cases c38 : a = 0xFF1C
  · rw [if_pos c38] at h
    simp only [Option.some.injEq] at h
    subst h
    rfl
  rw [if_neg c38] at h
  by_cases c39 : a = 0xFF1D
  · rw [if_pos c39] at h
    simp only [Option.some.injEq] at h
    subst h
    rfl
  rw [if_neg c39] at h
  by_cases c40 : a = 0xFF1E
  · rw [if_pos c40] at h
    simp only [Option.some.injEq] at h
    subst h
    rfl
  rw [if_neg c40] at h
  by_cases c41 : a = 0xFF1F
  · rw [if_pos c41] at h
    simp only [Option.some.injEq] at h
    subst h
    rfl
  rw [if_neg c41] at h
  by_cases c42 : a = 0xFF20
  · rw [if_pos c42] at h
    simp only [Option.some.injEq] at h
    subst h
    rfl
  rw [if_neg c42] at h
  by_cases c43 : a = 0xFF21
  · rw [if_pos c43] at h
    simp only [Option.some.injEq] at h
    subst h
    rfl
  rw [if_neg c43] at h
  by_cases c44 : a = 0xFF22
  · rw [if_pos c44] at h
    simp only [Option.some.injEq] at h
    subst h
    rfl
  rw [if_neg c44] at h
  by_cases c45 : a = 0xFF23
  · rw [if_pos c45] at h
    simp only [Option.some.injEq] at h
    subst h
    rfl
  rw [if_neg c45] at h
  by_cases c46 : a = 0xFF24
  · rw [if_pos c46] at h
    simp only [Option.some.injEq] at h
    subst h
    rfl
  rw [if_neg c46] at h
  by_cases c47 : a = 0xFF25
  · rw [if_pos c47] at h
    simp only [Option.some.injEq] at h
    subst h
    rfl
  rw [if_neg c47] at h
  by_cases c48 : a = 0xFF26
  · rw [if_pos c48] at h
    simp only [Option.some.injEq] at h
    subst h
    rfl
  rw [if_neg c48] at h
  by_cases c49 : a ≤ 0xFF2F
  · rw [if_pos c49] at h
    simp only [Option.some.injEq] at h
    subst h
    rfl
  rw [if_neg c49] at h
  by_cases c50 : a ≤ 0xFF3F
  · rw [if_pos c50] at h
    simp only [Option.some.injEq] at h
    subst h
    rfl
  rw [if_neg c50] at h
  by_cases c51 : a = 0xFF40
  · rw [if_pos c51] at h
    simp only [Option.some.injEq] at h
    subst h
    rfl
  rw [if_neg c51] at h
  by_cases c52 : a = 0xFF41
  · rw [if_pos c52] at h
    simp only [Option.some.injEq] at h
    subst h
    rfl
  rw [if_neg c52] at h
  by_cases c53 : a = 0xFF42
  · rw [if_pos c53] at h
    simp only [Option.some.injEq] at h
    subst h
    rfl
  rw [if_neg c53] at h
  by_cases c54 : a = 0xFF43
  · rw [if_pos c54] at h
    simp only [Option.some.injEq] at h
    subst h
    rfl
  rw [if_neg c54] at h
  by_cases c55 : a = 0xFF44
  · rw [if_pos c55] at h
    exact Option.noConfusion h
  rw [if_neg c55] at h
  by_cases c56 : a = 0xFF45
  · rw [if_pos c56] at h
    simp only [Option.some.injEq] at h
    subst h
    rfl
  rw [if_neg c56] at h
  by_cases c57 : a = 0xFF46
  · rw [if_pos c57] at h
    by_cases cdma : v > 0xDF
    · rw [if_pos cdma] at h
      exact Option.noConfusion h
    rw [if_neg cdma] at h
    exact tcc_dma m _ m1 h
  rw [if_neg c57] at h
  by_cases c58 : a = 0xFF47
  · rw [if_pos c58] at h
    simp only [Option.some.injEq] at h
    subst h
    rfl
  rw [if_neg c58] at h
  by_cases c59 : a = 0xFF48
  · rw [if_pos c59] at h
    simp only [Option.some.injEq] at h
    subst h
    rfl
  rw [if_neg c59] at h
  by_cases c60 : a = 0xFF49
  · rw [if_pos c60] at h
    simp only [Option.some.injEq] at h
    subst h
    rfl
  rw [if_neg c60] at h
  by_cases c61 : a = 0xFF4A
  · rw [if_pos c61] at h
    simp only [Option.some.injEq] at h
    subst h
    rfl
  rw [if_neg c61] at h
  by_cases c62 : a = 0xFF4B
  · rw [if_pos c62] at h
    simp only [Option.some.injEq] at h
    subst h
    rfl
  rw [if_neg c62] at h
  by_cases c63 : a = 0xFF4D
  · rw [if_pos c63] at h
    simp only [Option.some.injEq] at h
    subst h
    rfl
  rw [if_neg c63] at h
  by_cases c64 : a = 0xFF4F
  · rw [if_pos c64] at h
    simp only [Option.some.injEq] at h
    subst h
    rfl
  rw [if_neg c64] at h
  by_cases c65 : a = 0xFF50
  · rw [if_pos c65] at h
    simp only [Option.some.injEq] at h
    subst h
    rfl
  rw [if_neg c65] at h
  by_cases c66 : a = 0xFF68
  · rw [if_pos c66] at h
    simp only [Option.some.injEq] at h
    subst h
    rfl
  rw [if_neg c66] at h
  by_cases c67 : a = 0xFF69
  · rw [if_pos c67] at h
    simp only [Option.some.injEq] at h
    subst h
    rfl
  rw [if_neg c67] at h
  by_cases c68 : a = 0xFF6A
  · rw [if_pos c68] at h
    simp only [Option.some.injEq] at h
    subst h
    rfl
  rw [if_neg c68] at h
  by_cases c69 : a = 0xFF6B
  · rw [if_pos c69] at h
    simp only [Option.some.injEq] at h
    subst h
    rfl
  rw [if_neg c69] at h
  by_cases c70 : a = 0xFF70
  · rw [if_pos c70] at h
    simp only [Option.some.injEq] at h
    subst h
    rfl
  rw [if_neg c70] at h
  by_cases c71 : a = 0xFF72
  · rw [if_pos c71] at h
    simp only [Option.some.injEq] at h
    subst h
    rfl
  rw [if_neg c71] at h
  by_cases c72 : a = 0xFF73
  · rw [if_pos c72] at h
    simp only [Option.some.injEq] at h
    subst h
    rfl
  rw [if_neg c72] at h
  by_cases c73 : a = 0xFF74
  · rw [if_pos c73] at h
    simp only [Option.some.injEq] at h
    subst h
    rfl
  rw [if_neg c73] at h
  by_cases c74 : a = 0xFF75
  · rw [if_pos c74] at h
    simp only [Option.some.injEq] at h
    subst h
    rfl
  rw [if_neg c74] at h
  by_cases c75 : a = 0xFF7F
  · rw [if_pos c75] at h
    simp only [Option.some.injEq] at h
    subst h
    rfl
  rw [if_neg c75] at h
  by_cases c76 : 0xFF80 ≤ a ∧ a ≤ 0xFFFE
  · rw [if_pos c76] at h
    simp only [Option.some.injEq] at h
    subst h
    rfl
  rw [if_neg c76] at h
  by_cases c77 : a = 0xFFFF
  · rw [if_pos c77] at h
    simp only [Option.some.injEq] at h
    subst h
    rfl
  rw [if_neg c77] at h
  exact Option.noConfusion h

/-- Pushing a 16-bit value leaves the t-cycle counter alone. -/
theorem tcc_push (m : Machine) (imm : Immediate16) (m1 : Machine)
    (h : CPU.push_imm16 m imm = some m1) :
    m1.t_cycle_count = m.t_cycle_count := by
  rw [CPU.push_imm16] at h
  obtain ⟨m2, h2, h⟩ := opt_bind_eq_some h
  have e1 := tcc_write _ _ _ _ h
  rw [t_cycle_count_upd_registers] at e1
  have e2 := tcc_write _ _ _ _ h2
  rw [t_cycle_count_upd_registers] at e2
  exact e1.trans e2

/-- Popping a 16-bit value leaves the t-cycle counter alone. -/
theorem tcc_pop (m : Machine) (r16 : R16) (m1 : Machine)
    (h : CPU.pop_r16 m r16 = some m1) :
    m1.t_cycle_count = m.t_cycle_count := by
  rw [CPU.pop_r16] at h
  obtain ⟨lo, -, h⟩ := opt_bind_eq_some h
  obtain ⟨hi, -, h⟩ := opt_bind_eq_some h
  simp only [Option.some.injEq] at h
  subst h
  simp only [t_cycle_count_upd_registers]

/-- `call` leaves the t-cycle counter alone. -/
theorem tcc_call (m : Machine) (a : Nat) (m1 : Machine)
    (h : cpu_call m a = some m1) : m1.t_cycle_count = m.t_cycle_count := by
  rw [cpu_call] at h
  obtain ⟨m2, hp, h⟩ := opt_bind_eq_some h
  simp only [Option.some.injEq] at h
  subst h
  rw [t_cycle_count_upd_registers]
  exact tcc_push _ _ _ hp

set_option maxRecDepth 2048 in
/-- No instruction-semantics arm touches the t-cycle counter. -/
theorem tcc_execute_core (i : Instruction) (m : Machine) :
    pres3 m (Instruction.execute_core i m) := by
  cases i
  all_goals simp only [Instruction.execute_core]
  all_goals try exact pres3_none _
  all_goals try
    (repeat' split
     all_goals
       (apply pres3_pure
        try simp only [t_cycle_count_upd_registers]
        all_goals rfl))
  all_goals try
    (apply pres3_bind_read
     intro b
     repeat' split
     all_goals
       (apply pres3_pure
        try simp only [t_cycle_count_upd_registers]
        all_goals rfl))
  case LD_FFu8_A =>
    apply pres3_bind_machine
    · intro m2 hw
      have h9 := tcc_write _ _ _ _ hw
      exact h9
    · intro m2 hc
      repeat' split
      all_goals
        (apply pres3_pure
         try simp only [t_cycle_count_upd_registers]
         all_goals first
           | rfl
           | assumption)
  case LD_mu16_A =>
    apply pres3_bind_machine
    · intro m2 hw
      have h9 := tcc_write _ _ _ _ hw
      exact h9
    · intro m2 hc
      repeat' split
      all_goals
        (apply pres3_pure
         try simp only [t_cycle_count_upd_registers]
         all_goals first
           | rfl
           | assumption)
  case LD_FFC_A =>
    apply pres3_bind_machine
    · intro m2 hw
      have h9 := tcc_write _ _ _ _ hw
      exact h9
    · intro m2 hc
      repeat' split
      all_goals
        (apply pres3_pure
         try simp only [t_cycle_count_upd_registers]
         all_goals first
           | rfl
           | assumption)
  case LD_mr16_r8 =>
    apply pres3_bind_machine
    · intro m2 hw
      have h9 := tcc_write _ _ _ _ hw
      exact h9
    · intro m2 hc
      repeat' split
      all_goals
        (apply pres3_pure
         try simp only [t_cycle_count_upd_registers]
         all_goals first
           | rfl
           | assumption)
  case LD_mHL_u8 =>
    apply pres3_bind_machine
    · intro m2 hw
      have h9 := tcc_write _ _ _ _ hw
      exact h9
    · intro m2 hc
      repeat' split
      all_goals
        (apply pres3_pure
         try simp only [t_cycle_count_upd_registers]
         all_goals first
           | rfl
           | assumption)
  case LD_mHLdec_A =>
    apply pres3_bind_machine
    · intro m2 hw
      have h9 := tcc_write _ _ _ _ hw
      exact h9
    · intro m2 hc
      repeat' split
      all_goals
        (apply pres3_pure
         try simp only [t_cycle_count_upd_registers]
         all_goals first
           | rfl
           | assumption)
  case LD_mHLinc_A =>
    apply pres3_bind_machine
    · intro m2 hw
      have h9 := tcc_write _ _ _ _ hw
      exact h9
    · intro m2 hc
      repeat' split
      all_goals
        (apply pres3_pure
         try simp only [t_cycle_count_upd_registers]
         all_goals first
           | rfl
           | assumption)
  case INC_mHL =>
    apply pres3_bind_read
    intro b
    repeat' split
    all_goals
      (apply pres3_bind_machine
       · intro m2 hw
         have h9 := tcc_write _ _ _ _ hw
         exact h9
       · intro m2 hc
         repeat' split
         all_goals
           (apply pres3_pure
            try simp only [t_cycle_count_upd_registers]
            all_goals first
              | rfl
              | assumption))
  case DEC_mHL =>
    apply pres3_bind_read
    intro b
    repeat' split
    all_goals
      (apply pres3_bind_machine
       · intro m2 hw
         have h9 := tcc_write _ _ _ _ hw
         exact h9
       · intro m2 hc
         repeat' split
         all_goals
           (apply pres3_pure
            try simp only [t_cycle_count_upd_registers]
            all_goals first
              | rfl
              | assumption))
  case RES_u3_mHL =>
    apply pres3_bind_read
    intro b
    repeat' split
    all_goals
      (apply pres3_bind_machine
       · intro m2 hw
         have h9 := tcc_write _ _ _ _ hw
         exact h9
       · intro m2 hc
         repeat' split
         all_goals
           (apply pres3_pure
            try simp only [t_cycle_count_upd_registers]
            all_goals first
              | rfl
              | assumption))
  case SET_u3_mHL =>
    apply pres3_bind_read
    intro b
    repeat' split
    all_goals
      (apply pres3_bind_machine
       · intro m2 hw
         have h9 := tcc_write _ _ _ _ hw
         exact h9
       · intro m2 hc
         repeat' split
         all_goals
           (apply pres3_pure
            try simp only [t_cycle_count_upd_registers]
            all_goals first
              | rfl
              | assumption))
  case RL_mHL =>
    apply pres3_bind_read
    intro b
    repeat' split
    all_goals
      (apply pres3_bind_machine
       · intro m2 hw
         have h9 := tcc_write _ _ _ _ hw
         exact h9
       · intro m2 hc
         repeat' split
         all_goals
           (apply pres3_pure
            try simp only [t_cycle_count_upd_registers]
            all_goals first
              | rfl
              | assumption))
  case RLC_mHL =>
    apply pres3_bind_read
    intro b
    repeat' split
    all_goals
      (apply pres3_bind_machine
       · intro m2 hw
         have h9 := tcc_write _ _ _ _ hw
         exact h9
       · intro m2 hc
         repeat' split
         all_goals
           (apply pres3_pure
            try simp only [t_cycle_count_upd_registers]
            all_goals first
              | rfl
              | assumption))
  case RR_mHL =>
    apply pres3_bind_read
    intro b
    repeat' split
    all_goals
      (apply pres3_bind_machine
       · intro m2 hw
         have h9 := tcc_write _ _ _ _ hw
         exact h9
       · intro m2 hc
         repeat' split
         all_goals
           (apply pres3_pure
            try simp only [t_cycle_count_upd_registers]
            all_goals first
              | rfl
              | assumption))
  case RRC_mHL =>
    apply pres3_bind_read
    intro b
    repeat' split
    all_goals
      (apply pres3_bind_machine
       · intro m2 hw
         have h9 := tcc_write _ _ _ _ hw
         exact h9
       · intro m2 hc
         repeat' split
         all_goals
           (apply pres3_pure
            try simp only [t_cycle_count_upd_registers]
            all_goals first
              | rfl
              | assumption))
  case SLA_mHL =>
    apply pres3_bind_read
    intro b
    repeat' split
    all_goals
      (apply pres3_bind_machine
       · intro m2 hw
         have h9 := tcc_write _ _ _ _ hw
         exact h9
       · intro m2 hc
         repeat' split
         all_goals
           (apply pres3_pure
            try simp only [t_cycle_count_upd_registers]
            all_goals first
              | rfl
              | assumption))
  case SRA_mHL =>
    apply pres3_bind_read
    intro b
    repeat' split
    all_goals
      (apply pres3_bind_machine
       · intro m2 hw
         have h9 := tcc_write _ _ _ _ hw
         exact h9
       · intro m2 hc
         repeat' split
         all_goals
           (apply pres3_pure
            try simp only [t_cycle_count_upd_registers]
            all_goals first
              | rfl
              | assumption))
  case SRL_mHL =>
    apply pres3_bind_read
    intro b
    repeat' split
    all_goals
      (apply pres3_bind_machine
       · intro m2 hw
         have h9 := tcc_write _ _ _ _ hw
         exact h9
       · intro m2 hc
         repeat' split
         all_goals
           (apply pres3_pure
            try simp only [t_cycle_count_upd_registers]
            all_goals first
              | rfl
              | assumption))
  case SWAP_mHL =>
    apply pres3_bind_read
    intro b
    repeat' split
    all_goals
      (apply pres3_bind_machine
       · intro m2 hw
         have h9 := tcc_write _ _ _ _ hw
         exact h9
       · intro m2 hc
         repeat' split
         all_goals
           (apply pres3_pure
            try simp only [t_cycle_count_upd_registers]
            all_goals first
              | rfl
              | assumption))
  case PUSH_r16 =>
    apply pres3_bind_machine
    · intro m2 hw
      have h9 := tcc_push _ _ _ hw
      exact h9
    · intro m2 hc
      repeat' split
      all_goals
        (apply pres3_pure
         try simp only [t_cycle_count_upd_registers]
         all_goals first
           | rfl
           | assumption)
  case RST =>
    apply pres3_bind_machine
    · intro m2 hw
      have h9 := tcc_push _ _ _ hw
      exact h9
    · intro m2 hc
      repeat' split
      all_goals
        (apply pres3_pure
         try simp only [t_cycle_count_upd_registers]
         all_goals first
           | rfl
           | assumption)
  case POP_r16 =>
    apply pres3_bind_machine
    · intro m2 hw
      have h9 := tcc_pop _ _ _ hw
      exact h9
    · intro m2 hc
      repeat' split
      all_goals
        (apply pres3_pure
         try simp only [t_cycle_count_upd_registers]
         all_goals first
           | rfl
           | assumption)
  case RET =>
    apply pres3_bind_machine
    · intro m2 hw
      have h9 := tcc_pop _ _ _ hw
      exact h9
    · intro m2 hc
      repeat' split
      all_goals
        (apply pres3_pure
         try simp only [t_cycle_count_upd_registers]
         all_goals first
           | rfl
           | assumption)
  case RETI =>
    apply pres3_bind_machine
    · intro m2 hw
      have h9 := tcc_pop _ _ _ hw
      exact h9
    · intro m2 hc
      repeat' split
      all_goals
        (apply pres3_pure
         try simp only [t_cycle_count_upd_registers]
         all_goals first
           | rfl
           | assumption)
  case CALL_a16 =>
    apply pres3_bind_machine
    · intro m2 hw
      have h9 := tcc_call _ _ _ hw
      exact h9
    · intro m2 hc
      repeat' split
      all_goals
        (apply pres3_pure
         try simp only [t_cycle_count_upd_registers]
         all_goals first
           | rfl
           | assumption)
  case CALL_cc_u16 =>
    split
    · apply pres3_bind_machine
      · intro m2 hw
        have h9 := tcc_call _ _ _ hw
        exact h9
      · intro m2 hc
        apply pres3_pure
        try simp only [t_cycle_count_upd_registers]
        all_goals first
          | rfl
          | assumption
    · apply pres3_pure
      try simp only [t_cycle_count_upd_registers]
      all_goals rfl
  case RET_cc =>
    split
    · apply pres3_bind_machine
      · intro m2 hw
        have h9 := tcc_pop _ _ _ hw
        exact h9
      · intro m2 hc
        apply pres3_pure
        try simp only [t_cycle_count_upd_registers]
        all_goals first
          | rfl
          | assumption
    · apply pres3_pure
      try simp only [t_cycle_count_upd_registers]
      all_goals rfl
  -- LD (u16), SP stores SP with two consecutive writes
  case LD_mu16_SP =>
    apply pres3_bind_machine
    · intro m2 hw
      have h9 := tcc_write _ _ _ _ hw
      exact h9
    · intro m2 hc
      apply pres3_bind_machine
      · intro m3 hw2
        have h9 := tcc_write _ _ _ _ hw2
        exact h9.trans hc
      · intro m3 hc2
        exact pres3_pure _ _ hc2

/-- `Instruction::execute` (EI resolution included) leaves the t-cycle
counter alone. -/
theorem tcc_execute (i : Instruction) (m m1 : Machine) (t mc : Nat)
    (h : Instruction.execute i m = some (m1, t, mc)) :
    m1.t_cycle_count = m.t_cycle_count := by
  rw [Instruction.execute] at h
  refine (tcc_execute_core i _ (m1, t, mc) h).trans ?_
  split <;> rfl

set_option maxRecDepth 4096 in
/-- `CPU::execute_one_instruction` leaves the t-cycle counter alone. -/
theorem tcc_execute_one (m : Machine) (m1 : Machine)
    (d : Option DecodedInstruction) (t mc : Nat)
    (h : CPU.execute_one_instruction m = some (m1, d, t, mc)) :
    m1.t_cycle_count = m.t_cycle_count := by
  rw [CPU.execute_one_instruction] at h
  by_cases hlp : m.cpu.low_power_mode = true
  · rw [if_pos hlp] at h
    by_cases hip : Interrupts.is_interrupt_pending m = true
    · rw [if_pos hip] at h
      obtain ⟨ni, -, h⟩ := opt_bind_eq_some h
      obtain ⟨⟨m2, t2, mc2⟩, he, h⟩ := opt_bind_eq_some h
      simp only [Option.some.injEq, Prod.mk.injEq] at h
      obtain ⟨h1, -⟩ := h
      subst h1
      have h9 := tcc_execute _ _ _ _ _ he
      rw [t_cycle_count_upd_registers] at h9
      exact h9
    · rw [if_neg hip] at h
      have h2 := Option.some.inj h
      have h3 : m = m1 := congrArg Prod.fst h2
      rw [← h3]
  · rw [if_neg hlp] at h
    obtain ⟨ni, -, h⟩ := opt_bind_eq_some h
    obtain ⟨⟨m2, t2, mc2⟩, he, h⟩ := opt_bind_eq_some h
    simp only [Option.some.injEq, Prod.mk.injEq] at h
    obtain ⟨h1, -⟩ := h
    subst h1
    have h9 := tcc_execute _ _ _ _ _ he
    rw [t_cycle_count_upd_registers] at h9
    exact h9

set_option maxRecDepth 4096 in
/-- The interrupt-dispatch sequence leaves the t-cycle counter alone. -/
theorem tcc_dispatch (m : Machine) (i : Nat) (m1 : Machine)
    (h : dispatch_interrupt m i = some m1) :
    m1.t_cycle_count = m.t_cycle_count := by
  rw [dispatch_interrupt] at h
  obtain ⟨m2, hp, h⟩ := opt_bind_eq_some h
  obtain ⟨off, -, h⟩ := opt_bind_eq_some h
  simp only [Option.some.injEq] at h
  subst h
  rw [t_cycle_count_upd_registers]
  have h9 := tcc_push _ _ _ hp
  exact h9

set_option maxRecDepth 4096 in
/-- `Interrupts::handle_interrupts` leaves the t-cycle counter alone. -/
theorem tcc_handle (m : Machine) (m1 : Machine) (t mc : Nat)
    (h : Interrupts.handle_interrupts m = some (m1, t, mc)) :
    m1.t_cycle_count = m.t_cycle_count := by
  rw [Interrupts.handle_interrupts] at h
  cases hsh : should_handle_interrupt m with
  | none =>
      rw [hsh] at h
      simp only [Option.some.injEq, Prod.mk.injEq] at h
      obtain ⟨h1, -⟩ := h
      rw [← h1]
  | some intr =>
      rw [hsh] at h
      obtain ⟨m2, hd, h⟩ := opt_bind_eq_some h
      obtain ⟨⟨m3, i3, t3, mc3⟩, he, h⟩ := opt_bind_eq_some h
      simp only [Option.some.injEq, Prod.mk.injEq] at h
      obtain ⟨h1, -⟩ := h
      subst h1
      exact (tcc_execute_one _ _ _ _ _ he).trans (tcc_dispatch _ _ _ hd)

set_option maxRecDepth 4096 in
/-- The whole CPU phase of a machine step leaves the t-cycle counter
alone: only the final counter update of `step_machine` changes it. -/
theorem tcc_cpu_phase (m m1 : Machine) (t mc : Nat)
    (d : Option DecodedInstruction)
    (h : step_machine_cpu_phase m = some (m1, t, mc, d)) :
    m1.t_cycle_count = m.t_cycle_count := by
  rw [step_machine_cpu_phase] at h
  obtain ⟨⟨m2, t2, mc2⟩, hh, h⟩ := opt_bind_eq_some h
  have hm2 := tcc_handle _ _ _ _ hh
  replace h : (if t2 = 0 then
        CPU.execute_one_instruction m2 >>= fun y =>
          match y with
          | (m, instruction_executed, t_cycles, m_cycles) =>
              some (m, t_cycles, m_cycles, instruction_executed)
      else some (m2, t2, mc2, none)) = some (m1, t, mc, d) := h
  by_cases ht : t2 = 0
  · rw [if_pos ht] at h
    obtain ⟨⟨m3, d3, t3, mc3⟩, he, h⟩ := opt_bind_eq_some h
    simp only [Option.some.injEq, Prod.mk.injEq] at h
    obtain ⟨h1, -⟩ := h
    subst h1
    exact (tcc_execute_one _ _ _ _ _ he).trans hm2
  · rw [if_neg ht] at h
    simp only [Option.some.injEq, Prod.mk.injEq] at h
    obtain ⟨h1, -⟩ := h
    subst h1
    exact hm2

/-! ## Claim C2 -/

/-- Claim C2: in any machine state with IME set, IE = 0x1F and IF = 0x06
(STAT and Timer both pending) whose stack pointer sits in work RAM,
interrupt selection picks STAT (bit 1, the lowest set bit) and the dispatch
sequence clears exactly bit 1 of IF (leaving the Timer bit set), clears
IME, pushes the pre-dispatch PC with the high byte at SP-1 and the low byte
at SP-2 (SP dropping by 2 overall), and sets PC to the STAT handler
address 0x48. -/
theorem interrupt_dispatch_stat_priority (m : Machine)
    (hime : m.interrupts.interrupt_master_enable = true)
    (hie : m.interrupts.interrupt_enable = 0x1F)
    (hif : m.interrupts.interrupt_flag = 0x06)
    (hsp1 : 0xC002 ≤ m.cpu.registers.sp)
    (hsp2 : m.cpu.registers.sp ≤ 0xDFFF) :
    should_handle_interrupt m = some 1
  ∧ ∃ m', dispatch_interrupt m 1 = some m'
      ∧ m'.interrupts.interrupt_flag = 0x04
      ∧ m'.interrupts.interrupt_master_enable = false
      ∧ m'.cpu.registers.sp = m.cpu.registers.sp - 2
      ∧ Machine.read_u8 m' (m.cpu.registers.sp - 1)
          = some (higher_u8 m.cpu.registers.pc)
      ∧ Machine.read_u8 m' (m.cpu.registers.sp - 2)
          = some (lower_u8 m.cpu.registers.pc)
      ∧ m'.cpu.registers.pc = 0x48 := by
  constructor
  · rw [should_handle_interrupt, hie, hif, hime]
    decide
  · rw [dispatch_interrupt]
    have hflag : m.interrupts.interrupt_flag &&& compl8 (1 <<< 1) = 0x04 := by
      rw [hif]; decide
    rw [hflag]
    obtain ⟨m2, hpush, hsp', hpc', hint', hread1, hread2⟩ :=
      push_imm16_wram
        { m with interrupts := { m.interrupts with
            interrupt_flag := 0x04, interrupt_master_enable := false } }
        (Immediate16.from_u16 m.cpu.registers.pc) hsp1 hsp2
    rw [hpush]
    simp only [Option.bind_eq_bind, Option.some_bind]
    refine ⟨_, rfl, ?_, ?_, ?_, ?_, ?_, rfl⟩
    · show m2.interrupts.interrupt_flag = 0x04
      rw [hint']
    · show m2.interrupts.interrupt_master_enable = false
      rw [hint']
    · exact hsp'
    · rw [read_u8_upd_registers]
      exact hread1
    · rw [read_u8_upd_registers]
      exact hread2

/-- Witness for claim C2 on the concrete pending-interrupt machine
(SP = 0xD000, PC = 0x1234). -/
theorem interrupt_dispatch_stat_priority_witness :
    interrupt_machine.interrupts.interrupt_master_enable = true ∧
    interrupt_machine.interrupts.interrupt_enable = 0x1F ∧
    interrupt_machine.interrupts.interrupt_flag = 0x06 ∧
    should_handle_interrupt interrupt_machine = some 1 := by
  have h := interrupt_dispatch_stat_priority interrupt_machine rfl rfl rfl
    (by decide) (by decide)
  exact ⟨rfl, rfl, rfl, h.1⟩

/-! ## Claim C4 -/

set_option maxRecDepth 100000 in
/-- Claim C4, counterexample: executing the 3 instructions LD A,5 (2
bytes); INC A (1 byte); NOP (1 byte) advances PC by 2+1+1 = 4 bytes, to
0x104, not by 1+1+1 = 3 bytes as claimed. -/
theorem scenario_pc_advance_counterexample :
    (run_instructions scenario_machine 3).map
      (fun r => r.1.cpu.registers.pc) = some 0x104 ∧
    ¬ ((run_instructions scenario_machine 3).map
      (fun r => r.1.cpu.registers.pc) = some (0x100 + 3)) := by
  constructor <;> decide

set_option maxRecDepth 100000 in
/-- Claim C4 (amended): executing the 4-byte program
`[0x3E, 0x05, 0x3C, 0x00]` (LD A,5; INC A; NOP) from the address
immediately after boot-ROM hand-off for 3 instruction steps yields
A = 0x06, flag Z clear, PC advanced by 2+1+1 = 4 bytes from the start
address (to 0x104), and a total of 8+4+4 = 16 elapsed t-cycles. -/
theorem scenario_three_steps :
    (run_instructions scenario_machine 3).map
      (fun r => (r.1.cpu.registers.read_a, r.1.cpu.registers.read_flag .Z,
        r.1.cpu.registers.pc, r.2)) = some (0x06, false, 0x104, 16) := by
  decide

/-! ## Claim C8 -/

/-- Claim C8 (code evaluation): `Machine::new` performs no validation of
the mapper kind, so construction with an unsupported mapper descriptor
succeeds and yields a machine; the failure only surfaces as a `todo!`
panic (modelled `none`) at the first mapper-dependent memory access —
reading the switchable ROM bank or writing a mapper register. -/
theorem machine_new_unsupported_mapper_not_rejected
    (boot game : Nat → Nat) (fix_ly : Bool) :
    (Machine.new boot game
        { mapper_type := .Other, ram_size := .NoRAM, rom_banks := 0 }
        fix_ly).rom_information.mapper_type = MapperType.Other
  ∧ Machine.read_u8 (Machine.new boot game
        { mapper_type := .Other, ram_size := .NoRAM, rom_banks := 0 }
        fix_ly) 0x4000 = none
  ∧ Machine.write_u8 (Machine.new boot game
        { mapper_type := .Other, ram_size := .NoRAM, rom_banks := 0 }
        fix_ly) 0x2000 0 = none :=
  ⟨rfl, rfl, rfl⟩

/-! ## Claim C1 -/

set_option maxRecDepth 4096 in
/-- Claim C1: every successful `step_machine` call decomposes as one CPU
phase (interrupt dispatch, a regular instruction, or the 4-cycle HALT
filler) returning the step's t-cycle count, after which the Timers are
ticked by exactly that count, the PPU is ticked by exactly that count
(receiving the interrupts as updated by the Timers), and the machine's
total t-cycle counter increases by exactly that count (modulo the u64
width); the CPU phase itself never touches the counter. -/
theorem step_machine_phase_locked (m : Machine) (res : MachineStep)
    (h : step_machine m = some res) :
    ∃ m1 mc instr i1,
      step_machine_cpu_phase m = some (m1, res.t_cycles, mc, instr)
      ∧ res.instruction_executed = instr
      ∧ Timers.ticks m1.timers m1.interrupts res.t_cycles
          = (res.machine.timers, i1)
      ∧ PPU.ticks m1.ppu m1.background_window_fetcher i1 m1.object_fetcher
          m1.pixel_fetcher res.t_cycles
          = some (res.machine.ppu, res.machine.background_window_fetcher,
              res.machine.object_fetcher, res.machine.interrupts,
              res.machine.pixel_fetcher)
      ∧ res.machine.t_cycle_count
          = (m.t_cycle_count + res.t_cycles) % 2 ^ 64 := by
  rw [step_machine] at h
  obtain ⟨⟨m1, t, mc, instr⟩, hp, h⟩ := opt_bind_eq_some h
  replace h : ((PPU.ticks m1.ppu m1.background_window_fetcher
        (Timers.ticks m1.timers m1.interrupts t).2 m1.object_fetcher
        m1.pixel_fetcher t) >>= fun y =>
      some { t_cycles := t, instruction_executed := instr,
             machine :=
               { m1 with
                 timers := (Timers.ticks m1.timers m1.interrupts t).1,
                 ppu := y.1,
                 background_window_fetcher := y.2.1,
                 object_fetcher := y.2.2.1,
                 interrupts := y.2.2.2.1,
                 pixel_fetcher := y.2.2.2.2,
                 t_cycle_count := (m1.t_cycle_count + t) % 2 ^ 64 } })
      = some res := h
  rcases hT : Timers.ticks m1.timers m1.interrupts t with ⟨T, i1⟩
  rw [hT] at h
  obtain ⟨⟨ppu1, bgw1, obj1, i2, pf1⟩, hP, h⟩ := opt_bind_eq_some h
  replace h := Option.some.inj h
  subst h
  refine ⟨m1, mc, instr, i1, hp, rfl, ?_, ?_, ?_⟩
  · exact hT
  · exact hP
  · have hc := tcc_cpu_phase m m1 t mc instr hp
    show (m1.t_cycle_count + t) % 2 ^ 64 = (m.t_cycle_count + t) % 2 ^ 64
    rw [hc]

set_option maxRecDepth 100000 in
/-- Closed witness for `step_machine_phase_locked`: the fresh machine
(boot ROM active, NOP at PC 0) makes one successful 4-t-cycle step. -/
theorem step_machine_phase_locked_witness :
    ∃ m1 mc instr i1,
      step_machine_cpu_phase fresh_machine
          = some (m1,
              ((step_machine fresh_machine).getD
                { t_cycles := 0, instruction_executed := none,
                  machine := fresh_machine }).t_cycles, mc, instr)
      ∧ ((step_machine fresh_machine).getD
            { t_cycles := 0, instruction_executed := none,
              machine := fresh_machine }).instruction_executed = instr
      ∧ Timers.ticks m1.timers m1.interrupts
            ((step_machine fresh_machine).getD
              { t_cycles := 0, instruction_executed := none,
                machine := fresh_machine }).t_cycles
          = (((step_machine fresh_machine).getD
                { t_cycles := 0, instruction_executed := none,
                  machine := fresh_machine }).machine.timers, i1)
      ∧ PPU.ticks m1.ppu m1.background_window_fetcher i1 m1.object_fetcher
          m1.pixel_fetcher
          ((step_machine fresh_machine).getD
            { t_cycles := 0, instruction_executed := none,
              machine := fresh_machine }).t_cycles
          = some ((((step_machine fresh_machine).getD
                  { t_cycles := 0, instruction_executed := none,
                    machine := fresh_machine }).machine.ppu,
              ((step_machine fresh_machine).getD
                  { t_cycles := 0, instruction_executed := none,
                    machine := fresh_machine
                }).machine.background_window_fetcher,
              ((step_machine fresh_machine).getD
                  { t_cycles := 0, instruction_executed := none,
                    machine := fresh_machine }).machine.object_fetcher,
              ((step_machine fresh_machine).getD
                  { t_cycles := 0, instruction_executed := none,
                    machine := fresh_machine }).machine.interrupts,
              ((step_machine fresh_machine).getD
                  { t_cycles := 0, instruction_executed := none,
                    machine := fresh_machine }).machine.pixel_fetcher))
      ∧ ((step_machine fresh_machine).getD
            { t_cycles := 0, instruction_executed := none,
              machine := fresh_machine }).machine.t_cycle_count
          = (fresh_machine.t_cycle_count
              + ((step_machine fresh_machine).getD
                  { t_cycles := 0, instruction_executed := none,
                    machine := fresh_machine }).t_cycles) % 2 ^ 64 :=
  step_machine_phase_locked fresh_machine
    ((step_machine fresh_machine).getD
      { t_cycles := 0, instruction_executed := none,
        machine := fresh_machine })
    (by rfl)

end GB
